import Mathlib

/-!
# JCurand JNI boundary: a shallow embedding of `JCurand.cpp`

Every exported function of `src/JCurandJNI/src/JCurand.cpp` is translated into a
pure function on an explicit `World` (the managed heap, the pending exception,
the log output and the trace of boundary events).  The wrapped CURAND library
and the fallible JVM services are parameters (`Env`): a native function is a
deterministic function of the history of native calls and of its arguments.
-/

namespace JCurand

/-! ## Machine integers and casts -/

/-- Reinterpretation of a 64-bit pattern as a signed `jlong`: `(jlong)x`. -/
def toJlong (u : Nat) : Int :=
  if u % 2 ^ 64 < 2 ^ 63 then ((u % 2 ^ 64 : Nat) : Int) else ((u % 2 ^ 64 : Nat) : Int) - 2 ^ 64

/-- Reinterpretation of a `jlong` as an unsigned 64-bit value or address:
`(unsigned long long)x`, `(size_t)x`, `(curandGenerator_t)x`. -/
def ofJlong (x : Int) : Nat := (x % 2 ^ 64).toNat

/-- Reinterpretation of a 32-bit pattern as a signed `jint`: `(jint)x`. -/
def toJint (u : Nat) : Int :=
  if u % 2 ^ 32 < 2 ^ 31 then ((u % 2 ^ 32 : Nat) : Int) else ((u % 2 ^ 32 : Nat) : Int) - 2 ^ 32

/-- Reinterpretation of a `jint` as an `unsigned int`: `(unsigned int)x`. -/
def ofJint (x : Int) : Nat := (x % 2 ^ 32).toNat

/-- A `jfloat`, kept as its bit pattern; the boundary only copies it. -/
structure JFloat where
  bits : Nat
deriving DecidableEq, Repr

/-- A `jdouble`, kept as its bit pattern; the boundary only copies it. -/
structure JDouble where
  bits : Nat
deriving DecidableEq, Repr

/-- A managed reference: `none` is Java `null`, `some i` the object with identity `i`. -/
abbrev jobject := Option Nat

/-! ## Constants of the headers -/

/-- Constants the source names but which are defined in headers outside this
file (`JCurand_common.hpp`, `curand.h`, `Logger.hpp`, `jni.h`). -/
structure Constants where
  JCURAND_STATUS_INTERNAL_ERROR : Int
  CURAND_STATUS_SUCCESS : Int
  CURAND_STATUS_NOT_INITIALIZED : Int
  CURAND_DIRECTION_VECTORS_32_JOEKUO6 : Int
  CURAND_SCRAMBLED_DIRECTION_VECTORS_32_JOEKUO6 : Int
  CURAND_DIRECTION_VECTORS_64_JOEKUO6 : Int
  CURAND_SCRAMBLED_DIRECTION_VECTORS_64_JOEKUO6 : Int
  LOG_ERROR : Int
  LOG_TRACE : Int
  JNI_ERR : Int
  JNI_VERSION_1_4 : Int

/-! ## The wrapped library -/

/-- One invocation of a function of the wrapped library, with the converted
arguments it receives (output pointers excluded). -/
inductive NativeCall
  | curandGetProperty (type : Int)
  | curandCreateGenerator (rng_type : Int)
  | curandCreateGeneratorHost (rng_type : Int)
  | curandDestroyGenerator (generator : Nat)
  | curandGetVersion
  | curandSetStream (generator stream : Nat)
  | curandSetPseudoRandomGeneratorSeed (generator seed : Nat)
  | curandSetGeneratorOffset (generator offset : Nat)
  | curandSetGeneratorOrdering (generator : Nat) (order : Int)
  | curandSetQuasiRandomGeneratorDimensions (generator num_dimensions : Nat)
  | curandGenerate (generator outputPtr num : Nat)
  | curandGenerateLongLong (generator outputPtr num : Nat)
  | curandGenerateUniform (generator outputPtr num : Nat)
  | curandGenerateUniformDouble (generator outputPtr num : Nat)
  | curandGenerateNormal (generator outputPtr n : Nat) (mean stddev : JFloat)
  | curandGenerateNormalDouble (generator outputPtr n : Nat) (mean stddev : JDouble)
  | curandGenerateLogNormal (generator outputPtr n : Nat) (mean stddev : JFloat)
  | curandGenerateLogNormalDouble (generator outputPtr n : Nat) (mean stddev : JDouble)
  | curandCreatePoissonDistribution (lambda : JDouble)
  | curandDestroyDistribution (discrete_distribution : Nat)
  | curandGeneratePoisson (generator outputPtr n : Nat) (lambda : JDouble)
  | curandGenerateSeeds (generator : Nat)
  | curandGetDirectionVectors32 (set : Int)
  | curandGetScrambleConstants32
  | curandGetDirectionVectors64 (set : Int)
  | curandGetScrambleConstants64
deriving DecidableEq, Repr

/-- The generator or distribution handle a native call receives, when it takes one. -/
def NativeCall.handle : NativeCall → Option Nat
  | .curandDestroyGenerator g => some g
  | .curandSetStream g _ => some g
  | .curandSetPseudoRandomGeneratorSeed g _ => some g
  | .curandSetGeneratorOffset g _ => some g
  | .curandSetGeneratorOrdering g _ => some g
  | .curandSetQuasiRandomGeneratorDimensions g _ => some g
  | .curandGenerate g _ _ => some g
  | .curandGenerateLongLong g _ _ => some g
  | .curandGenerateUniform g _ _ => some g
  | .curandGenerateUniformDouble g _ _ => some g
  | .curandGenerateNormal g _ _ _ _ => some g
  | .curandGenerateNormalDouble g _ _ _ _ => some g
  | .curandGenerateLogNormal g _ _ _ _ => some g
  | .curandGenerateLogNormalDouble g _ _ _ _ => some g
  | .curandDestroyDistribution d => some d
  | .curandGeneratePoisson g _ _ _ => some g
  | .curandGenerateSeeds g => some g
  | _ => none

/-- A boundary event other than a log line. -/
inductive Event
  | native (c : NativeCall)
  | throwByName (cls msg : String)
  | initPointerData (obj : Nat) (ok : Bool)
  | releasePointerData (obj : Nat) (ok : Bool)
  | findClass (name : String) (ok : Bool)
  | newObjectArray (len : Nat) (ok : Bool)
  | newIntArray (len : Nat) (ok : Bool)
  | newLongArray (len : Nat) (ok : Bool)
  | getPrimitiveArrayCritical (ok : Bool)
  | initJNIUtils (result : Int)
  | initPointerUtils (result : Int)
deriving DecidableEq, Repr

/-- The native call of an event, if it is one. -/
def Event.nativeCall : Event → Option NativeCall
  | .native c => some c
  | _ => none

/-- Whether the event is a successful buffer resolution. -/
def Event.isResolution : Event → Bool
  | .initPointerData _ ok => ok
  | _ => false

/-- Whether the event is an invocation of the buffer release. -/
def Event.isRelease : Event → Bool
  | .releasePointerData _ _ => true
  | _ => false

/-- Whether the event is an attempt to resolve a buffer. -/
def Event.isInitPointerData : Event → Bool
  | .initPointerData _ _ => true
  | _ => false

/-- Whether the event creates a managed array. -/
def Event.isAllocation : Event → Bool
  | .newObjectArray _ _ => true
  | .newIntArray _ _ => true
  | .newLongArray _ _ => true
  | _ => false

/-- The environment of the boundary: header constants, the wrapped library as a
function of the native call history and the call, and the JVM services that may
fail. -/
structure Env where
  K : Constants
  /-- The status a native call returns. -/
  status : List NativeCall → NativeCall → Int
  /-- The `int` a native call writes through its output pointer, if it writes. -/
  outInt : List NativeCall → NativeCall → Option Int
  /-- The handle a native creation writes through its output pointer, if it writes. -/
  outHandle : List NativeCall → NativeCall → Option Nat
  /-- The direction vector table whose address a native call writes, if it writes. -/
  outTable : List NativeCall → NativeCall → Option (Nat → Nat → Nat)
  /-- The scramble constants whose address a native call writes, if it writes. -/
  outConstants : List NativeCall → NativeCall → Option (Nat → Nat)
  /-- The content of an uninitialised integer or pointer local. -/
  indeterminate : Nat
  /-- What is read through an uninitialised table pointer. -/
  wildTable : Nat → Nat → Nat
  /-- What is read through an uninitialised constants pointer. -/
  wildConstants : Nat → Nat
  /-- Resolution of a managed pointer object: the native address, or failure. -/
  pointerData : Nat → Option Nat
  /-- Whether the release of the pointer data of an object succeeds. -/
  releaseOk : Nat → Bool
  /-- Whether `FindClass` finds the named class. -/
  findClassOk : String → Bool
  /-- Whether the outer array can be created. -/
  newObjectArrayOk : Bool
  /-- Whether the primitive array of iteration `i` can be created. -/
  newArrayOk : Nat → Bool
  /-- Whether the elements of the primitive array of iteration `i` can be accessed. -/
  criticalOk : Nat → Bool
  /-- Whether storing the inner array of iteration `i` raises an exception. -/
  storeInnerThrows : Nat → Bool
  /-- Whether storing into the caller's container raises an exception. -/
  storeResultThrows : Bool
  /-- Whether the elements of a caller supplied `int[]` can be accessed. -/
  setCriticalOk : Bool
  /-- Whether `GetEnv` fails in `JNI_OnLoad` (non zero result). -/
  getEnvFails : Bool
  /-- Result of `initJNIUtils`. -/
  initJNIUtilsResult : Int
  /-- Result of `initPointerUtils`. -/
  initPointerUtilsResult : Int

/-! ## The managed world -/

/-- An element of a caller supplied object array. -/
inductive Slot
  | null
  | row (xs : List Int)
  | table (rows : List (Option (List Int)))
deriving DecidableEq, Repr

/-- The state the boundary reads and writes. -/
structure World where
  /-- The global log level of `Logger`. -/
  logLevel : Int
  /-- The lines `Logger` emitted. -/
  logOutput : List String
  /-- The `nativePointer` field of every `NativePointerObject`. -/
  nativePointer : Nat → Int
  /-- The content of every `int[]`. -/
  intArrays : Nat → List Int
  /-- The content of every object array. -/
  objArrays : Nat → List Slot
  /-- The pending exception: class name and message. -/
  pending : Option (String × String)
  /-- The boundary events so far, oldest first. -/
  trace : List Event

/-- The native calls made so far, oldest first. -/
def World.calls (w : World) : List NativeCall := w.trace.filterMap Event.nativeCall

/-- Append an event to the trace. -/
def World.emit (w : World) (e : Event) : World := { w with trace := w.trace ++ [e] }

/-- A world in which nothing has happened: every field zero, every array empty. -/
def World.init : World :=
  { logLevel := 0, logOutput := [], nativePointer := fun _ => 0, intArrays := fun _ => [],
    objArrays := fun _ => [], pending := none, trace := [] }

/-! ## Helpers of the common JNI utilities -/

/-- Modelled from the spec: `ThrowByName` (JNIUtils, not in this file) raises the
managed exception of the named class, which stays pending until the call returns. -/
def ThrowByName (w : World) (cls msg : String) : World :=
  { w with pending := some (cls, msg), trace := w.trace ++ [Event.throwByName cls msg] }

/-- Modelled from the spec: `Logger::log` (Logger, not in this file) emits the
line when its level does not exceed the global log level, and does nothing else. -/
def Logger.log (w : World) (level : Int) (message : String) : World :=
  if level ≤ w.logLevel then { w with logOutput := w.logOutput ++ [message] } else w

/-- Modelled from the spec: `Logger::setLogLevel` (Logger, not in this file)
stores the global log level. -/
def Logger.setLogLevel (w : World) (level : Int) : World := { w with logLevel := level }

/-- Modelled from the spec: `getNativePointerValue` (PointerUtils, not in this
file) looks up the integer attached to a managed object. -/
def getNativePointerValue (w : World) (obj : Nat) : Int := w.nativePointer obj

/-- Modelled from the spec: `setNativePointerValue` (PointerUtils, not in this
file) attaches an integer to a managed object. -/
def setNativePointerValue (w : World) (obj : Nat) (pointer : Int) : World :=
  { w with nativePointer := Function.update w.nativePointer obj pointer }

/-- Modelled from the spec: `initPointerData` (PointerUtils, not in this file)
resolves a managed buffer reference into a native address, or fails with `NULL`. -/
def initPointerData (env : Env) (w : World) (obj : Nat) : World × Option Nat :=
  match env.pointerData obj with
  | none => (w.emit (Event.initPointerData obj false), none)
  | some address => (w.emit (Event.initPointerData obj true), some address)

/-- Modelled from the spec: `releasePointerData` (PointerUtils, not in this file)
releases a resolved buffer and reports whether that succeeded. -/
def releasePointerData (env : Env) (w : World) (obj : Nat) : World × Bool :=
  (w.emit (Event.releasePointerData obj (env.releaseOk obj)), env.releaseOk obj)

/-- Modelled from the spec: `set` (JNIUtils, not in this file) writes one element
of a managed `int[]`; an index outside the array raises
`ArrayIndexOutOfBoundsException`, and a failure reports `false`. -/
def JNIUtils.set (env : Env) (w : World) (ja : Nat) (index : Nat) (value : Int) : World × Bool :=
  if index < (w.intArrays ja).length then
    if env.setCriticalOk then
      ({ w with intArrays := Function.update w.intArrays ja ((w.intArrays ja).set index value) }, true)
    else (w, false)
  else
    (ThrowByName w "java/lang/ArrayIndexOutOfBoundsException" "Array index out of bounds", false)

/-- The invocation of a function of the wrapped library: the call is recorded and
the library answers with its status. -/
def invoke (env : Env) (w : World) (c : NativeCall) : World × Int :=
  (w.emit (Event.native c), env.status w.calls c)

/-- The JNI function `ExceptionCheck`: whether an exception is pending. -/
def ExceptionCheck (w : World) : Bool := w.pending.isSome

/-- The JNI function `SetObjectArrayElement` on a freshly created outer array:
the store either raises an exception or sets element `i`. -/
def storeInner (env : Env) (w : World) (arrays : List (Option (List Int))) (i : Nat)
    (value : List Int) : World × List (Option (List Int)) :=
  if env.storeInnerThrows i then
    ({ w with pending := some ("java/lang/ArrayStoreException", "") }, arrays)
  else (w, arrays.set i (some value))

/-- The JNI function `SetObjectArrayElement` on the caller supplied container:
the store either raises an exception or sets element `index`. -/
def storeResult (env : Env) (w : World) (container : Nat) (index : Nat) (value : Slot) : World :=
  if env.storeResultThrows then
    { w with pending := some ("java/lang/ArrayStoreException", "") }
  else
    { w with objArrays := Function.update w.objArrays container ((w.objArrays container).set index value) }

/-! ## Library load and logging -/

/-- Source: `JNI_OnLoad`. -/
def JNI_OnLoad (env : Env) (w : World) : World × Int :=
  if env.getEnvFails then (w, env.K.JNI_ERR)
  else
    let w := Logger.log w env.K.LOG_TRACE "Initializing JCurand\n"
    let w := w.emit (Event.initJNIUtils env.initJNIUtilsResult)
    if env.initJNIUtilsResult = env.K.JNI_ERR then (w, env.K.JNI_ERR)
    else
      let w := w.emit (Event.initPointerUtils env.initPointerUtilsResult)
      if env.initPointerUtilsResult = env.K.JNI_ERR then (w, env.K.JNI_ERR)
      else (w, env.K.JNI_VERSION_1_4)

/-- Source: `Java_jcuda_jcurand_JCurand_setLogLevelNative`. -/
def setLogLevelNative (w : World) (logLevel : Int) : World := Logger.setLogLevel w logLevel

/-! ## Entry points -/

/-- Source: `Java_jcuda_jcurand_JCurand_curandGetPropertyNative`. -/
def curandGetPropertyNative (env : Env) (w : World) (type : Int) (value : jobject) : World × Int :=
  match value with
  | none =>
    (ThrowByName w "java/lang/NullPointerException" "Parameter 'value' is null for curandGetProperty",
      env.K.JCURAND_STATUS_INTERNAL_ERROR)
  | some value =>
    let w := Logger.log w env.K.LOG_TRACE "Executing curandGetProperty(type=%d, value=%p)\n"
    let type_native := type
    let c := NativeCall.curandGetProperty type_native
    let value_native : Int := (env.outInt w.calls c).getD (toJint env.indeterminate)
    let (w, jniResult_native) := invoke env w c
    let (w, ok) := JNIUtils.set env w value 0 value_native
    if !ok then (w, env.K.JCURAND_STATUS_INTERNAL_ERROR)
    else
      let jniResult := jniResult_native
      (w, jniResult)

/-- Source: `Java_jcuda_jcurand_JCurand_curandCreateGeneratorNative`. -/
def curandCreateGeneratorNative (env : Env) (w : World) (generator : jobject) (rng_type : Int) : World × Int :=
  match generator with
  | none =>
    (ThrowByName w "java/lang/NullPointerException" "Parameter 'generator' is null for curandCreateGenerator",
      env.K.JCURAND_STATUS_INTERNAL_ERROR)
  | some generator =>
    let w := Logger.log w env.K.LOG_TRACE "Executing curandCreateGenerator(generator=%p, rng_type=%d)\n"
    let rng_type_native := rng_type
    let c := NativeCall.curandCreateGenerator rng_type_native
    let generator_native : Nat := (env.outHandle w.calls c).getD env.indeterminate
    let (w, result_native) := invoke env w c
    let w := setNativePointerValue w generator (toJlong generator_native)
    (w, result_native)

/-- Source: `Java_jcuda_jcurand_JCurand_curandCreateGeneratorHostNative`. -/
def curandCreateGeneratorHostNative (env : Env) (w : World) (generator : jobject) (rng_type : Int) : World × Int :=
  match generator with
  | none =>
    (ThrowByName w "java/lang/NullPointerException" "Parameter 'generator' is null for curandCreateGeneratorHost",
      env.K.JCURAND_STATUS_INTERNAL_ERROR)
  | some generator =>
    let w := Logger.log w env.K.LOG_TRACE "Executing curandCreateGeneratorHost(generator=%p, rng_type=%d)\n"
    let rng_type_native := rng_type
    let c := NativeCall.curandCreateGeneratorHost rng_type_native
    let generator_native : Nat := (env.outHandle w.calls c).getD env.indeterminate
    let (w, result_native) := invoke env w c
    let w := setNativePointerValue w generator (toJlong generator_native)
    (w, result_native)

/-- Source: `Java_jcuda_jcurand_JCurand_curandDestroyGeneratorNative`. -/
def curandDestroyGeneratorNative (env : Env) (w : World) (generator : jobject) : World × Int :=
  match generator with
  | none =>
    (ThrowByName w "java/lang/NullPointerException" "Parameter 'generator' is null for curandDestroyGenerator",
      env.K.JCURAND_STATUS_INTERNAL_ERROR)
  | some generator =>
    let w := Logger.log w env.K.LOG_TRACE "Executing curandDestroyGenerator(generator=%p)\n"
    let generator_native := ofJlong (getNativePointerValue w generator)
    let (w, result_native) := invoke env w (NativeCall.curandDestroyGenerator generator_native)
    (w, result_native)

/-- Source: `Java_jcuda_jcurand_JCurand_curandGetVersionNative`. -/
def curandGetVersionNative (env : Env) (w : World) (version : jobject) : World × Int :=
  match version with
  | none =>
    (ThrowByName w "java/lang/NullPointerException" "Parameter 'version' is null for curandGetVersion",
      env.K.JCURAND_STATUS_INTERNAL_ERROR)
  | some version =>
    let w := Logger.log w env.K.LOG_TRACE "Executing curandGetVersion(version=%p)\n"
    let c := NativeCall.curandGetVersion
    let version_native : Int := (env.outInt w.calls c).getD (toJint env.indeterminate)
    let (w, result_native) := invoke env w c
    let (w, _) := JNIUtils.set env w version 0 version_native
    (w, result_native)

/-- Source: `Java_jcuda_jcurand_JCurand_curandSetStreamNative`. -/
def curandSetStreamNative (env : Env) (w : World) (generator stream : jobject) : World × Int :=
  match generator with
  | none =>
    (ThrowByName w "java/lang/NullPointerException" "Parameter 'generator' is null for curandSetStream",
      env.K.JCURAND_STATUS_INTERNAL_ERROR)
  | some generator =>
    match stream with
    | none =>
      (ThrowByName w "java/lang/NullPointerException" "Parameter 'stream' is null for curandSetStream",
        env.K.JCURAND_STATUS_INTERNAL_ERROR)
    | some stream =>
      let w := Logger.log w env.K.LOG_TRACE "Executing curandSetStream(generator=%p, stream=%p)\n"
      let generator_native := ofJlong (getNativePointerValue w generator)
      let stream_native := ofJlong (getNativePointerValue w stream)
      let (w, result_native) := invoke env w (NativeCall.curandSetStream generator_native stream_native)
      (w, result_native)

/-- Source: `Java_jcuda_jcurand_JCurand_curandSetPseudoRandomGeneratorSeedNative`. -/
def curandSetPseudoRandomGeneratorSeedNative (env : Env) (w : World) (generator : jobject) (seed : Int) : World × Int :=
  match generator with
  | none =>
    (ThrowByName w "java/lang/NullPointerException" "Parameter 'generator' is null for curandSetPseudoRandomGeneratorSeed",
      env.K.JCURAND_STATUS_INTERNAL_ERROR)
  | some generator =>
    let w := Logger.log w env.K.LOG_TRACE "Executing curandSetPseudoRandomGeneratorSeed(generator=%p, seed=%p)\n"
    let generator_native := ofJlong (getNativePointerValue w generator)
    let seed_native := ofJlong seed
    let (w, result_native) := invoke env w (NativeCall.curandSetPseudoRandomGeneratorSeed generator_native seed_native)
    (w, result_native)

/-- Source: `Java_jcuda_jcurand_JCurand_curandSetGeneratorOffsetNative`. -/
def curandSetGeneratorOffsetNative (env : Env) (w : World) (generator : jobject) (offset : Int) : World × Int :=
  match generator with
  | none =>
    (ThrowByName w "java/lang/NullPointerException" "Parameter 'generator' is null for curandSetGeneratorOffset",
      env.K.JCURAND_STATUS_INTERNAL_ERROR)
  | some generator =>
    let w := Logger.log w env.K.LOG_TRACE "Executing curandSetGeneratorOffset(generator=%p, offset=%p)\n"
    let generator_native := ofJlong (getNativePointerValue w generator)
    let offset_native := ofJlong offset
    let (w, result_native) := invoke env w (NativeCall.curandSetGeneratorOffset generator_native offset_native)
    (w, result_native)

/-- Source: `Java_jcuda_jcurand_JCurand_curandSetGeneratorOrderingNative`. -/
def curandSetGeneratorOrderingNative (env : Env) (w : World) (generator : jobject) (order : Int) : World × Int :=
  match generator with
  | none =>
    (ThrowByName w "java/lang/NullPointerException" "Parameter 'generator' is null for curandSetGeneratorOrdering",
      env.K.JCURAND_STATUS_INTERNAL_ERROR)
  | some generator =>
    let w := Logger.log w env.K.LOG_TRACE "Executing curandSetGeneratorOrdering(generator=%p, order=%d)\n"
    let generator_native := ofJlong (getNativePointerValue w generator)
    let order_native := order
    let (w, result_native) := invoke env w (NativeCall.curandSetGeneratorOrdering generator_native order_native)
    (w, result_native)

/-- Source: `Java_jcuda_jcurand_JCurand_curandSetQuasiRandomGeneratorDimensionsNative`. -/
def curandSetQuasiRandomGeneratorDimensionsNative (env : Env) (w : World) (generator : jobject) (num_dimensions : Int) : World × Int :=
  match generator with
  | none =>
    (ThrowByName w "java/lang/NullPointerException" "Parameter 'generator' is null for curandSetQuasiRandomGeneratorDimensions",
      env.K.JCURAND_STATUS_INTERNAL_ERROR)
  | some generator =>
    let w := Logger.log w env.K.LOG_TRACE "Executing curandSetQuasiRandomGeneratorDimensions(generator=%p, num_dimensions=%d)\n"
    let generator_native := ofJlong (getNativePointerValue w generator)
    let num_dimensions_native := ofJint num_dimensions
    let (w, result_native) := invoke env w (NativeCall.curandSetQuasiRandomGeneratorDimensions generator_native num_dimensions_native)
    (w, result_native)

/-- Source: `Java_jcuda_jcurand_JCurand_curandGenerateNative`. -/
def curandGenerateNative (env : Env) (w : World) (generator outputPtr : jobject) (num : Int) :
    World × Int :=
  match generator with
  | none =>
    (ThrowByName w "java/lang/NullPointerException" "Parameter 'generator' is null for curandGenerate",
      env.K.JCURAND_STATUS_INTERNAL_ERROR)
  | some generator =>
    match outputPtr with
    | none =>
      (ThrowByName w "java/lang/NullPointerException" "Parameter 'outputPtr' is null for curandGenerate",
        env.K.JCURAND_STATUS_INTERNAL_ERROR)
    | some outputPtr =>
      let w := Logger.log w env.K.LOG_TRACE "Executing curandGenerate(generator=%p, outputPtr=%p, num=%ld)\n"
      let generator_native := ofJlong (getNativePointerValue w generator)
      match initPointerData env w outputPtr with
      | (w, none) => (w, env.K.JCURAND_STATUS_INTERNAL_ERROR)
      | (w, some outputPtrPointerData) =>
        let outputPtr_native := outputPtrPointerData
        let num_native := ofJlong num
        let (w, result_native) :=
          invoke env w (NativeCall.curandGenerate generator_native outputPtr_native num_native)
        let (w, released) := releasePointerData env w outputPtr
        if !released then (w, env.K.JCURAND_STATUS_INTERNAL_ERROR)
        else (w, result_native)

/-- Source: `Java_jcuda_jcurand_JCurand_curandGenerateLongLongNative`. -/
def curandGenerateLongLongNative (env : Env) (w : World) (generator outputPtr : jobject) (num : Int) :
    World × Int :=
  match generator with
  | none =>
    (ThrowByName w "java/lang/NullPointerException" "Parameter 'generator' is null for curandGenerateLongLong",
      env.K.JCURAND_STATUS_INTERNAL_ERROR)
  | some generator =>
    match outputPtr with
    | none =>
      (ThrowByName w "java/lang/NullPointerException" "Parameter 'outputPtr' is null for curandGenerateLongLong",
        env.K.JCURAND_STATUS_INTERNAL_ERROR)
    | some outputPtr =>
      let w := Logger.log w env.K.LOG_TRACE "Executing curandGenerateLongLong(generator=%p, outputPtr=%p, num=%ld)\n"
      let generator_native := ofJlong (getNativePointerValue w generator)
      match initPointerData env w outputPtr with
      | (w, none) => (w, env.K.JCURAND_STATUS_INTERNAL_ERROR)
      | (w, some outputPtrPointerData) =>
        let outputPtr_native := outputPtrPointerData
        let num_native := ofJlong num
        let (w, result_native) :=
          invoke env w (NativeCall.curandGenerateLongLong generator_native outputPtr_native num_native)
        let (w, released) := releasePointerData env w outputPtr
        if !released then (w, env.K.JCURAND_STATUS_INTERNAL_ERROR)
        else (w, result_native)

/-- Source: `Java_jcuda_jcurand_JCurand_curandGenerateUniformNative`. -/
def curandGenerateUniformNative (env : Env) (w : World) (generator outputPtr : jobject) (num : Int) :
    World × Int :=
  match generator with
  | none =>
    (ThrowByName w "java/lang/NullPointerException" "Parameter 'generator' is null for curandGenerateUniform",
      env.K.JCURAND_STATUS_INTERNAL_ERROR)
  | some generator =>
    match outputPtr with
    | none =>
      (ThrowByName w "java/lang/NullPointerException" "Parameter 'outputPtr' is null for curandGenerateUniform",
        env.K.JCURAND_STATUS_INTERNAL_ERROR)
    | some outputPtr =>
      let w := Logger.log w env.K.LOG_TRACE "Executing curandGenerateUniform(generator=%p, outputPtr=%p, num=%ld)\n"
      let generator_native := ofJlong (getNativePointerValue w generator)
      match initPointerData env w outputPtr with
      | (w, none) => (w, env.K.JCURAND_STATUS_INTERNAL_ERROR)
      | (w, some outputPtrPointerData) =>
        let outputPtr_native := outputPtrPointerData
        let num_native := ofJlong num
        let (w, result_native) :=
          invoke env w (NativeCall.curandGenerateUniform generator_native outputPtr_native num_native)
        let (w, released) := releasePointerData env w outputPtr
        if !released then (w, env.K.JCURAND_STATUS_INTERNAL_ERROR)
        else (w, result_native)

/-- Source: `Java_jcuda_jcurand_JCurand_curandGenerateUniformDoubleNative`. -/
def curandGenerateUniformDoubleNative (env : Env) (w : World) (generator outputPtr : jobject) (num : Int) :
    World × Int :=
  match generator with
  | none =>
    (ThrowByName w "java/lang/NullPointerException" "Parameter 'generator' is null for curandGenerateUniformDouble",
      env.K.JCURAND_STATUS_INTERNAL_ERROR)
  | some generator =>
    match outputPtr with
    | none =>
      (ThrowByName w "java/lang/NullPointerException" "Parameter 'outputPtr' is null for curandGenerateUniformDouble",
        env.K.JCURAND_STATUS_INTERNAL_ERROR)
    | some outputPtr =>
      let w := Logger.log w env.K.LOG_TRACE "Executing curandGenerateUniformDouble(generator=%p, outputPtr=%p, num=%ld)\n"
      let generator_native := ofJlong (getNativePointerValue w generator)
      match initPointerData env w outputPtr with
      | (w, none) => (w, env.K.JCURAND_STATUS_INTERNAL_ERROR)
      | (w, some outputPtrPointerData) =>
        let outputPtr_native := outputPtrPointerData
        let num_native := ofJlong num
        let (w, result_native) :=
          invoke env w (NativeCall.curandGenerateUniformDouble generator_native outputPtr_native num_native)
        let (w, released) := releasePointerData env w outputPtr
        if !released then (w, env.K.JCURAND_STATUS_INTERNAL_ERROR)
        else (w, result_native)

/-- Source: `Java_jcuda_jcurand_JCurand_curandGenerateNormalNative`. -/
def curandGenerateNormalNative (env : Env) (w : World) (generator outputPtr : jobject) (n : Int) (mean : JFloat) (stddev : JFloat) :
    World × Int :=
  match generator with
  | none =>
    (ThrowByName w "java/lang/NullPointerException" "Parameter 'generator' is null for curandGenerateNormal",
      env.K.JCURAND_STATUS_INTERNAL_ERROR)
  | some generator =>
    match outputPtr with
    | none =>
      (ThrowByName w "java/lang/NullPointerException" "Parameter 'outputPtr' is null for curandGenerateNormal",
        env.K.JCURAND_STATUS_INTERNAL_ERROR)
    | some outputPtr =>
      let w := Logger.log w env.K.LOG_TRACE "Executing curandGenerateNormal(generator=%p, outputPtr=%p, n=%ld, mean=%f, stddev=%f)\n"
      let generator_native := ofJlong (getNativePointerValue w generator)
      match initPointerData env w outputPtr with
      | (w, none) => (w, env.K.JCURAND_STATUS_INTERNAL_ERROR)
      | (w, some outputPtrPointerData) =>
        let outputPtr_native := outputPtrPointerData
        let n_native := ofJlong n
        let mean_native := mean
        let stddev_native := stddev
        let (w, result_native) :=
          invoke env w (NativeCall.curandGenerateNormal generator_native outputPtr_native n_native mean_native stddev_native)
        let (w, released) := releasePointerData env w outputPtr
        if !released then (w, env.K.JCURAND_STATUS_INTERNAL_ERROR)
        else (w, result_native)

/-- Source: `Java_jcuda_jcurand_JCurand_curandGenerateNormalDoubleNative`. -/
def curandGenerateNormalDoubleNative (env : Env) (w : World) (generator outputPtr : jobject) (n : Int) (mean : JDouble) (stddev : JDouble) :
    World × Int :=
  match generator with
  | none =>
    (ThrowByName w "java/lang/NullPointerException" "Parameter 'generator' is null for curandGenerateNormalDouble",
      env.K.JCURAND_STATUS_INTERNAL_ERROR)
  | some generator =>
    match outputPtr with
    | none =>
      (ThrowByName w "java/lang/NullPointerException" "Parameter 'outputPtr' is null for curandGenerateNormalDouble",
        env.K.JCURAND_STATUS_INTERNAL_ERROR)
    | some outputPtr =>
      let w := Logger.log w env.K.LOG_TRACE "Executing curandGenerateNormalDouble(generator=%p, outputPtr=%p, n=%ld, mean=%lf, stddev=%lf)\n"
      let generator_native := ofJlong (getNativePointerValue w generator)
      match initPointerData env w outputPtr with
      | (w, none) => (w, env.K.JCURAND_STATUS_INTERNAL_ERROR)
      | (w, some outputPtrPointerData) =>
        let outputPtr_native := outputPtrPointerData
        let n_native := ofJlong n
        let mean_native := mean
        let stddev_native := stddev
        let (w, result_native) :=
          invoke env w (NativeCall.curandGenerateNormalDouble generator_native outputPtr_native n_native mean_native stddev_native)
        let (w, released) := releasePointerData env w outputPtr
        if !released then (w, env.K.JCURAND_STATUS_INTERNAL_ERROR)
        else (w, result_native)

/-- Source: `Java_jcuda_jcurand_JCurand_curandGenerateLogNormalNative`. -/
def curandGenerateLogNormalNative (env : Env) (w : World) (generator outputPtr : jobject) (n : Int) (mean : JFloat) (stddev : JFloat) :
    World × Int :=
  match generator with
  | none =>
    (ThrowByName w "java/lang/NullPointerException" "Parameter 'generator' is null for curandGenerateLogNormal",
      env.K.JCURAND_STATUS_INTERNAL_ERROR)
  | some generator =>
    match outputPtr with
    | none =>
      (ThrowByName w "java/lang/NullPointerException" "Parameter 'outputPtr' is null for curandGenerateLogNormal",
        env.K.JCURAND_STATUS_INTERNAL_ERROR)
    | some outputPtr =>
      let w := Logger.log w env.K.LOG_TRACE "Executing curandGenerateLogNormal(generator=%p, outputPtr=%p, n=%ld, mean=%f, stddev=%f)\n"
      let generator_native := ofJlong (getNativePointerValue w generator)
      match initPointerData env w outputPtr with
      | (w, none) => (w, env.K.JCURAND_STATUS_INTERNAL_ERROR)
      | (w, some outputPtrPointerData) =>
        let outputPtr_native := outputPtrPointerData
        let n_native := ofJlong n
        let mean_native := mean
        let stddev_native := stddev
        let (w, result_native) :=
          invoke env w (NativeCall.curandGenerateLogNormal generator_native outputPtr_native n_native mean_native stddev_native)
        let (w, released) := releasePointerData env w outputPtr
        if !released then (w, env.K.JCURAND_STATUS_INTERNAL_ERROR)
        else (w, result_native)

/-- Source: `Java_jcuda_jcurand_JCurand_curandGenerateLogNormalDoubleNative`. -/
def curandGenerateLogNormalDoubleNative (env : Env) (w : World) (generator outputPtr : jobject) (n : Int) (mean : JDouble) (stddev : JDouble) :
    World × Int :=
  match generator with
  | none =>
    (ThrowByName w "java/lang/NullPointerException" "Parameter 'generator' is null for curandGenerateLogNormalDouble",
      env.K.JCURAND_STATUS_INTERNAL_ERROR)
  | some generator =>
    match outputPtr with
    | none =>
      (ThrowByName w "java/lang/NullPointerException" "Parameter 'outputPtr' is null for curandGenerateLogNormalDouble",
        env.K.JCURAND_STATUS_INTERNAL_ERROR)
    | some outputPtr =>
      let w := Logger.log w env.K.LOG_TRACE "Executing curandGenerateLogNormalDouble(generator=%p, outputPtr=%p, n=%ld, mean=%lf, stddev=%lf)\n"
      let generator_native := ofJlong (getNativePointerValue w generator)
      match initPointerData env w outputPtr with
      | (w, none) => (w, env.K.JCURAND_STATUS_INTERNAL_ERROR)
      | (w, some outputPtrPointerData) =>
        let outputPtr_native := outputPtrPointerData
        let n_native := ofJlong n
        let mean_native := mean
        let stddev_native := stddev
        let (w, result_native) :=
          invoke env w (NativeCall.curandGenerateLogNormalDouble generator_native outputPtr_native n_native mean_native stddev_native)
        let (w, released) := releasePointerData env w outputPtr
        if !released then (w, env.K.JCURAND_STATUS_INTERNAL_ERROR)
        else (w, result_native)

/-- Source: `Java_jcuda_jcurand_JCurand_curandCreatePoissonDistributionNative`. -/
def curandCreatePoissonDistributionNative (env : Env) (w : World) (lambda : JDouble)
    (discrete_distribution : jobject) : World × Int :=
  match discrete_distribution with
  | none =>
    (ThrowByName w "java/lang/NullPointerException"
        "Parameter 'discrete_distribution' is null for curandCreatePoissonDistribution",
      env.K.JCURAND_STATUS_INTERNAL_ERROR)
  | some discrete_distribution =>
    let w := Logger.log w env.K.LOG_TRACE
      "Executing curandCreatePoissonDistribution(lambda=%lf, discrete_distribution=%p)\n"
    let c := NativeCall.curandCreatePoissonDistribution lambda
    let discrete_distribution_native : Nat := (env.outHandle w.calls c).getD 0
    let (w, result_native) := invoke env w c
    let w := setNativePointerValue w discrete_distribution (toJlong discrete_distribution_native)
    (w, result_native)

/-- Source: `Java_jcuda_jcurand_JCurand_curandDestroyDistributionNative`. -/
def curandDestroyDistributionNative (env : Env) (w : World) (discrete_distribution : jobject) : World × Int :=
  match discrete_distribution with
  | none =>
    (ThrowByName w "java/lang/NullPointerException" "Parameter 'discrete_distribution' is null for curandDestroyDistribution",
      env.K.JCURAND_STATUS_INTERNAL_ERROR)
  | some discrete_distribution =>
    let w := Logger.log w env.K.LOG_TRACE "Executing curandDestroyDistribution(discrete_distribution=%p)\n"
    let discrete_distribution_native := ofJlong (getNativePointerValue w discrete_distribution)
    let (w, result_native) := invoke env w (NativeCall.curandDestroyDistribution discrete_distribution_native)
    (w, result_native)

/-- Source: `Java_jcuda_jcurand_JCurand_curandGeneratePoissonNative`. -/
def curandGeneratePoissonNative (env : Env) (w : World) (generator outputPtr : jobject) (n : Int) (lambda : JDouble) :
    World × Int :=
  match generator with
  | none =>
    (ThrowByName w "java/lang/NullPointerException" "Parameter 'generator' is null for curandGeneratePoisson",
      env.K.JCURAND_STATUS_INTERNAL_ERROR)
  | some generator =>
    match outputPtr with
    | none =>
      (ThrowByName w "java/lang/NullPointerException" "Parameter 'outputPtr' is null for curandGeneratePoisson",
        env.K.JCURAND_STATUS_INTERNAL_ERROR)
    | some outputPtr =>
      let w := Logger.log w env.K.LOG_TRACE "Executing curandGeneratePoisson(generator=%p, outputPtr=%p, n=%ld, lambda=%lf)\n"
      let generator_native := ofJlong (getNativePointerValue w generator)
      match initPointerData env w outputPtr with
      | (w, none) => (w, env.K.JCURAND_STATUS_INTERNAL_ERROR)
      | (w, some outputPtrPointerData) =>
        let outputPtr_native := outputPtrPointerData
        let n_native := ofJlong n
        let lambda_native := lambda
        let (w, result_native) :=
          invoke env w (NativeCall.curandGeneratePoisson generator_native outputPtr_native n_native lambda_native)
        let (w, released) := releasePointerData env w outputPtr
        if !released then (w, env.K.JCURAND_STATUS_INTERNAL_ERROR)
        else (w, result_native)

/-- Source: `Java_jcuda_jcurand_JCurand_curandGenerateSeedsNative`. -/
def curandGenerateSeedsNative (env : Env) (w : World) (generator : jobject) : World × Int :=
  match generator with
  | none =>
    (ThrowByName w "java/lang/NullPointerException" "Parameter 'generator' is null for curandGenerateSeeds",
      env.K.JCURAND_STATUS_INTERNAL_ERROR)
  | some generator =>
    let w := Logger.log w env.K.LOG_TRACE "Executing curandGenerateSeeds(generator=%p)\n"
    let generator_native := ofJlong (getNativePointerValue w generator)
    let (w, result_native) := invoke env w (NativeCall.curandGenerateSeeds generator_native)
    (w, result_native)

/-- The element copy loop `for (j = 0; j < n; j++) arrayData[j] = (T)source[j]`
on a freshly created (zero filled) primitive array of length `n`. -/
def fillRow (conv : Nat → Int) (source : Nat → Nat) (n : Nat) : List Int :=
  (List.range n).foldl (fun arrayData j => arrayData.set j (conv (source j))) (List.replicate n 0)

/-- The loop `for (i = 0; i < dimensions; i++)` of the direction vector entry
points, started at index `i` with `remaining` iterations to go: each iteration
creates an inner array, fills it from row `i` of the native table and stores it
into the outer array; `none` is the early return with the internal error. -/
def directionVectorsLoop (env : Env) (newArray : Nat → Bool → Event) (conv : Nat → Int)
    (vectors_native : Nat → Nat → Nat) (numVectors : Nat) :
    (remaining : Nat) → (i : Nat) → World → List (Option (List Int)) →
      World × Option (List (Option (List Int)))
  | 0, _, w, arrays => (w, some arrays)
  | remaining + 1, i, w, arrays =>
    if !env.newArrayOk i then
      (Logger.log (w.emit (newArray numVectors false)) env.K.LOG_ERROR
        "Could not create inner result array\n", none)
    else
      let w := w.emit (newArray numVectors true)
      if !env.criticalOk i then
        (Logger.log (w.emit (Event.getPrimitiveArrayCritical false)) env.K.LOG_ERROR
          "Could not access inner result array\n", none)
      else
        let w := w.emit (Event.getPrimitiveArrayCritical true)
        let arrayData := fillRow conv (vectors_native i) numVectors
        let (w, arrays) := storeInner env w arrays i arrayData
        if ExceptionCheck w then (w, none)
        else directionVectorsLoop env newArray conv vectors_native numVectors remaining (i + 1) w arrays

/-- The write-back block of the direction vector entry points, after the
selector check: find the array class `cls`, create the outer array of
`dimensions` elements, run the loop over the dimensions, store the outer array
into element 0 of the caller's container `vectors` and return `result`; every
failure on the way returns the internal error at once. -/
def directionVectorsWriteBack (env : Env) (cls notFound : String) (newArray : Nat → Bool → Event)
    (conv : Nat → Int) (vectors_native : Nat → Nat → Nat) (dimensions numVectors : Nat)
    (w : World) (vectors : Nat) (result : Int) : World × Int :=
  if !env.findClassOk cls then
    (Logger.log (w.emit (Event.findClass cls false)) env.K.LOG_ERROR notFound,
      env.K.JCURAND_STATUS_INTERNAL_ERROR)
  else
    let w := w.emit (Event.findClass cls true)
    if !env.newObjectArrayOk then
      (Logger.log (w.emit (Event.newObjectArray dimensions false)) env.K.LOG_ERROR
        "Could not create outer result array\n", env.K.JCURAND_STATUS_INTERNAL_ERROR)
    else
      let w := w.emit (Event.newObjectArray dimensions true)
      let arrays : List (Option (List Int)) := List.replicate dimensions none
      match directionVectorsLoop env newArray conv vectors_native numVectors dimensions 0 w
          arrays with
      | (w, none) => (w, env.K.JCURAND_STATUS_INTERNAL_ERROR)
      | (w, some arrays) =>
        let w := storeResult env w vectors 0 (Slot.table arrays)
        if ExceptionCheck w then (w, env.K.JCURAND_STATUS_INTERNAL_ERROR)
        else (w, result)

/-- Source: `Java_jcuda_jcurand_JCurand_curandGetDirectionVectors32Native`. -/
def curandGetDirectionVectors32Native (env : Env) (w : World) (vectors : jobject) (set : Int) :
    World × Int :=
  match vectors with
  | none =>
    (ThrowByName w "java/lang/NullPointerException"
        "Parameter 'vectors' is null for curandGetDirectionVectors32",
      env.K.JCURAND_STATUS_INTERNAL_ERROR)
  | some vectors =>
    let length := (w.objArrays vectors).length
    if length < 1 then
      (ThrowByName w "java/lang/IllegalArgumentException" "Parameter 'vectors' must have a size >= 1",
        env.K.JCURAND_STATUS_INTERNAL_ERROR)
    else
      let w := Logger.log w env.K.LOG_TRACE "Executing curandGetDirectionVectors32(vectors=%p, set=%d)\n"
      let set_native := set
      let c := NativeCall.curandGetDirectionVectors32 set_native
      let vectors_native := (env.outTable w.calls c).getD env.wildTable
      let (w, result) := invoke env w c
      if set_native ≠ env.K.CURAND_DIRECTION_VECTORS_32_JOEKUO6 ∧
          set_native ≠ env.K.CURAND_SCRAMBLED_DIRECTION_VECTORS_32_JOEKUO6 then
        (Logger.log w env.K.LOG_ERROR "Unknown set type for curandGetDirectionVectors32: %d\n",
          env.K.JCURAND_STATUS_INTERNAL_ERROR)
      else
        let dimensions := 20000
        let numVectors := 32
        directionVectorsWriteBack env "[I" "Could not find int array class\n" Event.newIntArray
          toJint vectors_native dimensions numVectors w vectors result

/-- Source: `Java_jcuda_jcurand_JCurand_curandGetScrambleConstants32Native`. -/
def curandGetScrambleConstants32Native (env : Env) (w : World) (constants : jobject) :
    World × Int :=
  match constants with
  | none =>
    (ThrowByName w "java/lang/NullPointerException"
        "Parameter 'constants' is null for curandGetScrambleConstants32",
      env.K.JCURAND_STATUS_INTERNAL_ERROR)
  | some constants =>
    let length := (w.objArrays constants).length
    if length < 1 then
      (ThrowByName w "java/lang/IllegalArgumentException"
          "Parameter 'constants' must have a size >= 1",
        env.K.JCURAND_STATUS_INTERNAL_ERROR)
    else
      let w := Logger.log w env.K.LOG_TRACE "Executing curandGetScrambleConstants32(constants=%p)\n"
      let c := NativeCall.curandGetScrambleConstants32
      let constants_native := (env.outConstants w.calls c).getD env.wildConstants
      let (w, result) := invoke env w c
      let many := 20000
      if !env.newArrayOk 0 then
        (Logger.log (w.emit (Event.newIntArray many false)) env.K.LOG_ERROR
          "Could not create result array\n", env.K.JCURAND_STATUS_INTERNAL_ERROR)
      else
        let w := w.emit (Event.newIntArray many true)
        if !env.criticalOk 0 then
          (Logger.log (w.emit (Event.getPrimitiveArrayCritical false)) env.K.LOG_ERROR
            "Could not access inner result array\n", env.K.JCURAND_STATUS_INTERNAL_ERROR)
        else
          let w := w.emit (Event.getPrimitiveArrayCritical true)
          let intArray := fillRow toJint constants_native many
          if ExceptionCheck w then (w, env.K.JCURAND_STATUS_INTERNAL_ERROR)
          else
            let w := storeResult env w constants 0 (Slot.row intArray)
            if ExceptionCheck w then (w, env.K.JCURAND_STATUS_INTERNAL_ERROR)
            else (w, result)

/-- Source: `Java_jcuda_jcurand_JCurand_curandGetDirectionVectors64Native`. -/
def curandGetDirectionVectors64Native (env : Env) (w : World) (vectors : jobject) (set : Int) :
    World × Int :=
  match vectors with
  | none =>
    (ThrowByName w "java/lang/NullPointerException"
        "Parameter 'vectors' is null for curandGetDirectionVectors64",
      env.K.JCURAND_STATUS_INTERNAL_ERROR)
  | some vectors =>
    let length := (w.objArrays vectors).length
    if length < 1 then
      (ThrowByName w "java/lang/IllegalArgumentException" "Parameter 'vectors' must have a size >= 1",
        env.K.JCURAND_STATUS_INTERNAL_ERROR)
    else
      let w := Logger.log w env.K.LOG_TRACE "Executing curandGetDirectionVectors64(vectors=%p, set=%d)\n"
      let set_native := set
      let c := NativeCall.curandGetDirectionVectors64 set_native
      let vectors_native := (env.outTable w.calls c).getD env.wildTable
      let (w, result) := invoke env w c
      if set_native ≠ env.K.CURAND_DIRECTION_VECTORS_64_JOEKUO6 ∧
          set_native ≠ env.K.CURAND_SCRAMBLED_DIRECTION_VECTORS_64_JOEKUO6 then
        (Logger.log w env.K.LOG_ERROR "Unknown set type for curandGetDirectionVectors64: %d\n",
          env.K.JCURAND_STATUS_INTERNAL_ERROR)
      else
        let dimensions := 20000
        let numVectors := 64
        directionVectorsWriteBack env "[J" "Could not find long array class\n" Event.newLongArray
          toJlong vectors_native dimensions numVectors w vectors result

/-- Source: `Java_jcuda_jcurand_JCurand_curandGetScrambleConstants64Native`. -/
def curandGetScrambleConstants64Native (env : Env) (w : World) (constants : jobject) :
    World × Int :=
  match constants with
  | none =>
    (ThrowByName w "java/lang/NullPointerException"
        "Parameter 'constants' is null for curandGetScrambleConstants64",
      env.K.JCURAND_STATUS_INTERNAL_ERROR)
  | some constants =>
    let length := (w.objArrays constants).length
    if length < 1 then
      (ThrowByName w "java/lang/IllegalArgumentException"
          "Parameter 'constants' must have a size >= 1",
        env.K.JCURAND_STATUS_INTERNAL_ERROR)
    else
      let w := Logger.log w env.K.LOG_TRACE "Executing curandGetScrambleConstants64(constants=%p)\n"
      let c := NativeCall.curandGetScrambleConstants64
      let constants_native := (env.outConstants w.calls c).getD env.wildConstants
      let (w, result) := invoke env w c
      let many := 20000
      if !env.newArrayOk 0 then
        (Logger.log (w.emit (Event.newLongArray many false)) env.K.LOG_ERROR
          "Could not create result array\n", env.K.JCURAND_STATUS_INTERNAL_ERROR)
      else
        let w := w.emit (Event.newLongArray many true)
        if !env.criticalOk 0 then
          (Logger.log (w.emit (Event.getPrimitiveArrayCritical false)) env.K.LOG_ERROR
            "Could not access inner result array\n", env.K.JCURAND_STATUS_INTERNAL_ERROR)
        else
          let w := w.emit (Event.getPrimitiveArrayCritical true)
          let longArray := fillRow toJlong constants_native many
          if ExceptionCheck w then (w, env.K.JCURAND_STATUS_INTERNAL_ERROR)
          else
            let w := storeResult env w constants 0 (Slot.row longArray)
            if ExceptionCheck w then (w, env.K.JCURAND_STATUS_INTERNAL_ERROR)
            else (w, result)

/-! ## The exported interface as a whole -/

/-- One call of an exported `jint` entry point with its managed arguments. -/
inductive Call
  | curandGetProperty (type : Int) (value : jobject)
  | curandCreateGenerator (generator : jobject) (rng_type : Int)
  | curandCreateGeneratorHost (generator : jobject) (rng_type : Int)
  | curandDestroyGenerator (generator : jobject)
  | curandGetVersion (version : jobject)
  | curandSetStream (generator stream : jobject)
  | curandSetPseudoRandomGeneratorSeed (generator : jobject) (seed : Int)
  | curandSetGeneratorOffset (generator : jobject) (offset : Int)
  | curandSetGeneratorOrdering (generator : jobject) (order : Int)
  | curandSetQuasiRandomGeneratorDimensions (generator : jobject) (num_dimensions : Int)
  | curandGenerate (generator outputPtr : jobject) (num : Int)
  | curandGenerateLongLong (generator outputPtr : jobject) (num : Int)
  | curandGenerateUniform (generator outputPtr : jobject) (num : Int)
  | curandGenerateUniformDouble (generator outputPtr : jobject) (num : Int)
  | curandGenerateNormal (generator outputPtr : jobject) (n : Int) (mean stddev : JFloat)
  | curandGenerateNormalDouble (generator outputPtr : jobject) (n : Int) (mean stddev : JDouble)
  | curandGenerateLogNormal (generator outputPtr : jobject) (n : Int) (mean stddev : JFloat)
  | curandGenerateLogNormalDouble (generator outputPtr : jobject) (n : Int) (mean stddev : JDouble)
  | curandCreatePoissonDistribution (lambda : JDouble) (discrete_distribution : jobject)
  | curandDestroyDistribution (discrete_distribution : jobject)
  | curandGeneratePoisson (generator outputPtr : jobject) (n : Int) (lambda : JDouble)
  | curandGenerateSeeds (generator : jobject)
  | curandGetDirectionVectors32 (vectors : jobject) (set : Int)
  | curandGetScrambleConstants32 (constants : jobject)
  | curandGetDirectionVectors64 (vectors : jobject) (set : Int)
  | curandGetScrambleConstants64 (constants : jobject)

/-- The entry point a call runs. -/
def Call.run (env : Env) (w : World) : Call → World × Int
  | .curandGetProperty type value => curandGetPropertyNative env w type value
  | .curandCreateGenerator generator rng_type => curandCreateGeneratorNative env w generator rng_type
  | .curandCreateGeneratorHost generator rng_type =>
    curandCreateGeneratorHostNative env w generator rng_type
  | .curandDestroyGenerator generator => curandDestroyGeneratorNative env w generator
  | .curandGetVersion version => curandGetVersionNative env w version
  | .curandSetStream generator stream => curandSetStreamNative env w generator stream
  | .curandSetPseudoRandomGeneratorSeed generator seed =>
    curandSetPseudoRandomGeneratorSeedNative env w generator seed
  | .curandSetGeneratorOffset generator offset => curandSetGeneratorOffsetNative env w generator offset
  | .curandSetGeneratorOrdering generator order => curandSetGeneratorOrderingNative env w generator order
  | .curandSetQuasiRandomGeneratorDimensions generator num_dimensions =>
    curandSetQuasiRandomGeneratorDimensionsNative env w generator num_dimensions
  | .curandGenerate generator outputPtr num => curandGenerateNative env w generator outputPtr num
  | .curandGenerateLongLong generator outputPtr num =>
    curandGenerateLongLongNative env w generator outputPtr num
  | .curandGenerateUniform generator outputPtr num =>
    curandGenerateUniformNative env w generator outputPtr num
  | .curandGenerateUniformDouble generator outputPtr num =>
    curandGenerateUniformDoubleNative env w generator outputPtr num
  | .curandGenerateNormal generator outputPtr n mean stddev =>
    curandGenerateNormalNative env w generator outputPtr n mean stddev
  | .curandGenerateNormalDouble generator outputPtr n mean stddev =>
    curandGenerateNormalDoubleNative env w generator outputPtr n mean stddev
  | .curandGenerateLogNormal generator outputPtr n mean stddev =>
    curandGenerateLogNormalNative env w generator outputPtr n mean stddev
  | .curandGenerateLogNormalDouble generator outputPtr n mean stddev =>
    curandGenerateLogNormalDoubleNative env w generator outputPtr n mean stddev
  | .curandCreatePoissonDistribution lambda discrete_distribution =>
    curandCreatePoissonDistributionNative env w lambda discrete_distribution
  | .curandDestroyDistribution discrete_distribution =>
    curandDestroyDistributionNative env w discrete_distribution
  | .curandGeneratePoisson generator outputPtr n lambda =>
    curandGeneratePoissonNative env w generator outputPtr n lambda
  | .curandGenerateSeeds generator => curandGenerateSeedsNative env w generator
  | .curandGetDirectionVectors32 vectors set => curandGetDirectionVectors32Native env w vectors set
  | .curandGetScrambleConstants32 constants => curandGetScrambleConstants32Native env w constants
  | .curandGetDirectionVectors64 vectors set => curandGetDirectionVectors64Native env w vectors set
  | .curandGetScrambleConstants64 constants => curandGetScrambleConstants64Native env w constants

/-- The non-primitive arguments of a call, in parameter order. -/
def Call.objectArgs : Call → List jobject
  | .curandGetProperty _ value => [value]
  | .curandCreateGenerator generator _ => [generator]
  | .curandCreateGeneratorHost generator _ => [generator]
  | .curandDestroyGenerator generator => [generator]
  | .curandGetVersion version => [version]
  | .curandSetStream generator stream => [generator, stream]
  | .curandSetPseudoRandomGeneratorSeed generator _ => [generator]
  | .curandSetGeneratorOffset generator _ => [generator]
  | .curandSetGeneratorOrdering generator _ => [generator]
  | .curandSetQuasiRandomGeneratorDimensions generator _ => [generator]
  | .curandGenerate generator outputPtr _ => [generator, outputPtr]
  | .curandGenerateLongLong generator outputPtr _ => [generator, outputPtr]
  | .curandGenerateUniform generator outputPtr _ => [generator, outputPtr]
  | .curandGenerateUniformDouble generator outputPtr _ => [generator, outputPtr]
  | .curandGenerateNormal generator outputPtr _ _ _ => [generator, outputPtr]
  | .curandGenerateNormalDouble generator outputPtr _ _ _ => [generator, outputPtr]
  | .curandGenerateLogNormal generator outputPtr _ _ _ => [generator, outputPtr]
  | .curandGenerateLogNormalDouble generator outputPtr _ _ _ => [generator, outputPtr]
  | .curandCreatePoissonDistribution _ discrete_distribution => [discrete_distribution]
  | .curandDestroyDistribution discrete_distribution => [discrete_distribution]
  | .curandGeneratePoisson generator outputPtr _ _ => [generator, outputPtr]
  | .curandGenerateSeeds generator => [generator]
  | .curandGetDirectionVectors32 vectors _ => [vectors]
  | .curandGetScrambleConstants32 constants => [constants]
  | .curandGetDirectionVectors64 vectors _ => [vectors]
  | .curandGetScrambleConstants64 constants => [constants]

/-- The generation entry points: those that fill a caller supplied buffer. -/
def Call.isGeneration : Call → Bool
  | .curandGenerate _ _ _ => true
  | .curandGenerateLongLong _ _ _ => true
  | .curandGenerateUniform _ _ _ => true
  | .curandGenerateUniformDouble _ _ _ => true
  | .curandGenerateNormal _ _ _ _ _ => true
  | .curandGenerateNormalDouble _ _ _ _ _ => true
  | .curandGenerateLogNormal _ _ _ _ _ => true
  | .curandGenerateLogNormalDouble _ _ _ _ _ => true
  | .curandGeneratePoisson _ _ _ _ => true
  | _ => false

/-- The entry points that take only handle bearing objects and scalars, and
write nothing back. -/
def Call.isHandleOnly : Call → Bool
  | .curandDestroyGenerator _ => true
  | .curandSetStream _ _ => true
  | .curandSetPseudoRandomGeneratorSeed _ _ => true
  | .curandSetGeneratorOffset _ _ => true
  | .curandSetGeneratorOrdering _ _ => true
  | .curandSetQuasiRandomGeneratorDimensions _ _ => true
  | .curandGenerateSeeds _ => true
  | .curandDestroyDistribution _ => true
  | _ => false

/-- The managed object onto which a creation entry point attaches a handle. -/
def Call.attachesTo : Call → jobject
  | .curandCreateGenerator generator _ => generator
  | .curandCreateGeneratorHost generator _ => generator
  | .curandCreatePoissonDistribution _ discrete_distribution => discrete_distribution
  | _ => none

/-- The generator argument of the entry points that use an existing generator. -/
def Call.generatorArg : Call → jobject
  | .curandDestroyGenerator generator => generator
  | .curandSetStream generator _ => generator
  | .curandSetPseudoRandomGeneratorSeed generator _ => generator
  | .curandSetGeneratorOffset generator _ => generator
  | .curandSetGeneratorOrdering generator _ => generator
  | .curandSetQuasiRandomGeneratorDimensions generator _ => generator
  | .curandGenerate generator _ _ => generator
  | .curandGenerateLongLong generator _ _ => generator
  | .curandGenerateUniform generator _ _ => generator
  | .curandGenerateUniformDouble generator _ _ => generator
  | .curandGenerateNormal generator _ _ _ _ => generator
  | .curandGenerateNormalDouble generator _ _ _ _ => generator
  | .curandGenerateLogNormal generator _ _ _ _ => generator
  | .curandGenerateLogNormalDouble generator _ _ _ _ => generator
  | .curandGeneratePoisson generator _ _ _ => generator
  | .curandGenerateSeeds generator => generator
  | _ => none

/-- The buffer argument of the generation entry points. -/
def Call.bufferArg : Call → jobject
  | .curandGenerate _ outputPtr _ => outputPtr
  | .curandGenerateLongLong _ outputPtr _ => outputPtr
  | .curandGenerateUniform _ outputPtr _ => outputPtr
  | .curandGenerateUniformDouble _ outputPtr _ => outputPtr
  | .curandGenerateNormal _ outputPtr _ _ _ => outputPtr
  | .curandGenerateNormalDouble _ outputPtr _ _ _ => outputPtr
  | .curandGenerateLogNormal _ outputPtr _ _ _ => outputPtr
  | .curandGenerateLogNormalDouble _ outputPtr _ _ _ => outputPtr
  | .curandGeneratePoisson _ outputPtr _ _ => outputPtr
  | _ => none

/-- Whether a native call is an invocation of the library function that the
entry point of the call wraps (the arguments are not compared). -/
def Call.wraps : Call → NativeCall → Bool
  | .curandGetProperty _ _, .curandGetProperty _ => true
  | .curandCreateGenerator _ _, .curandCreateGenerator _ => true
  | .curandCreateGeneratorHost _ _, .curandCreateGeneratorHost _ => true
  | .curandDestroyGenerator _, .curandDestroyGenerator _ => true
  | .curandGetVersion _, .curandGetVersion => true
  | .curandSetStream _ _, .curandSetStream _ _ => true
  | .curandSetPseudoRandomGeneratorSeed _ _, .curandSetPseudoRandomGeneratorSeed _ _ => true
  | .curandSetGeneratorOffset _ _, .curandSetGeneratorOffset _ _ => true
  | .curandSetGeneratorOrdering _ _, .curandSetGeneratorOrdering _ _ => true
  | .curandSetQuasiRandomGeneratorDimensions _ _, .curandSetQuasiRandomGeneratorDimensions _ _ => true
  | .curandGenerate _ _ _, .curandGenerate _ _ _ => true
  | .curandGenerateLongLong _ _ _, .curandGenerateLongLong _ _ _ => true
  | .curandGenerateUniform _ _ _, .curandGenerateUniform _ _ _ => true
  | .curandGenerateUniformDouble _ _ _, .curandGenerateUniformDouble _ _ _ => true
  | .curandGenerateNormal _ _ _ _ _, .curandGenerateNormal _ _ _ _ _ => true
  | .curandGenerateNormalDouble _ _ _ _ _, .curandGenerateNormalDouble _ _ _ _ _ => true
  | .curandGenerateLogNormal _ _ _ _ _, .curandGenerateLogNormal _ _ _ _ _ => true
  | .curandGenerateLogNormalDouble _ _ _ _ _, .curandGenerateLogNormalDouble _ _ _ _ _ => true
  | .curandCreatePoissonDistribution _ _, .curandCreatePoissonDistribution _ => true
  | .curandDestroyDistribution _, .curandDestroyDistribution _ => true
  | .curandGeneratePoisson _ _ _ _, .curandGeneratePoisson _ _ _ _ => true
  | .curandGenerateSeeds _, .curandGenerateSeeds _ => true
  | .curandGetDirectionVectors32 _ _, .curandGetDirectionVectors32 _ => true
  | .curandGetScrambleConstants32 _, .curandGetScrambleConstants32 => true
  | .curandGetDirectionVectors64 _ _, .curandGetDirectionVectors64 _ => true
  | .curandGetScrambleConstants64 _, .curandGetScrambleConstants64 => true
  | _, _ => false

/-- The return of a native method to managed code: the JVM throws the pending
exception there, after which no exception is pending. -/
def World.deliver (w : World) : World := { w with pending := none }

/-- A sequence of calls from managed code: each call runs on the world the
previous one left, after its pending exception, if any, was delivered. -/
def runAll (env : Env) : World → List Call → World
  | w, [] => w
  | w, c :: cs => runAll env (c.run env w).1.deliver cs

/-! ## A concrete environment -/

/-- Modelled from the spec: the values of the header constants, none of which is
defined in this file: the sentinel of `JCurand_common.hpp`, the statuses and
the direction vector sets of `curand.h`, the levels of `Logger.hpp` and the
constants of `jni.h`. -/
def headerConstants : Constants :=
  { JCURAND_STATUS_INTERNAL_ERROR := -1
    CURAND_STATUS_SUCCESS := 0
    CURAND_STATUS_NOT_INITIALIZED := 101
    CURAND_DIRECTION_VECTORS_32_JOEKUO6 := 101
    CURAND_SCRAMBLED_DIRECTION_VECTORS_32_JOEKUO6 := 102
    CURAND_DIRECTION_VECTORS_64_JOEKUO6 := 103
    CURAND_SCRAMBLED_DIRECTION_VECTORS_64_JOEKUO6 := 104
    LOG_ERROR := 1
    LOG_TRACE := 5
    JNI_ERR := -1
    JNI_VERSION_1_4 := 65540 }

/-- The direction vector table of the stub library: entry `[i][j]` is `i + j`. -/
def stubTable (i j : Nat) : Nat := i + j

/-- The scramble constants of the stub library: constant `i` is `i`. -/
def stubConstants (i : Nat) : Nat := i

/-- A stub of the wrapped library and of the JVM: teardown of the null handle
reports not-initialized (101), every other call succeeds; creations write the
handle 4096, queries write 10020, tables hold `i + j` and constants `i`; every
JVM service succeeds and every buffer resolves to the address 512. -/
def stubEnv : Env :=
  { K := headerConstants
    status := fun _ c =>
      match c with
      | .curandDestroyGenerator 0 => 101
      | .curandDestroyDistribution 0 => 101
      | _ => 0
    outInt := fun _ _ => some 10020
    outHandle := fun _ _ => some 4096
    outTable := fun _ _ => some stubTable
    outConstants := fun _ _ => some stubConstants
    indeterminate := 0
    wildTable := fun _ _ => 0
    wildConstants := fun _ => 0
    pointerData := fun _ => some 512
    releaseOk := fun _ => true
    findClassOk := fun _ => true
    newObjectArrayOk := true
    newArrayOk := fun _ => true
    criticalOk := fun _ => true
    storeInnerThrows := fun _ => false
    storeResultThrows := false
    setCriticalOk := true
    getEnvFails := false
    initJNIUtilsResult := 0
    initPointerUtilsResult := 0 }

/-- The stub environment in which no buffer resolves. -/
def unresolvedEnv : Env := { stubEnv with pointerData := fun _ => none }

/-- The stub environment in which every buffer release fails. -/
def releaseFailEnv : Env := { stubEnv with releaseOk := fun _ => false }

/-- The fresh world in which every object array has one element, `null`. -/
def containerWorld : World := { World.init with objArrays := fun _ => [Slot.null] }

/-- The element count a native generation call receives. -/
def NativeCall.size : NativeCall → Option Nat
  | .curandGenerate _ _ num => some num
  | .curandGenerateLongLong _ _ num => some num
  | .curandGenerateUniform _ _ num => some num
  | .curandGenerateUniformDouble _ _ num => some num
  | .curandGenerateNormal _ _ n _ _ => some n
  | .curandGenerateNormalDouble _ _ n _ _ => some n
  | .curandGenerateLogNormal _ _ n _ _ => some n
  | .curandGenerateLogNormalDouble _ _ n _ _ => some n
  | .curandGeneratePoisson _ _ n _ => some n
  | _ => none

/-- The 64-bit signed count argument of a generation entry point. -/
def Call.count : Call → Option Int
  | .curandGenerate _ _ num => some num
  | .curandGenerateLongLong _ _ num => some num
  | .curandGenerateUniform _ _ num => some num
  | .curandGenerateUniformDouble _ _ num => some num
  | .curandGenerateNormal _ _ n _ _ => some n
  | .curandGenerateNormalDouble _ _ n _ _ => some n
  | .curandGenerateLogNormal _ _ n _ _ => some n
  | .curandGenerateLogNormalDouble _ _ n _ _ => some n
  | .curandGeneratePoisson _ _ n _ => some n
  | _ => none

/-- The entry points that return a table through a caller supplied container. -/
def Call.isTable : Call → Bool
  | .curandGetDirectionVectors32 _ _ => true
  | .curandGetScrambleConstants32 _ => true
  | .curandGetDirectionVectors64 _ _ => true
  | .curandGetScrambleConstants64 _ => true
  | _ => false

/-- The stub environment whose library rejects every direction vector selector
other than 101, 102 (32-bit) and 103, 104 (64-bit) with the status 104
(out of range). -/
def strictEnv : Env :=
  { stubEnv with
    status := fun _ c =>
      match c with
      | .curandGetDirectionVectors32 s => if s = 101 ∨ s = 102 then 0 else 104
      | .curandGetDirectionVectors64 s => if s = 103 ∨ s = 104 then 0 else 104
      | _ => 0 }

/-- The stub environment in which the inner array of dimension 2 cannot be created. -/
def innerFailEnv : Env := { stubEnv with newArrayOk := fun i => decide (i ≠ 2) }

/-- The fresh world in which every `int[]` has one element, 0. -/
def arrayWorld : World := { World.init with intArrays := fun _ => [0] }

/-! ## Native calls and log independence -/

/-- Whether a native call is a teardown of the wrapped library. -/
def NativeCall.isTeardown : NativeCall → Bool
  | .curandDestroyGenerator _ => true
  | .curandDestroyDistribution _ => true
  | _ => false

/-- The two destroy entry points. -/
def Call.isDestroy : Call → Bool
  | .curandDestroyGenerator _ => true
  | .curandDestroyDistribution _ => true
  | _ => false

/-- The invocation of the wrapped library that a call reaches, with the
converted arguments: `none` when a check that precedes the native call (null
argument, container length, buffer resolution) rejects the call. -/
def Call.nativeCall (env : Env) (w : World) : Call → Option NativeCall
  | .curandGetProperty type (some _) => some (.curandGetProperty type)
  | .curandCreateGenerator (some _) rng_type => some (.curandCreateGenerator rng_type)
  | .curandCreateGeneratorHost (some _) rng_type => some (.curandCreateGeneratorHost rng_type)
  | .curandDestroyGenerator (some g) => some (.curandDestroyGenerator (ofJlong (w.nativePointer g)))
  | .curandGetVersion (some _) => some .curandGetVersion
  | .curandSetStream (some g) (some s) =>
    some (.curandSetStream (ofJlong (w.nativePointer g)) (ofJlong (w.nativePointer s)))
  | .curandSetPseudoRandomGeneratorSeed (some g) seed =>
    some (.curandSetPseudoRandomGeneratorSeed (ofJlong (w.nativePointer g)) (ofJlong seed))
  | .curandSetGeneratorOffset (some g) offset =>
    some (.curandSetGeneratorOffset (ofJlong (w.nativePointer g)) (ofJlong offset))
  | .curandSetGeneratorOrdering (some g) order =>
    some (.curandSetGeneratorOrdering (ofJlong (w.nativePointer g)) order)
  | .curandSetQuasiRandomGeneratorDimensions (some g) num_dimensions =>
    some (.curandSetQuasiRandomGeneratorDimensions (ofJlong (w.nativePointer g))
      (ofJint num_dimensions))
  | .curandGenerate (some g) (some p) num =>
    (env.pointerData p).map fun a => .curandGenerate (ofJlong (w.nativePointer g)) a (ofJlong num)
  | .curandGenerateLongLong (some g) (some p) num =>
    (env.pointerData p).map fun a =>
      .curandGenerateLongLong (ofJlong (w.nativePointer g)) a (ofJlong num)
  | .curandGenerateUniform (some g) (some p) num =>
    (env.pointerData p).map fun a =>
      .curandGenerateUniform (ofJlong (w.nativePointer g)) a (ofJlong num)
  | .curandGenerateUniformDouble (some g) (some p) num =>
    (env.pointerData p).map fun a =>
      .curandGenerateUniformDouble (ofJlong (w.nativePointer g)) a (ofJlong num)
  | .curandGenerateNormal (some g) (some p) n mean stddev =>
    (env.pointerData p).map fun a =>
      .curandGenerateNormal (ofJlong (w.nativePointer g)) a (ofJlong n) mean stddev
  | .curandGenerateNormalDouble (some g) (some p) n mean stddev =>
    (env.pointerData p).map fun a =>
      .curandGenerateNormalDouble (ofJlong (w.nativePointer g)) a (ofJlong n) mean stddev
  | .curandGenerateLogNormal (some g) (some p) n mean stddev =>
    (env.pointerData p).map fun a =>
      .curandGenerateLogNormal (ofJlong (w.nativePointer g)) a (ofJlong n) mean stddev
  | .curandGenerateLogNormalDouble (some g) (some p) n mean stddev =>
    (env.pointerData p).map fun a =>
      .curandGenerateLogNormalDouble (ofJlong (w.nativePointer g)) a (ofJlong n) mean stddev
  | .curandCreatePoissonDistribution lambda (some _) =>
    some (.curandCreatePoissonDistribution lambda)
  | .curandDestroyDistribution (some d) =>
    some (.curandDestroyDistribution (ofJlong (w.nativePointer d)))
  | .curandGeneratePoisson (some g) (some p) n lambda =>
    (env.pointerData p).map fun a =>
      .curandGeneratePoisson (ofJlong (w.nativePointer g)) a (ofJlong n) lambda
  | .curandGenerateSeeds (some g) => some (.curandGenerateSeeds (ofJlong (w.nativePointer g)))
  | .curandGetDirectionVectors32 (some v) set =>
    if (w.objArrays v).length < 1 then none else some (.curandGetDirectionVectors32 set)
  | .curandGetScrambleConstants32 (some v) =>
    if (w.objArrays v).length < 1 then none else some .curandGetScrambleConstants32
  | .curandGetDirectionVectors64 (some v) set =>
    if (w.objArrays v).length < 1 then none else some (.curandGetDirectionVectors64 set)
  | .curandGetScrambleConstants64 (some v) =>
    if (w.objArrays v).length < 1 then none else some .curandGetScrambleConstants64
  | _ => none

/-- Modelled from the spec: the values of the status enumeration of the wrapped
library (`curandStatus_t` of `curand.h`, not in this file), by name. -/
def curandStatusValues : List (String × Int) :=
  [("CURAND_STATUS_SUCCESS", 0),
   ("CURAND_STATUS_VERSION_MISMATCH", 100),
   ("CURAND_STATUS_NOT_INITIALIZED", 101),
   ("CURAND_STATUS_ALLOCATION_FAILED", 102),
   ("CURAND_STATUS_TYPE_ERROR", 103),
   ("CURAND_STATUS_OUT_OF_RANGE", 104),
   ("CURAND_STATUS_LENGTH_NOT_MULTIPLE", 105),
   ("CURAND_STATUS_DOUBLE_PRECISION_REQUIRED", 106),
   ("CURAND_STATUS_LAUNCH_FAILURE", 201),
   ("CURAND_STATUS_PREEXISTING_FAILURE", 202),
   ("CURAND_STATUS_INITIALIZATION_FAILED", 203),
   ("CURAND_STATUS_ARCH_MISMATCH", 204),
   ("CURAND_STATUS_INTERNAL_ERROR", 999)]

/-- The stub environment whose library fails every creation with the status 102
(allocation failed) without writing the handle. -/
def failingCreateEnv : Env :=
  { stubEnv with
    status := fun _ _ => 102
    outHandle := fun _ _ => none }

/-- The fresh world in which the handle 4096 is attached to every object. -/
def attachedWorld : World := { World.init with nativePointer := fun _ => 4096 }

/-- The fresh world in which every `int[]` is `{7, 8}` and every object array
holds `null` and a one element row. -/
def pairWorld : World :=
  { World.init with
    intArrays := fun _ => [7, 8]
    objArrays := fun _ => [Slot.null, Slot.row [1]] }

/-- Two worlds that differ at most in the state of the logger: the log level
and the lines written so far. -/
def World.sameButLog (w1 w2 : World) : Prop :=
  w1.nativePointer = w2.nativePointer ∧ w1.intArrays = w2.intArrays ∧
    w1.objArrays = w2.objArrays ∧ w1.pending = w2.pending ∧ w1.trace = w2.trace

/-! ## Basic facts about the helpers -/

section Helpers

variable (env : Env) (w : World)

@[simp] theorem emit_trace (e : Event) : (w.emit e).trace = w.trace ++ [e] := rfl
@[simp] theorem emit_pending (e : Event) : (w.emit e).pending = w.pending := rfl
@[simp] theorem emit_nativePointer (e : Event) : (w.emit e).nativePointer = w.nativePointer := rfl
@[simp] theorem emit_objArrays (e : Event) : (w.emit e).objArrays = w.objArrays := rfl
@[simp] theorem emit_intArrays (e : Event) : (w.emit e).intArrays = w.intArrays := rfl
@[simp] theorem emit_logLevel (e : Event) : (w.emit e).logLevel = w.logLevel := rfl

@[simp] theorem log_trace (l : Int) (m : String) : (Logger.log w l m).trace = w.trace := by
  unfold Logger.log; split <;> rfl
@[simp] theorem log_pending (l : Int) (m : String) : (Logger.log w l m).pending = w.pending := by
  unfold Logger.log; split <;> rfl
@[simp] theorem log_nativePointer (l : Int) (m : String) :
    (Logger.log w l m).nativePointer = w.nativePointer := by
  unfold Logger.log; split <;> rfl
@[simp] theorem log_objArrays (l : Int) (m : String) :
    (Logger.log w l m).objArrays = w.objArrays := by
  unfold Logger.log; split <;> rfl
@[simp] theorem log_intArrays (l : Int) (m : String) :
    (Logger.log w l m).intArrays = w.intArrays := by
  unfold Logger.log; split <;> rfl
@[simp] theorem log_logLevel (l : Int) (m : String) :
    (Logger.log w l m).logLevel = w.logLevel := by
  unfold Logger.log; split <;> rfl
@[simp] theorem log_calls (l : Int) (m : String) : (Logger.log w l m).calls = w.calls := by
  simp [World.calls]

@[simp] theorem emit_calls_native (c : NativeCall) :
    (w.emit (Event.native c)).calls = w.calls ++ [c] := by
  simp [World.calls, Event.nativeCall]

end Helpers

section Throw

variable (w : World) (cls msg : String)

@[simp] theorem throw_trace :
    (ThrowByName w cls msg).trace = w.trace ++ [Event.throwByName cls msg] := rfl
@[simp] theorem throw_pending : (ThrowByName w cls msg).pending = some (cls, msg) := rfl
@[simp] theorem throw_nativePointer :
    (ThrowByName w cls msg).nativePointer = w.nativePointer := rfl
@[simp] theorem throw_objArrays : (ThrowByName w cls msg).objArrays = w.objArrays := rfl
@[simp] theorem throw_intArrays : (ThrowByName w cls msg).intArrays = w.intArrays := rfl
@[simp] theorem throw_logLevel : (ThrowByName w cls msg).logLevel = w.logLevel := rfl
@[simp] theorem throw_calls : (ThrowByName w cls msg).calls = w.calls := by
  simp [World.calls, Event.nativeCall]

end Throw

/-! ## Null arguments (C1) -/

/-- A call with a null object argument does nothing but raise the
`NullPointerException` and return the internal error. -/
theorem null_run (env : Env) (w : World) (c : Call) (h : none ∈ c.objectArgs) :
    ∃ msg : String, c.run env w =
      (ThrowByName w "java/lang/NullPointerException" msg, env.K.JCURAND_STATUS_INTERNAL_ERROR) := by
  cases c <;>
    simp only [Call.objectArgs, List.mem_cons, List.mem_singleton, List.not_mem_nil, or_false] at h
  all_goals first
    | (subst h; exact ⟨_, rfl⟩)
    | (rcases h with h | h
       · subst h; exact ⟨_, rfl⟩
       · subst h
         cases ‹jobject›
         · exact ⟨_, rfl⟩
         · exact ⟨_, rfl⟩)

/-- C1: for every entry point, if one of its object arguments (generator,
outputPtr, stream, discrete_distribution, the version or value array, the vectors
or constants container) is null, the call raises a `NullPointerException`,
returns `JCURAND_STATUS_INTERNAL_ERROR`, and its only boundary event is that
throw: no native library function is invoked, no buffer resolution is attempted,
and the managed heap is unchanged. -/
theorem null_argument_rejected (env : Env) (w : World) (c : Call) (h : none ∈ c.objectArgs) :
    ∃ msg : String,
      (c.run env w).2 = env.K.JCURAND_STATUS_INTERNAL_ERROR ∧
      (c.run env w).1.pending = some ("java/lang/NullPointerException", msg) ∧
      (c.run env w).1.trace = w.trace ++ [Event.throwByName "java/lang/NullPointerException" msg] ∧
      (c.run env w).1.calls = w.calls ∧
      (c.run env w).1.trace.filter Event.isInitPointerData =
        w.trace.filter Event.isInitPointerData ∧
      (c.run env w).1.nativePointer = w.nativePointer ∧
      (c.run env w).1.intArrays = w.intArrays ∧
      (c.run env w).1.objArrays = w.objArrays := by
  obtain ⟨msg, hrun⟩ := null_run env w c h
  refine ⟨msg, ?_⟩
  rw [hrun]
  simp [Event.isInitPointerData]

/-- Witness of C1: `curandGenerate` with a null `outputPtr` on the fresh world. -/
theorem null_argument_rejected_witness :
    none ∈ (Call.curandGenerate (some 1) none 5).objectArgs ∧
    ∃ msg : String,
      ((Call.curandGenerate (some 1) none 5).run stubEnv World.init).2 =
        stubEnv.K.JCURAND_STATUS_INTERNAL_ERROR ∧
      ((Call.curandGenerate (some 1) none 5).run stubEnv World.init).1.pending =
        some ("java/lang/NullPointerException", msg) ∧
      ((Call.curandGenerate (some 1) none 5).run stubEnv World.init).1.trace =
        World.init.trace ++ [Event.throwByName "java/lang/NullPointerException" msg] ∧
      ((Call.curandGenerate (some 1) none 5).run stubEnv World.init).1.calls = World.init.calls ∧
      ((Call.curandGenerate (some 1) none 5).run stubEnv World.init).1.trace.filter
          Event.isInitPointerData = World.init.trace.filter Event.isInitPointerData ∧
      ((Call.curandGenerate (some 1) none 5).run stubEnv World.init).1.nativePointer =
        World.init.nativePointer ∧
      ((Call.curandGenerate (some 1) none 5).run stubEnv World.init).1.intArrays =
        World.init.intArrays ∧
      ((Call.curandGenerate (some 1) none 5).run stubEnv World.init).1.objArrays =
        World.init.objArrays :=
  ⟨by decide,
    null_argument_rejected stubEnv World.init (Call.curandGenerate (some 1) none 5) (by decide)⟩

/-! ## Status passthrough of the handle-only entry points (C2) -/

/-- C2: each handle-only or scalar-only entry point (curandDestroyGenerator,
curandSetStream, curandSetPseudoRandomGeneratorSeed, curandSetGeneratorOffset,
curandSetGeneratorOrdering, curandSetQuasiRandomGeneratorDimensions,
curandGenerateSeeds, curandDestroyDistribution) called with non-null arguments
makes exactly one boundary event, the call of the native function it wraps, and
for every status `s` that this native call returns the entry point returns
exactly `s`. -/
theorem handle_only_status_passthrough (env : Env) (w : World) (c : Call)
    (hc : c.isHandleOnly = true) (hnn : none ∉ c.objectArgs) :
    ∃ nc : NativeCall, c.wraps nc = true ∧
      (c.run env w).1.trace = w.trace ++ [Event.native nc] ∧
      ∀ s : Int, env.status w.calls nc = s → (c.run env w).2 = s := by
  cases c <;> simp only [Call.isHandleOnly] at hc <;> try (exact absurd hc (by decide))
  all_goals try cases ‹jobject›
  all_goals try cases ‹jobject›
  all_goals try (exfalso; simp [Call.objectArgs] at hnn; done)
  all_goals
    simp only [Call.run, curandDestroyGeneratorNative, curandSetStreamNative,
        curandSetPseudoRandomGeneratorSeedNative, curandSetGeneratorOffsetNative,
        curandSetGeneratorOrderingNative, curandSetQuasiRandomGeneratorDimensionsNative,
        curandGenerateSeedsNative, curandDestroyDistributionNative, invoke,
        emit_trace, log_trace, log_calls]
    refine ⟨_, ?_, rfl, ?_⟩
    · rfl
    · intro s hs; exact hs

/-- Witness of C2: `curandSetStream` on two non-null objects. -/
theorem handle_only_status_passthrough_witness :
    (Call.curandSetStream (some 1) (some 2)).isHandleOnly = true ∧
    none ∉ (Call.curandSetStream (some 1) (some 2)).objectArgs ∧
    ∃ nc : NativeCall, (Call.curandSetStream (some 1) (some 2)).wraps nc = true ∧
      ((Call.curandSetStream (some 1) (some 2)).run stubEnv World.init).1.trace =
        World.init.trace ++ [Event.native nc] ∧
      ∀ s : Int, stubEnv.status World.init.calls nc = s →
        ((Call.curandSetStream (some 1) (some 2)).run stubEnv World.init).2 = s :=
  ⟨rfl, by decide,
    handle_only_status_passthrough stubEnv World.init (Call.curandSetStream (some 1) (some 2)) rfl
      (by decide)⟩

/-! ## The generation entry points (C3 to C6) -/

/-- The object arguments of a generation call are its generator and its buffer. -/
theorem generation_args (c : Call) (hc : c.isGeneration = true) :
    c.objectArgs = [c.generatorArg, c.bufferArg] := by
  cases c <;> simp only [Call.isGeneration] at hc <;> first | rfl | exact absurd hc (by decide)

/-- A generation call whose buffer resolves: resolution, one native call, release. -/
theorem generation_resolved_run (env : Env) (w : World) (c : Call) (g p a : Nat)
    (hc : c.isGeneration = true) (hargs : c.objectArgs = [some g, some p])
    (hres : env.pointerData p = some a) :
    ∃ nc : NativeCall, c.wraps nc = true ∧
      (c.run env w).1.trace = w.trace ++
        [Event.initPointerData p true, Event.native nc,
          Event.releasePointerData p (env.releaseOk p)] ∧
      ((c.run env w).2 =
        if env.releaseOk p = true then env.status w.calls nc
        else env.K.JCURAND_STATUS_INTERNAL_ERROR) ∧
      nc.handle = some (ofJlong (w.nativePointer g)) := by
  cases hrel : env.releaseOk p <;>
  cases c <;> simp only [Call.isGeneration] at hc <;> try (exact absurd hc (by decide))
  all_goals
    simp only [Call.objectArgs, List.cons.injEq, and_true] at hargs
    obtain ⟨rfl, rfl⟩ := hargs
    simp only [Call.run, curandGenerateNative, curandGenerateLongLongNative,
      curandGenerateUniformNative, curandGenerateUniformDoubleNative, curandGenerateNormalNative,
      curandGenerateNormalDoubleNative, curandGenerateLogNormalNative,
      curandGenerateLogNormalDoubleNative, curandGeneratePoissonNative,
      initPointerData, hres, releasePointerData, hrel, invoke,
      emit_trace, log_trace, log_calls, List.append_assoc, List.singleton_append, List.cons_append,
      List.nil_append, Bool.not_true, Bool.not_false, Bool.false_eq_true, if_false, if_true]
    refine ⟨_, ?_, rfl, ?_, ?_⟩
    · rfl
    · simp [World.calls, Event.nativeCall]
    · simp [NativeCall.handle, getNativePointerValue]

/-- A generation call whose buffer does not resolve stops after the attempt. -/
theorem generation_unresolved_run (env : Env) (w : World) (c : Call) (g p : Nat)
    (hc : c.isGeneration = true) (hargs : c.objectArgs = [some g, some p])
    (hres : env.pointerData p = none) :
    (c.run env w).1.trace = w.trace ++ [Event.initPointerData p false] ∧
      (c.run env w).2 = env.K.JCURAND_STATUS_INTERNAL_ERROR := by
  cases c <;> simp only [Call.isGeneration] at hc <;> try (exact absurd hc (by decide))
  all_goals
    simp only [Call.objectArgs, List.cons.injEq, and_true] at hargs
    obtain ⟨rfl, rfl⟩ := hargs
    simp [Call.run, curandGenerateNative, curandGenerateLongLongNative,
      curandGenerateUniformNative, curandGenerateUniformDoubleNative, curandGenerateNormalNative,
      curandGenerateNormalDoubleNative, curandGenerateLogNormalNative,
      curandGenerateLogNormalDoubleNative, curandGeneratePoissonNative,
      initPointerData, hres]

/-- The native calls of a world whose trace was extended. -/
theorem calls_of_trace (w w1 : World) (delta : List Event) (h : w1.trace = w.trace ++ delta) :
    w1.calls = w.calls ++ delta.filterMap Event.nativeCall := by
  simp [World.calls, h]

/-- C3: for each generation entry point called with non-null arguments, if the
buffer resolution succeeds and the buffer release succeeds, the run is
resolution, one call of the wrapped native generation function, release, and for
every status `s` that the native call returns (failure statuses included) the
entry point returns `s`. -/
theorem generation_status_passthrough (env : Env) (w : World) (c : Call) (g p a : Nat)
    (hc : c.isGeneration = true) (hargs : c.objectArgs = [some g, some p])
    (hres : env.pointerData p = some a) (hrel : env.releaseOk p = true) :
    ∃ nc : NativeCall, c.wraps nc = true ∧
      (c.run env w).1.trace = w.trace ++
        [Event.initPointerData p true, Event.native nc, Event.releasePointerData p true] ∧
      ∀ s : Int, env.status w.calls nc = s → (c.run env w).2 = s := by
  obtain ⟨nc, hw, ht, hs, _⟩ := generation_resolved_run env w c g p a hc hargs hres
  rw [hrel] at ht hs
  exact ⟨nc, hw, ht, fun s h => by rw [hs, if_pos rfl, h]⟩

/-- Witness of C3: `curandGenerate` under the stub environment. -/
theorem generation_status_passthrough_witness :
    (Call.curandGenerate (some 1) (some 2) 5).isGeneration = true ∧
    (Call.curandGenerate (some 1) (some 2) 5).objectArgs = [some 1, some 2] ∧
    stubEnv.pointerData 2 = some 512 ∧ stubEnv.releaseOk 2 = true ∧
    ∃ nc : NativeCall, (Call.curandGenerate (some 1) (some 2) 5).wraps nc = true ∧
      ((Call.curandGenerate (some 1) (some 2) 5).run stubEnv World.init).1.trace =
        World.init.trace ++
          [Event.initPointerData 2 true, Event.native nc, Event.releasePointerData 2 true] ∧
      ∀ s : Int, stubEnv.status World.init.calls nc = s →
        ((Call.curandGenerate (some 1) (some 2) 5).run stubEnv World.init).2 = s :=
  ⟨rfl, rfl, rfl, rfl,
    generation_status_passthrough stubEnv World.init (Call.curandGenerate (some 1) (some 2) 5)
      1 2 512 rfl rfl rfl rfl⟩

/-- C4: for each generation entry point called with non-null arguments, if
resolving the output buffer fails (`initPointerData` yields no pointer data), the
entry point returns `JCURAND_STATUS_INTERNAL_ERROR`, its only boundary event is
the failed resolution, no native function is invoked and no release is
performed. -/
theorem resolution_failure_stops (env : Env) (w : World) (c : Call) (g p : Nat)
    (hc : c.isGeneration = true) (hargs : c.objectArgs = [some g, some p])
    (hres : env.pointerData p = none) :
    (c.run env w).2 = env.K.JCURAND_STATUS_INTERNAL_ERROR ∧
    (c.run env w).1.trace = w.trace ++ [Event.initPointerData p false] ∧
    (c.run env w).1.calls = w.calls ∧
    (c.run env w).1.trace.filter Event.isRelease = w.trace.filter Event.isRelease := by
  obtain ⟨ht, hs⟩ := generation_unresolved_run env w c g p hc hargs hres
  refine ⟨hs, ht, ?_, ?_⟩
  · rw [calls_of_trace w _ _ ht]; simp [Event.nativeCall]
  · rw [ht]; simp [Event.isRelease]

/-- Witness of C4: `curandGenerateNormal` when no buffer resolves. -/
theorem resolution_failure_stops_witness :
    (Call.curandGenerateNormal (some 1) (some 2) 5 ⟨0⟩ ⟨1⟩).isGeneration = true ∧
    (Call.curandGenerateNormal (some 1) (some 2) 5 ⟨0⟩ ⟨1⟩).objectArgs = [some 1, some 2] ∧
    unresolvedEnv.pointerData 2 = none ∧
    ((Call.curandGenerateNormal (some 1) (some 2) 5 ⟨0⟩ ⟨1⟩).run unresolvedEnv World.init).2 =
      unresolvedEnv.K.JCURAND_STATUS_INTERNAL_ERROR ∧
    ((Call.curandGenerateNormal (some 1) (some 2) 5 ⟨0⟩ ⟨1⟩).run unresolvedEnv World.init).1.trace =
      World.init.trace ++ [Event.initPointerData 2 false] ∧
    ((Call.curandGenerateNormal (some 1) (some 2) 5 ⟨0⟩ ⟨1⟩).run unresolvedEnv World.init).1.calls =
      World.init.calls ∧
    ((Call.curandGenerateNormal (some 1) (some 2) 5 ⟨0⟩ ⟨1⟩).run unresolvedEnv
        World.init).1.trace.filter Event.isRelease = World.init.trace.filter Event.isRelease :=
  ⟨rfl, rfl, rfl,
    resolution_failure_stops unresolvedEnv World.init
      (Call.curandGenerateNormal (some 1) (some 2) 5 ⟨0⟩ ⟨1⟩) 1 2 rfl rfl rfl⟩

/-- C5: in every run of every generation entry point, whatever the arguments and
the environment, the number of release invocations equals the number of
successful resolutions, both at most one: either the run has neither, or its
boundary events are exactly a successful resolution, one native call and one
release of the same buffer, in that order (also when the native call fails). -/
theorem resolution_release_balanced (env : Env) (w : World) (c : Call)
    (hc : c.isGeneration = true) :
    ∃ delta : List Event,
      (c.run env w).1.trace = w.trace ++ delta ∧
      (delta.filter Event.isRelease).length = (delta.filter Event.isResolution).length ∧
      (delta.filter Event.isResolution).length ≤ 1 ∧
      ((delta.filter Event.isRelease = [] ∧ delta.filter Event.isResolution = []) ∨
        ∃ (p : Nat) (nc : NativeCall) (ok : Bool), delta =
          [Event.initPointerData p true, Event.native nc, Event.releasePointerData p ok]) := by
  have hargs := generation_args c hc
  rcases hg : c.generatorArg with _ | g
  · obtain ⟨msg, hrun⟩ := null_run env w c (by rw [hargs, hg]; simp)
    exact ⟨[Event.throwByName "java/lang/NullPointerException" msg], by rw [hrun]; rfl,
      by simp [Event.isRelease, Event.isResolution]⟩
  rcases hp : c.bufferArg with _ | p
  · obtain ⟨msg, hrun⟩ := null_run env w c (by rw [hargs, hp]; simp)
    exact ⟨[Event.throwByName "java/lang/NullPointerException" msg], by rw [hrun]; rfl,
      by simp [Event.isRelease, Event.isResolution]⟩
  rw [hg, hp] at hargs
  rcases hres : env.pointerData p with _ | a
  · obtain ⟨ht, _⟩ := generation_unresolved_run env w c g p hc hargs hres
    exact ⟨[Event.initPointerData p false], ht, by simp [Event.isRelease, Event.isResolution]⟩
  · obtain ⟨nc, _, ht, _⟩ := generation_resolved_run env w c g p a hc hargs hres
    exact ⟨_, ht, by simp [Event.isRelease, Event.isResolution],
      by simp [Event.isRelease, Event.isResolution], Or.inr ⟨p, nc, _, rfl⟩⟩

/-- Witness of C5: `curandGenerateLogNormalDouble` when every release fails. -/
theorem resolution_release_balanced_witness :
    (Call.curandGenerateLogNormalDouble (some 1) (some 2) 5 ⟨0⟩ ⟨1⟩).isGeneration = true ∧
    ∃ delta : List Event,
      ((Call.curandGenerateLogNormalDouble (some 1) (some 2) 5 ⟨0⟩ ⟨1⟩).run releaseFailEnv
        World.init).1.trace = World.init.trace ++ delta ∧
      (delta.filter Event.isRelease).length = (delta.filter Event.isResolution).length ∧
      (delta.filter Event.isResolution).length ≤ 1 ∧
      ((delta.filter Event.isRelease = [] ∧ delta.filter Event.isResolution = []) ∨
        ∃ (p : Nat) (nc : NativeCall) (ok : Bool), delta =
          [Event.initPointerData p true, Event.native nc, Event.releasePointerData p ok]) :=
  ⟨rfl,
    resolution_release_balanced releaseFailEnv World.init
      (Call.curandGenerateLogNormalDouble (some 1) (some 2) 5 ⟨0⟩ ⟨1⟩) rfl⟩

/-- C6: for each generation entry point called with non-null arguments whose
buffer resolved, if releasing the buffer fails the entry point returns
`JCURAND_STATUS_INTERNAL_ERROR` whatever status the native function returned,
success included; the native function was invoked once before the release. -/
theorem release_failure_reported (env : Env) (w : World) (c : Call) (g p a : Nat)
    (hc : c.isGeneration = true) (hargs : c.objectArgs = [some g, some p])
    (hres : env.pointerData p = some a) (hrel : env.releaseOk p = false) :
    (c.run env w).2 = env.K.JCURAND_STATUS_INTERNAL_ERROR ∧
    ∃ nc : NativeCall, c.wraps nc = true ∧
      (c.run env w).1.trace = w.trace ++
        [Event.initPointerData p true, Event.native nc, Event.releasePointerData p false] := by
  obtain ⟨nc, hw, ht, hs, _⟩ := generation_resolved_run env w c g p a hc hargs hres
  rw [hrel] at ht hs
  exact ⟨by rw [hs]; simp, nc, hw, ht⟩

/-- Witness of C6: `curandGenerateUniformDouble` when every release fails and the
native call succeeds. -/
theorem release_failure_reported_witness :
    (Call.curandGenerateUniformDouble (some 1) (some 2) 5).isGeneration = true ∧
    (Call.curandGenerateUniformDouble (some 1) (some 2) 5).objectArgs = [some 1, some 2] ∧
    releaseFailEnv.pointerData 2 = some 512 ∧ releaseFailEnv.releaseOk 2 = false ∧
    ((Call.curandGenerateUniformDouble (some 1) (some 2) 5).run releaseFailEnv World.init).2 =
      releaseFailEnv.K.JCURAND_STATUS_INTERNAL_ERROR ∧
    ∃ nc : NativeCall, (Call.curandGenerateUniformDouble (some 1) (some 2) 5).wraps nc = true ∧
      ((Call.curandGenerateUniformDouble (some 1) (some 2) 5).run releaseFailEnv
        World.init).1.trace = World.init.trace ++
          [Event.initPointerData 2 true, Event.native nc, Event.releasePointerData 2 false] :=
  ⟨rfl, rfl, rfl, rfl,
    release_failure_reported releaseFailEnv World.init
      (Call.curandGenerateUniformDouble (some 1) (some 2) 5) 1 2 512 rfl rfl rfl rfl⟩

/-! ## Creation and the handle round trip (C7, C8) -/

/-- A 64-bit address survives the cast to `jlong` and back. -/
theorem ofJlong_toJlong (h : Nat) (hh : h < 2 ^ 64) : ofJlong (toJlong h) = h := by
  unfold ofJlong toJlong
  rw [Nat.mod_eq_of_lt hh]
  split <;> omega

@[simp] theorem setNativePointerValue_trace (w : World) (o : Nat) (v : Int) :
    (setNativePointerValue w o v).trace = w.trace := rfl
@[simp] theorem setNativePointerValue_self (w : World) (o : Nat) (v : Int) :
    (setNativePointerValue w o v).nativePointer o = v := by
  simp [setNativePointerValue]
theorem setNativePointerValue_other (w : World) (o o1 : Nat) (v : Int) (h : o1 ≠ o) :
    (setNativePointerValue w o v).nativePointer o1 = w.nativePointer o1 := by
  simp [setNativePointerValue, Function.update, h]

/-- C7: curandCreateGenerator, curandCreateGeneratorHost and
curandCreatePoissonDistribution called with a non-null managed object invoke the
native creation function exactly once (the only boundary event of the run) with
the given type (or lambda) unchanged, return the status of that native call, and
attach the handle `h` the native function produced to the managed object as its
native pointer value: the stored `jlong` is `(jlong)h`, which reads back as `h`. -/
theorem creation_attaches_handle (env : Env) (w : World) (o : Nat) (rng_type : Int)
    (lambda : JDouble) :
    ((curandCreateGeneratorNative env w (some o) rng_type).1.trace =
        w.trace ++ [Event.native (NativeCall.curandCreateGenerator rng_type)] ∧
      (curandCreateGeneratorNative env w (some o) rng_type).2 =
        env.status w.calls (NativeCall.curandCreateGenerator rng_type) ∧
      ∀ h : Nat, env.outHandle w.calls (NativeCall.curandCreateGenerator rng_type) = some h →
        (curandCreateGeneratorNative env w (some o) rng_type).1.nativePointer o = toJlong h ∧
        (h < 2 ^ 64 →
          ofJlong ((curandCreateGeneratorNative env w (some o) rng_type).1.nativePointer o) = h)) ∧
    ((curandCreateGeneratorHostNative env w (some o) rng_type).1.trace =
        w.trace ++ [Event.native (NativeCall.curandCreateGeneratorHost rng_type)] ∧
      (curandCreateGeneratorHostNative env w (some o) rng_type).2 =
        env.status w.calls (NativeCall.curandCreateGeneratorHost rng_type) ∧
      ∀ h : Nat, env.outHandle w.calls (NativeCall.curandCreateGeneratorHost rng_type) = some h →
        (curandCreateGeneratorHostNative env w (some o) rng_type).1.nativePointer o = toJlong h ∧
        (h < 2 ^ 64 →
          ofJlong ((curandCreateGeneratorHostNative env w (some o) rng_type).1.nativePointer o) = h)) ∧
    ((curandCreatePoissonDistributionNative env w lambda (some o)).1.trace =
        w.trace ++ [Event.native (NativeCall.curandCreatePoissonDistribution lambda)] ∧
      (curandCreatePoissonDistributionNative env w lambda (some o)).2 =
        env.status w.calls (NativeCall.curandCreatePoissonDistribution lambda) ∧
      ∀ h : Nat, env.outHandle w.calls (NativeCall.curandCreatePoissonDistribution lambda) = some h →
        (curandCreatePoissonDistributionNative env w lambda (some o)).1.nativePointer o = toJlong h ∧
        (h < 2 ^ 64 →
          ofJlong ((curandCreatePoissonDistributionNative env w lambda (some o)).1.nativePointer o) = h)) := by
  refine ⟨⟨?_, ?_, ?_⟩, ⟨?_, ?_, ?_⟩, ⟨?_, ?_, ?_⟩⟩
  all_goals
    first
    | (intro h hout
       have key : ∀ x : Int, x = toJlong h → x = toJlong h ∧ (h < 2 ^ 64 → ofJlong x = h) :=
         fun x hx => ⟨hx, fun hh => by rw [hx]; exact ofJlong_toJlong h hh⟩
       apply key
       simp [curandCreateGeneratorNative, curandCreateGeneratorHostNative,
         curandCreatePoissonDistributionNative, invoke, hout])
    | simp [curandCreateGeneratorNative, curandCreateGeneratorHostNative,
        curandCreatePoissonDistributionNative, invoke]

/-- Witness of C7: under the stub environment the handle 4096 written by
curandCreateGenerator is the native pointer value of the managed object. -/
theorem creation_attaches_handle_witness :
    stubEnv.outHandle World.init.calls (NativeCall.curandCreateGenerator 100) = some 4096 ∧
    (curandCreateGeneratorNative stubEnv World.init (some 1) 100).1.nativePointer 1 =
      toJlong 4096 ∧
    ofJlong ((curandCreateGeneratorNative stubEnv World.init (some 1) 100).1.nativePointer 1) =
      4096 :=
  ⟨rfl, ((creation_attaches_handle stubEnv World.init 1 100 ⟨0⟩).1.2.2 4096 rfl).1,
    ((creation_attaches_handle stubEnv World.init 1 100 ⟨0⟩).1.2.2 4096 rfl).2 (by norm_num)⟩

/-! ### Entry points other than the creations leave attached handles alone -/

@[simp] theorem set_nativePointer (env : Env) (w : World) (ja index : Nat) (value : Int) :
    (JNIUtils.set env w ja index value).1.nativePointer = w.nativePointer := by
  unfold JNIUtils.set
  split
  · split <;> rfl
  · rfl

@[simp] theorem storeInner_nativePointer (env : Env) (w : World) (arrays : List (Option (List Int)))
    (i : Nat) (value : List Int) :
    (storeInner env w arrays i value).1.nativePointer = w.nativePointer := by
  unfold storeInner; split <;> rfl

@[simp] theorem storeResult_nativePointer (env : Env) (w : World) (container index : Nat)
    (value : Slot) : (storeResult env w container index value).nativePointer = w.nativePointer := by
  unfold storeResult; split <;> rfl

@[simp] theorem directionVectorsLoop_nativePointer (env : Env) (newArray : Nat → Bool → Event)
    (conv : Nat → Int) (vectors_native : Nat → Nat → Nat) (numVectors remaining i : Nat)
    (w : World) (arrays : List (Option (List Int))) :
    (directionVectorsLoop env newArray conv vectors_native numVectors remaining i w
      arrays).1.nativePointer = w.nativePointer := by
  induction remaining generalizing i w arrays with
  | zero => rfl
  | succ k ih =>
    unfold directionVectorsLoop
    split
    · simp
    · split
      · simp
      · simp only []
        split
        · simp
        · rw [ih]; simp


@[simp] theorem initPointerData_nativePointer (env : Env) (w : World) (p : Nat) :
    (initPointerData env w p).1.nativePointer = w.nativePointer := by
  unfold initPointerData; split <;> rfl

theorem ite_pair_fst {α β : Type} (c : Prop) [Decidable c] (a : α) (x y : β) :
    (if c then (a, x) else (a, y)).1 = a := by
  split <;> rfl

theorem generation_nativePointer (env : Env) (w : World) (c : Call)
    (hc : c.isGeneration = true) : (c.run env w).1.nativePointer = w.nativePointer := by
  cases c <;> simp only [Call.isGeneration] at hc <;> try (exact absurd hc (by decide))
  all_goals cases ‹jobject›
  all_goals cases ‹jobject›
  all_goals try rfl
  all_goals
    simp only [Call.run, curandGenerateNative,
      curandGenerateLongLongNative, curandGenerateUniformNative,
      curandGenerateUniformDoubleNative, curandGenerateNormalNative,
      curandGenerateNormalDoubleNative, curandGenerateLogNormalNative,
      curandGenerateLogNormalDoubleNative, curandGeneratePoissonNative,
      invoke, releasePointerData]
    split
    all_goals
      rename_i heq
      have := congrArg (fun x => x.1.nativePointer) heq
      simp only [initPointerData_nativePointer, log_nativePointer] at this
      simp [ite_pair_fst, ← this]

theorem loop_eq_nativePointer {env : Env} {newArray : Nat → Bool → Event}
    {conv : Nat → Int} {vectors_native : Nat → Nat → Nat} {numVectors remaining i : Nat}
    {w w2 : World} {arrays : List (Option (List Int))} {r : Option (List (Option (List Int)))}
    (h : directionVectorsLoop env newArray conv vectors_native numVectors remaining i w
      arrays = (w2, r)) : w2.nativePointer = w.nativePointer := by
  have := congrArg (fun x => x.1.nativePointer) h
  simpa using this.symm

@[simp] theorem directionVectorsWriteBack_nativePointer (env : Env) (cls notFound : String)
    (newArray : Nat → Bool → Event) (conv : Nat → Int) (vectors_native : Nat → Nat → Nat)
    (dimensions numVectors : Nat) (w : World) (vectors : Nat) (result : Int) :
    (directionVectorsWriteBack env cls notFound newArray conv vectors_native dimensions numVectors
      w vectors result).1.nativePointer = w.nativePointer := by
  unfold directionVectorsWriteBack
  split
  · simp
  · split
    · simp
    · simp only []
      generalize hr : directionVectorsLoop _ _ _ _ _ _ _ _ _ = r
      obtain ⟨w2, res⟩ := r
      have hw := loop_eq_nativePointer hr
      cases res <;> simp [ite_pair_fst, hw]

theorem run_nativePointer_frame (env : Env) (w : World) (c : Call) (o : Nat)
    (h : c.attachesTo ≠ some o) : (c.run env w).1.nativePointer o = w.nativePointer o := by
  by_cases hc : c.isGeneration = true
  · rw [generation_nativePointer env w c hc]
  cases c
  all_goals try (exact absurd rfl hc)
  all_goals try cases ‹jobject›
  all_goals try cases ‹jobject›
  all_goals try rfl
  all_goals
    simp only [Call.run, curandGetPropertyNative, curandCreateGeneratorNative,
      curandCreateGeneratorHostNative, curandDestroyGeneratorNative, curandGetVersionNative,
      curandSetStreamNative, curandSetPseudoRandomGeneratorSeedNative,
      curandSetGeneratorOffsetNative, curandSetGeneratorOrderingNative,
      curandSetQuasiRandomGeneratorDimensionsNative, curandCreatePoissonDistributionNative,
      curandDestroyDistributionNative, curandGenerateSeedsNative,
      curandGetDirectionVectors32Native, curandGetScrambleConstants32Native,
      curandGetDirectionVectors64Native, curandGetScrambleConstants64Native,
      invoke]
  all_goals
    first
    | (simp; done)
    | (simp only [Call.attachesTo, ne_eq, Option.some.injEq] at h
       rw [setNativePointerValue_other _ _ _ _ (fun e => h e.symm)]
       simp)
    | (split <;> simp; done)
    | (repeat' split
       all_goals simp)

theorem runAll_nativePointer_frame (env : Env) (cs : List Call) (w : World) (o : Nat)
    (h : ∀ c ∈ cs, c.attachesTo ≠ some o) :
    (runAll env w cs).nativePointer o = w.nativePointer o := by
  induction cs generalizing w with
  | nil => rfl
  | cons c cs ih =>
    simp only [runAll]
    rw [ih _ (fun c1 h1 => h c1 (List.mem_cons_of_mem _ h1))]
    exact run_nativePointer_frame env w c o (h c (List.mem_cons_self _ _))

/-- An entry point that uses an existing generator passes the attached pointer
value of its generator argument to the native function it wraps. -/
theorem generator_handle_passed (env : Env) (w : World) (c : Call) (g : Nat)
    (hc : c.generatorArg = some g) (hnn : none ∉ c.objectArgs)
    (hbuf : ∀ p, c.bufferArg = some p → ∃ a, env.pointerData p = some a) :
    ∃ nc : NativeCall, c.wraps nc = true ∧ (c.run env w).1.calls = w.calls ++ [nc] ∧
      nc.handle = some (ofJlong (w.nativePointer g)) := by
  by_cases hgen : c.isGeneration = true
  · have hargs := generation_args c hgen
    rw [hc] at hargs
    rcases hp : c.bufferArg with _ | p
    · rw [hargs, hp] at hnn; simp at hnn
    obtain ⟨a, ha⟩ := hbuf p hp
    rw [hp] at hargs
    obtain ⟨nc, hw, ht, _, hh⟩ := generation_resolved_run env w c g p a hgen hargs ha
    refine ⟨nc, hw, ?_, hh⟩
    rw [calls_of_trace w _ _ ht]
    simp [Event.nativeCall]
  · cases c
    all_goals try (exact absurd rfl hgen)
    all_goals try (simp [Call.generatorArg] at hc; done)
    all_goals try cases ‹jobject›
    all_goals try cases ‹jobject›
    all_goals try (exfalso; simp [Call.objectArgs] at hnn; done)
    all_goals
      simp only [Call.generatorArg, Option.some.injEq] at hc
      subst hc
      simp only [Call.run, curandDestroyGeneratorNative, curandSetStreamNative,
        curandSetPseudoRandomGeneratorSeedNative, curandSetGeneratorOffsetNative,
        curandSetGeneratorOrderingNative, curandSetQuasiRandomGeneratorDimensionsNative,
        curandGenerateSeedsNative, invoke, emit_calls_native, log_calls]
      refine ⟨_, ?_, rfl, ?_⟩
      · rfl
      · simp [NativeCall.handle, getNativePointerValue]

/-- C8: handle round trip.  After curandCreateGenerator attached the handle `h`
the native creation wrote to the managed generator `g`, and after any sequence
`cs` of further calls that attach nothing to `g`, every entry point taking `g`
(curandDestroyGenerator, the setters, curandGenerateSeeds, the generation calls)
that reaches its native function passes exactly `h` to it; likewise the handle
`hd` attached by curandCreatePoissonDistribution to `d` is the one
curandDestroyDistribution passes to the native teardown. -/
theorem handle_round_trip (env : Env) (w : World) (g d : Nat) (rng_type : Int) (lambda : JDouble)
    (h hd : Nat) (cs : List Call) (c : Call)
    (hout : env.outHandle w.calls (NativeCall.curandCreateGenerator rng_type) = some h)
    (hh : h < 2 ^ 64)
    (houtd : env.outHandle w.calls (NativeCall.curandCreatePoissonDistribution lambda) = some hd)
    (hhd : hd < 2 ^ 64)
    (hcs : ∀ c1 ∈ cs, c1.attachesTo ≠ some g ∧ c1.attachesTo ≠ some d)
    (hc : c.generatorArg = some g) (hnn : none ∉ c.objectArgs)
    (hbuf : ∀ p, c.bufferArg = some p → ∃ a, env.pointerData p = some a) :
    (∃ nc : NativeCall, c.wraps nc = true ∧ nc.handle = some h ∧
      (c.run env (runAll env (curandCreateGeneratorNative env w (some g) rng_type).1 cs)).1.calls =
        (runAll env (curandCreateGeneratorNative env w (some g) rng_type).1 cs).calls ++ [nc]) ∧
    (curandDestroyDistributionNative env
        (runAll env (curandCreatePoissonDistributionNative env w lambda (some d)).1 cs)
        (some d)).1.calls =
      (runAll env (curandCreatePoissonDistributionNative env w lambda (some d)).1 cs).calls ++
        [NativeCall.curandDestroyDistribution hd] := by
  constructor
  · obtain ⟨nc, hw, hcalls, hhandle⟩ := generator_handle_passed env
      (runAll env (curandCreateGeneratorNative env w (some g) rng_type).1 cs) c g hc hnn hbuf
    refine ⟨nc, hw, ?_, hcalls⟩
    rw [hhandle, runAll_nativePointer_frame env cs _ g (fun c1 h1 => (hcs c1 h1).1)]
    simp [curandCreateGeneratorNative, invoke, hout, ofJlong_toJlong h hh]
  · simp only [curandDestroyDistributionNative, invoke, emit_calls_native, log_calls,
      getNativePointerValue, log_nativePointer]
    rw [runAll_nativePointer_frame env cs _ d (fun c1 h1 => (hcs c1 h1).2)]
    simp [curandCreatePoissonDistributionNative, invoke, houtd, ofJlong_toJlong hd hhd]

/-- Witness of C8: create, set the seed, create another generator, then
generate with the first generator; create and destroy a distribution. -/
theorem handle_round_trip_witness :
    stubEnv.outHandle World.init.calls (NativeCall.curandCreateGenerator 100) = some 4096 ∧
    (4096 : Nat) < 2 ^ 64 ∧
    stubEnv.outHandle World.init.calls (NativeCall.curandCreatePoissonDistribution ⟨7⟩) =
      some 4096 ∧
    (∀ c1 ∈ [Call.curandSetPseudoRandomGeneratorSeed (some 1) 7,
        Call.curandCreateGenerator (some 3) 100],
      c1.attachesTo ≠ some 1 ∧ c1.attachesTo ≠ some 2) ∧
    (Call.curandGenerate (some 1) (some 5) 16).generatorArg = some 1 ∧
    none ∉ (Call.curandGenerate (some 1) (some 5) 16).objectArgs ∧
    (∀ p, (Call.curandGenerate (some 1) (some 5) 16).bufferArg = some p →
      ∃ a, stubEnv.pointerData p = some a) ∧
    (∃ nc : NativeCall, (Call.curandGenerate (some 1) (some 5) 16).wraps nc = true ∧
      nc.handle = some 4096 ∧
      ((Call.curandGenerate (some 1) (some 5) 16).run stubEnv
        (runAll stubEnv (curandCreateGeneratorNative stubEnv World.init (some 1) 100).1
          [Call.curandSetPseudoRandomGeneratorSeed (some 1) 7,
            Call.curandCreateGenerator (some 3) 100])).1.calls =
        (runAll stubEnv (curandCreateGeneratorNative stubEnv World.init (some 1) 100).1
          [Call.curandSetPseudoRandomGeneratorSeed (some 1) 7,
            Call.curandCreateGenerator (some 3) 100]).calls ++ [nc]) ∧
    (curandDestroyDistributionNative stubEnv
        (runAll stubEnv (curandCreatePoissonDistributionNative stubEnv World.init ⟨7⟩ (some 2)).1
          [Call.curandSetPseudoRandomGeneratorSeed (some 1) 7,
            Call.curandCreateGenerator (some 3) 100])
        (some 2)).1.calls =
      (runAll stubEnv (curandCreatePoissonDistributionNative stubEnv World.init ⟨7⟩ (some 2)).1
          [Call.curandSetPseudoRandomGeneratorSeed (some 1) 7,
            Call.curandCreateGenerator (some 3) 100]).calls ++
        [NativeCall.curandDestroyDistribution 4096] :=
  ⟨rfl, by norm_num, rfl, by decide, rfl, by decide, fun _ _ => ⟨512, rfl⟩,
    handle_round_trip stubEnv World.init 1 2 100 ⟨7⟩ 4096 4096
      [Call.curandSetPseudoRandomGeneratorSeed (some 1) 7, Call.curandCreateGenerator (some 3) 100]
      (Call.curandGenerate (some 1) (some 5) 16) rfl (by norm_num) rfl (by norm_num) (by decide)
      rfl (by decide) (fun _ _ => ⟨512, rfl⟩)⟩

/-! ## Destroy before create and double destroy (C9) -/

/-- C9, counterexample: under the stub library (which reports not-initialized
only for the null handle) the second of two consecutive curandDestroyGenerator
calls on a created generator returns success, not CURAND_STATUS_NOT_INITIALIZED. -/
theorem double_destroy_not_reported :
    (curandDestroyGeneratorNative stubEnv
        (curandDestroyGeneratorNative stubEnv
          (curandCreateGeneratorNative stubEnv World.init (some 1) 100).1 (some 1)).1
        (some 1)).2 = stubEnv.K.CURAND_STATUS_SUCCESS ∧
    (curandDestroyGeneratorNative stubEnv
        (curandDestroyGeneratorNative stubEnv
          (curandCreateGeneratorNative stubEnv World.init (some 1) 100).1 (some 1)).1
        (some 1)).2 ≠ stubEnv.K.CURAND_STATUS_NOT_INITIALIZED := by
  decide

/-- C9, amended: curandDestroyGenerator (curandDestroyDistribution) called with a
non-null managed object invokes the native teardown exactly once with the
pointer value currently attached to the object, which is 0 when no handle was
attached, returns the status of that native call unchanged, and leaves the
attached value as it was, so that a second consecutive destroy passes the same
handle again and returns whatever the native teardown then reports. -/
theorem destroy_returns_native_status (env : Env) (w : World) (o : Nat) :
    ((curandDestroyGeneratorNative env w (some o)).1.trace =
        w.trace ++ [Event.native (NativeCall.curandDestroyGenerator (ofJlong (w.nativePointer o)))] ∧
      (curandDestroyGeneratorNative env w (some o)).2 =
        env.status w.calls (NativeCall.curandDestroyGenerator (ofJlong (w.nativePointer o))) ∧
      (curandDestroyGeneratorNative env w (some o)).1.nativePointer = w.nativePointer ∧
      (w.nativePointer o = 0 → (curandDestroyGeneratorNative env w (some o)).2 =
        env.status w.calls (NativeCall.curandDestroyGenerator 0)) ∧
      (curandDestroyGeneratorNative env (curandDestroyGeneratorNative env w (some o)).1 (some o)).2 =
        env.status
          (w.calls ++ [NativeCall.curandDestroyGenerator (ofJlong (w.nativePointer o))])
          (NativeCall.curandDestroyGenerator (ofJlong (w.nativePointer o)))) ∧
    ((curandDestroyDistributionNative env w (some o)).1.trace =
        w.trace ++
          [Event.native (NativeCall.curandDestroyDistribution (ofJlong (w.nativePointer o)))] ∧
      (curandDestroyDistributionNative env w (some o)).2 =
        env.status w.calls (NativeCall.curandDestroyDistribution (ofJlong (w.nativePointer o))) ∧
      (curandDestroyDistributionNative env w (some o)).1.nativePointer = w.nativePointer ∧
      (w.nativePointer o = 0 → (curandDestroyDistributionNative env w (some o)).2 =
        env.status w.calls (NativeCall.curandDestroyDistribution 0)) ∧
      (curandDestroyDistributionNative env
          (curandDestroyDistributionNative env w (some o)).1 (some o)).2 =
        env.status
          (w.calls ++ [NativeCall.curandDestroyDistribution (ofJlong (w.nativePointer o))])
          (NativeCall.curandDestroyDistribution (ofJlong (w.nativePointer o)))) := by
  have z : ofJlong 0 = 0 := by decide
  refine ⟨⟨?_, ?_, ?_, ?_, ?_⟩, ⟨?_, ?_, ?_, ?_, ?_⟩⟩
  all_goals
    first
    | (intro h0
       simp [curandDestroyGeneratorNative, curandDestroyDistributionNative, invoke,
         getNativePointerValue, h0, z]; done)
    | (simp [curandDestroyGeneratorNative, curandDestroyDistributionNative, invoke,
        getNativePointerValue]; done)

/-! ## Direction vector tables (C10) -/

/-- The cast to `jint` keeps the 32-bit pattern. -/
theorem toJint_pattern (u : Nat) : toJint u % 2 ^ 32 = ((u % 2 ^ 32 : Nat) : Int) := by
  unfold toJint
  split <;> omega

/-- The cast to `jlong` keeps the 64-bit pattern. -/
theorem toJlong_pattern (u : Nat) : toJlong u % 2 ^ 64 = ((u % 2 ^ 64 : Nat) : Int) := by
  unfold toJlong
  split <;> omega

/-- The copy loop run for the first `m` indices of an array of length at least `m`. -/
theorem fillRow_aux (conv : Nat → Int) (source : Nat → Nat) (m : Nat) (init : List Int)
    (hm : m ≤ init.length) :
    ((List.range m).foldl (fun arrayData j => arrayData.set j (conv (source j))) init).length =
        init.length ∧
      ∀ j, ((List.range m).foldl (fun arrayData j => arrayData.set j (conv (source j))) init)[j]? =
        if j < m then some (conv (source j)) else init[j]? := by
  induction m with
  | zero => simp
  | succ m ih =>
    obtain ⟨hl, hg⟩ := ih (by omega)
    rw [List.range_succ, List.foldl_append]
    simp only [List.foldl_cons, List.foldl_nil, List.length_set]
    refine ⟨hl, fun j => ?_⟩
    rw [List.getElem?_set, hl, hg j]
    by_cases hj : m = j
    · subst hj
      have h2 : m < init.length := by omega
      simp [h2]
    · simp only [hj, if_false]
      by_cases h1 : j < m
      · have : j < m + 1 := by omega
        simp [h1, this]
      · have : ¬ j < m + 1 := by omega
        simp [h1, this]

/-- The copy loop keeps the length of the fresh array. -/
theorem fillRow_length (conv : Nat → Int) (source : Nat → Nat) (n : Nat) :
    (fillRow conv source n).length = n := by
  have := (fillRow_aux conv source n (List.replicate n 0) (by simp)).1
  simpa [fillRow] using this

/-- The copy loop stores the converted source element at every index. -/
theorem fillRow_getElem? (conv : Nat → Int) (source : Nat → Nat) (n j : Nat) (hj : j < n) :
    (fillRow conv source n)[j]? = some (conv (source j)) := by
  have := (fillRow_aux conv source n (List.replicate n 0) (by simp)).2 j
  simpa [fillRow, hj] using this

/-- When every JVM service of the remaining iterations succeeds, the loop runs to
its end and sets exactly the elements `i`, ..., `i + remaining - 1` of the outer
array to the rows of the native table. -/
theorem directionVectorsLoop_success (env : Env) (newArray : Nat → Bool → Event)
    (conv : Nat → Int) (vectors_native : Nat → Nat → Nat) (numVectors : Nat) :
    ∀ (remaining i : Nat) (w : World) (arrays : List (Option (List Int))),
      i + remaining ≤ arrays.length → w.pending = none →
      (∀ k, i ≤ k → k < i + remaining →
        env.newArrayOk k = true ∧ env.criticalOk k = true ∧ env.storeInnerThrows k = false) →
      ∃ (w2 : World) (arrays2 : List (Option (List Int))),
        directionVectorsLoop env newArray conv vectors_native numVectors remaining i w arrays =
          (w2, some arrays2) ∧
        w2.pending = none ∧ w2.objArrays = w.objArrays ∧ arrays2.length = arrays.length ∧
        ∀ k, arrays2[k]? =
          if i ≤ k ∧ k < i + remaining then some (some (fillRow conv (vectors_native k) numVectors))
          else arrays[k]? := by
  intro remaining
  induction remaining with
  | zero =>
    intro i w arrays _ hp _
    refine ⟨w, arrays, rfl, hp, rfl, rfl, fun k => ?_⟩
    have : ¬ (i ≤ k ∧ k < i) := by omega
    simp [this]
  | succ r ih =>
    intro i w arrays hlen hp hok
    obtain ⟨h1, h2, h3⟩ := hok i (le_refl _) (by omega)
    have hp2 : ExceptionCheck ((w.emit (newArray numVectors true)).emit
        (Event.getPrimitiveArrayCritical true)) = false := by
      simp [ExceptionCheck, hp]
    obtain ⟨w2, arrays2, hrun, hpend, hobj, hlen2, hget⟩ :=
      ih (i + 1) ((w.emit (newArray numVectors true)).emit (Event.getPrimitiveArrayCritical true))
        (arrays.set i (some (fillRow conv (vectors_native i) numVectors)))
        (by rw [List.length_set]; omega) (by simp [hp])
        (fun k hk1 hk2 => hok k (by omega) (by omega))
    refine ⟨w2, arrays2, ?_, hpend, by simpa using hobj, by simpa using hlen2, fun k => ?_⟩
    · unfold directionVectorsLoop
      simp only [h1, h2, h3, storeInner, Bool.not_true, Bool.false_eq_true, if_false, hp2]
      exact hrun
    · rw [hget k, List.getElem?_set]
      by_cases hk : i = k
      · subst hk
        have : ¬ (i + 1 ≤ i ∧ i < i + 1 + r) := by omega
        have h4 : i < arrays.length := by omega
        simp [this, h4]
      · by_cases hk2 : i + 1 ≤ k ∧ k < i + 1 + r
        · have : i ≤ k ∧ k < i + (r + 1) := by omega
          simp [hk2, this]
        · have : ¬ (i ≤ k ∧ k < i + (r + 1)) := by omega
          simp [hk2, this, hk]




/-- When every JVM service succeeds, the write-back block stores a table of
`dimensions` rows, row `i` being the converted row `i` of the native table, into
element 0 of the container, and returns `result`. -/
theorem directionVectorsWriteBack_success (env : Env) (cls notFound : String)
    (newArray : Nat → Bool → Event) (conv : Nat → Int) (vectors_native : Nat → Nat → Nat)
    (dimensions numVectors : Nat) (w : World) (vectors : Nat) (result : Int)
    (hlen : 1 ≤ (w.objArrays vectors).length) (hpend : w.pending = none)
    (hclass : env.findClassOk cls = true) (houter : env.newObjectArrayOk = true)
    (hinner : ∀ i, i < dimensions →
      env.newArrayOk i = true ∧ env.criticalOk i = true ∧ env.storeInnerThrows i = false)
    (hstore : env.storeResultThrows = false) :
    (directionVectorsWriteBack env cls notFound newArray conv vectors_native dimensions numVectors
        w vectors result).2 = result ∧
      ∃ rows : List (Option (List Int)),
        ((directionVectorsWriteBack env cls notFound newArray conv vectors_native dimensions
          numVectors w vectors result).1.objArrays vectors)[0]? = some (Slot.table rows) ∧
        rows.length = dimensions ∧
        ∀ i, i < dimensions →
          rows[i]? = some (some (fillRow conv (vectors_native i) numVectors)) := by
  obtain ⟨w2, rows, hrun, hp2, hobj, hlen2, hget⟩ :=
    directionVectorsLoop_success env newArray conv vectors_native numVectors dimensions 0
      ((w.emit (Event.findClass cls true)).emit (Event.newObjectArray dimensions true))
      (List.replicate dimensions none) (by rw [List.length_replicate, Nat.zero_add])
      (by simp only [emit_pending, hpend])
      (fun k _ hk => hinner k (by omega))
  simp only [directionVectorsWriteBack, hclass, houter, Bool.not_true, Bool.false_eq_true,
    if_false, hrun, storeResult, hstore, ExceptionCheck, hp2, Option.isSome_none]
  refine ⟨trivial, rows, ?_, hlen2.trans (List.length_replicate _ _), fun i hi => ?_⟩
  · have h0 : 0 < (w.objArrays vectors).length := by omega
    rw [hobj]
    simp only [emit_objArrays, Function.update_same]
    exact List.getElem?_set_self h0
  · rw [hget i, if_pos ⟨Nat.zero_le _, by omega⟩]

/-- C10: curandGetDirectionVectors32 (resp. 64) called with a non-null
container of length at least 1 and a valid set selector, when the native call
wrote the table address and the construction of the managed arrays succeeds,
sets element 0 of the container to a table of exactly 20000 inner arrays, each
of length exactly 32 (resp. 64), where `inner[i][j]` is native table entry
`[i][j]` cast to `jint` (resp. `jlong`), the same 32-bit (resp. 64-bit) pattern,
and returns the status of the native call. -/
theorem direction_vectors_table (env : Env) (w : World) (v : Nat) (set32 set64 : Int)
    (table32 table64 : Nat → Nat → Nat)
    (hlen : 1 ≤ (w.objArrays v).length) (hpend : w.pending = none)
    (hset32 : set32 = env.K.CURAND_DIRECTION_VECTORS_32_JOEKUO6 ∨
      set32 = env.K.CURAND_SCRAMBLED_DIRECTION_VECTORS_32_JOEKUO6)
    (hset64 : set64 = env.K.CURAND_DIRECTION_VECTORS_64_JOEKUO6 ∨
      set64 = env.K.CURAND_SCRAMBLED_DIRECTION_VECTORS_64_JOEKUO6)
    (htable32 : env.outTable w.calls (NativeCall.curandGetDirectionVectors32 set32) = some table32)
    (htable64 : env.outTable w.calls (NativeCall.curandGetDirectionVectors64 set64) = some table64)
    (hclass : ∀ name, env.findClassOk name = true) (houter : env.newObjectArrayOk = true)
    (hinner : ∀ i, i < 20000 →
      env.newArrayOk i = true ∧ env.criticalOk i = true ∧ env.storeInnerThrows i = false)
    (hstore : env.storeResultThrows = false) :
    ((curandGetDirectionVectors32Native env w (some v) set32).2 =
        env.status w.calls (NativeCall.curandGetDirectionVectors32 set32) ∧
      ∃ rows : List (Option (List Int)),
        ((curandGetDirectionVectors32Native env w (some v) set32).1.objArrays v)[0]? =
          some (Slot.table rows) ∧
        rows.length = 20000 ∧
        ∀ i, i < 20000 → ∃ inner : List Int, rows[i]? = some (some inner) ∧ inner.length = 32 ∧
          ∀ j, j < 32 → inner[j]? = some (toJint (table32 i j)) ∧
            toJint (table32 i j) % 2 ^ 32 = ((table32 i j % 2 ^ 32 : Nat) : Int)) ∧
    ((curandGetDirectionVectors64Native env w (some v) set64).2 =
        env.status w.calls (NativeCall.curandGetDirectionVectors64 set64) ∧
      ∃ rows : List (Option (List Int)),
        ((curandGetDirectionVectors64Native env w (some v) set64).1.objArrays v)[0]? =
          some (Slot.table rows) ∧
        rows.length = 20000 ∧
        ∀ i, i < 20000 → ∃ inner : List Int, rows[i]? = some (some inner) ∧ inner.length = 64 ∧
          ∀ j, j < 64 → inner[j]? = some (toJlong (table64 i j)) ∧
            toJlong (table64 i j) % 2 ^ 64 = ((table64 i j % 2 ^ 64 : Nat) : Int)) := by
  have hlen1 : ¬ (w.objArrays v).length < 1 := by omega
  have hsel32 : ¬ (set32 ≠ env.K.CURAND_DIRECTION_VECTORS_32_JOEKUO6 ∧
      set32 ≠ env.K.CURAND_SCRAMBLED_DIRECTION_VECTORS_32_JOEKUO6) := by
    rcases hset32 with h | h <;> simp [h]
  have hsel64 : ¬ (set64 ≠ env.K.CURAND_DIRECTION_VECTORS_64_JOEKUO6 ∧
      set64 ≠ env.K.CURAND_SCRAMBLED_DIRECTION_VECTORS_64_JOEKUO6) := by
    rcases hset64 with h | h <;> simp [h]
  constructor
  · obtain ⟨hs, rows, h0, hl, hrows⟩ :=
      directionVectorsWriteBack_success env "[I" "Could not find int array class\n"
        Event.newIntArray toJint table32 20000 32
        ((Logger.log w env.K.LOG_TRACE
            "Executing curandGetDirectionVectors32(vectors=%p, set=%d)\n").emit
          (Event.native (NativeCall.curandGetDirectionVectors32 set32))) v
        (env.status w.calls (NativeCall.curandGetDirectionVectors32 set32))
        (by simpa using hlen) (by simp [hpend]) (hclass _) houter hinner hstore
    simp only [curandGetDirectionVectors32Native, hlen1, if_false, invoke, log_calls, htable32,
      Option.getD_some, hsel32]
    exact ⟨hs, rows, h0, hl, fun i hi => ⟨_, hrows i hi, fillRow_length _ _ _, fun j hj =>
      ⟨fillRow_getElem? _ _ _ _ hj, toJint_pattern _⟩⟩⟩
  · obtain ⟨hs, rows, h0, hl, hrows⟩ :=
      directionVectorsWriteBack_success env "[J" "Could not find long array class\n"
        Event.newLongArray toJlong table64 20000 64
        ((Logger.log w env.K.LOG_TRACE
            "Executing curandGetDirectionVectors64(vectors=%p, set=%d)\n").emit
          (Event.native (NativeCall.curandGetDirectionVectors64 set64))) v
        (env.status w.calls (NativeCall.curandGetDirectionVectors64 set64))
        (by simpa using hlen) (by simp [hpend]) (hclass _) houter hinner hstore
    simp only [curandGetDirectionVectors64Native, hlen1, if_false, invoke, log_calls, htable64,
      Option.getD_some, hsel64]
    exact ⟨hs, rows, h0, hl, fun i hi => ⟨_, hrows i hi, fillRow_length _ _ _, fun j hj =>
      ⟨fillRow_getElem? _ _ _ _ hj, toJlong_pattern _⟩⟩⟩

/-- Witness of C10: the stub environment and a container of length 1, with the
selectors 101 and 103. -/
theorem direction_vectors_table_witness :
    1 ≤ (containerWorld.objArrays 1).length ∧ containerWorld.pending = none ∧
    ((101 : Int) = stubEnv.K.CURAND_DIRECTION_VECTORS_32_JOEKUO6 ∨
      (101 : Int) = stubEnv.K.CURAND_SCRAMBLED_DIRECTION_VECTORS_32_JOEKUO6) ∧
    ((103 : Int) = stubEnv.K.CURAND_DIRECTION_VECTORS_64_JOEKUO6 ∨
      (103 : Int) = stubEnv.K.CURAND_SCRAMBLED_DIRECTION_VECTORS_64_JOEKUO6) ∧
    stubEnv.outTable containerWorld.calls (NativeCall.curandGetDirectionVectors32 101) =
      some stubTable ∧
    stubEnv.outTable containerWorld.calls (NativeCall.curandGetDirectionVectors64 103) =
      some stubTable ∧
    (∀ name, stubEnv.findClassOk name = true) ∧ stubEnv.newObjectArrayOk = true ∧
    (∀ i, i < 20000 → stubEnv.newArrayOk i = true ∧ stubEnv.criticalOk i = true ∧
      stubEnv.storeInnerThrows i = false) ∧
    stubEnv.storeResultThrows = false ∧
    ((curandGetDirectionVectors32Native stubEnv containerWorld (some 1) 101).2 =
        stubEnv.status containerWorld.calls (NativeCall.curandGetDirectionVectors32 101) ∧
      ∃ rows : List (Option (List Int)),
        ((curandGetDirectionVectors32Native stubEnv containerWorld (some 1) 101).1.objArrays 1)[0]? =
          some (Slot.table rows) ∧
        rows.length = 20000 ∧
        ∀ i, i < 20000 → ∃ inner : List Int, rows[i]? = some (some inner) ∧ inner.length = 32 ∧
          ∀ j, j < 32 → inner[j]? = some (toJint (stubTable i j)) ∧
            toJint (stubTable i j) % 2 ^ 32 = ((stubTable i j % 2 ^ 32 : Nat) : Int)) ∧
    ((curandGetDirectionVectors64Native stubEnv containerWorld (some 1) 103).2 =
        stubEnv.status containerWorld.calls (NativeCall.curandGetDirectionVectors64 103) ∧
      ∃ rows : List (Option (List Int)),
        ((curandGetDirectionVectors64Native stubEnv containerWorld (some 1) 103).1.objArrays 1)[0]? =
          some (Slot.table rows) ∧
        rows.length = 20000 ∧
        ∀ i, i < 20000 → ∃ inner : List Int, rows[i]? = some (some inner) ∧ inner.length = 64 ∧
          ∀ j, j < 64 → inner[j]? = some (toJlong (stubTable i j)) ∧
            toJlong (stubTable i j) % 2 ^ 64 = ((stubTable i j % 2 ^ 64 : Nat) : Int)) :=
  ⟨by decide, rfl, Or.inl rfl, Or.inl rfl, rfl, rfl, fun _ => rfl, rfl,
    fun _ _ => ⟨rfl, rfl, rfl⟩, rfl,
    direction_vectors_table stubEnv containerWorld 1 101 103 stubTable stubTable
      (by decide) rfl (Or.inl rfl) (Or.inl rfl) rfl rfl (fun _ => rfl) rfl
      (fun _ _ => ⟨rfl, rfl, rfl⟩) rfl⟩

/-! ## Selector check, enumerated scalars and counts (C11 to C15) -/

/-- Storing an inner array adds no event. -/
@[simp] theorem storeInner_trace (env : Env) (w : World) (arrays : List (Option (List Int)))
    (i : Nat) (value : List Int) : (storeInner env w arrays i value).1.trace = w.trace := by
  unfold storeInner; split <;> rfl

/-- Storing into the container adds no event. -/
@[simp] theorem storeResult_trace (env : Env) (w : World) (container index : Nat)
    (value : Slot) : (storeResult env w container index value).trace = w.trace := by
  unfold storeResult; split <;> rfl

/-- The loop only appends events to the trace. -/
theorem directionVectorsLoop_trace (env : Env) (newArray : Nat → Bool → Event)
    (conv : Nat → Int) (vectors_native : Nat → Nat → Nat) (numVectors remaining i : Nat)
    (w : World) (arrays : List (Option (List Int))) :
    ∃ rest : List Event,
      (directionVectorsLoop env newArray conv vectors_native numVectors remaining i w
        arrays).1.trace = w.trace ++ rest := by
  induction remaining generalizing i w arrays with
  | zero => exact ⟨[], by simp [directionVectorsLoop]⟩
  | succ k ih =>
    unfold directionVectorsLoop
    split
    · exact ⟨_, by simp; rfl⟩
    · split
      · exact ⟨[newArray numVectors true, Event.getPrimitiveArrayCritical false], by simp⟩
      · simp only []
        split
        · exact ⟨[newArray numVectors true, Event.getPrimitiveArrayCritical true], by simp⟩
        · obtain ⟨rest, hrest⟩ := ih (i + 1)
            (storeInner env ((w.emit (newArray numVectors true)).emit
              (Event.getPrimitiveArrayCritical true)) arrays i
              (fillRow conv (vectors_native i) numVectors)).1
            (storeInner env ((w.emit (newArray numVectors true)).emit
              (Event.getPrimitiveArrayCritical true)) arrays i
              (fillRow conv (vectors_native i) numVectors)).2
          exact ⟨[newArray numVectors true, Event.getPrimitiveArrayCritical true] ++ rest,
            by rw [hrest]; simp⟩

/-- The write-back block starts with the class lookup. -/
theorem directionVectorsWriteBack_trace (env : Env) (cls notFound : String)
    (newArray : Nat → Bool → Event) (conv : Nat → Int) (vectors_native : Nat → Nat → Nat)
    (dimensions numVectors : Nat) (w : World) (vectors : Nat) (result : Int) :
    ∃ rest : List Event,
      (directionVectorsWriteBack env cls notFound newArray conv vectors_native dimensions
        numVectors w vectors result).1.trace =
        w.trace ++ Event.findClass cls (env.findClassOk cls) :: rest := by
  unfold directionVectorsWriteBack
  cases hc : env.findClassOk cls
  · exact ⟨[], by simp⟩
  · cases ho : env.newObjectArrayOk
    · exact ⟨[Event.newObjectArray dimensions false], by simp⟩
    · simp only [Bool.not_true, Bool.false_eq_true, if_false]
      obtain ⟨rest, hrest⟩ := directionVectorsLoop_trace env newArray conv vectors_native
        numVectors dimensions 0
        ((w.emit (Event.findClass cls true)).emit (Event.newObjectArray dimensions true))
        (List.replicate dimensions none)
      revert hrest
      generalize directionVectorsLoop _ _ _ _ _ _ _ _ _ = r
      obtain ⟨w2, res⟩ := r
      intro hrest
      simp only [emit_trace, List.append_assoc, List.singleton_append] at hrest
      cases res
      · exact ⟨_, hrest⟩
      · simp only []
        split <;> exact ⟨_, by simpa using hrest⟩

/-- The helper `set` invokes no native function. -/
@[simp] theorem set_calls (env : Env) (w : World) (ja index : Nat) (value : Int) :
    (JNIUtils.set env w ja index value).1.calls = w.calls := by
  unfold JNIUtils.set
  split
  · split <;> simp [World.calls]
  · simp

/-- The helper `set` on an index inside the array whose elements can be accessed. -/
theorem set_ok (env : Env) (w : World) (ja index : Nat) (value : Int)
    (hlen : index < (w.intArrays ja).length) (hcrit : env.setCriticalOk = true) :
    JNIUtils.set env w ja index value =
      ({ w with intArrays :=
          Function.update w.intArrays ja ((w.intArrays ja).set index value) }, true) := by
  simp [JNIUtils.set, hlen, hcrit]

/-- The helper `set` reports failure and leaves the arrays alone otherwise. -/
theorem set_fail (env : Env) (w : World) (ja index : Nat) (value : Int)
    (h : ¬ (index < (w.intArrays ja).length ∧ env.setCriticalOk = true)) :
    (JNIUtils.set env w ja index value).2 = false ∧
      (JNIUtils.set env w ja index value).1.intArrays = w.intArrays := by
  unfold JNIUtils.set
  by_cases h1 : index < (w.intArrays ja).length
  · have h2 : env.setCriticalOk = false := by
      cases hc : env.setCriticalOk
      · rfl
      · exact absurd ⟨h1, hc⟩ h
    simp [h1, h2]
  · simp [h1]

/-- The unsigned reading of a `jlong` is the value modulo `2 ^ 64`. -/
theorem ofJlong_cast (x : Int) : ((ofJlong x : Nat) : Int) = x % 2 ^ 64 := by
  unfold ofJlong
  exact Int.toNat_of_nonneg (Int.emod_nonneg _ (by norm_num))

/-- The unsigned reading of a `jint` is the value modulo `2 ^ 32`. -/
theorem ofJint_cast (x : Int) : ((ofJint x : Nat) : Int) = x % 2 ^ 32 := by
  unfold ofJint
  exact Int.toNat_of_nonneg (Int.emod_nonneg _ (by norm_num))

/-- The native call of a generation entry point receives the count cast to `size_t`. -/
theorem generation_resolved_size (env : Env) (w : World) (c : Call) (g p a : Nat) (n : Int)
    (hc : c.isGeneration = true) (hargs : c.objectArgs = [some g, some p])
    (hres : env.pointerData p = some a) (hn : c.count = some n) (nc : NativeCall)
    (hnc : (c.run env w).1.calls = w.calls ++ [nc]) : nc.size = some (ofJlong n) := by
  cases hrel : env.releaseOk p <;>
  cases c <;> simp only [Call.isGeneration] at hc <;> try (exact absurd hc (by decide))
  all_goals
    simp only [Call.objectArgs, List.cons.injEq, and_true] at hargs
    obtain ⟨rfl, rfl⟩ := hargs
    simp only [Call.count, Option.some.injEq] at hn
    subst hn
    simp only [Call.run, curandGenerateNative, curandGenerateLongLongNative,
      curandGenerateUniformNative, curandGenerateUniformDoubleNative, curandGenerateNormalNative,
      curandGenerateNormalDoubleNative, curandGenerateLogNormalNative,
      curandGenerateLogNormalDoubleNative, curandGeneratePoissonNative,
      initPointerData, hres, releasePointerData, hrel, invoke,
      Bool.not_true, Bool.not_false, Bool.false_eq_true, if_false, if_true,
      World.calls, emit_trace, log_trace, List.filterMap_append, List.filterMap_cons,
      List.filterMap_nil, Event.nativeCall, List.append_nil, List.append_assoc,
      List.append_cancel_left_eq, List.nil_append, List.cons.injEq, and_true] at hnc
    subst hnc
    rfl

/-- C11: curandGetDirectionVectors32 and curandGetDirectionVectors64 called with a
non-null container of length at least 1 and a selector that is not one of the
two legal sets of that width fail with `JCURAND_STATUS_INTERNAL_ERROR` before any
managed array is created: the only boundary event of the run is the native call,
the number of array creations in the trace is unchanged, and every object array
(the container included) is unchanged. -/
theorem invalid_selector_allocates_nothing (env : Env) (w : World) (v : Nat) (set32 set64 : Int)
    (hlen : 1 ≤ (w.objArrays v).length)
    (h32 : set32 ≠ env.K.CURAND_DIRECTION_VECTORS_32_JOEKUO6 ∧
      set32 ≠ env.K.CURAND_SCRAMBLED_DIRECTION_VECTORS_32_JOEKUO6)
    (h64 : set64 ≠ env.K.CURAND_DIRECTION_VECTORS_64_JOEKUO6 ∧
      set64 ≠ env.K.CURAND_SCRAMBLED_DIRECTION_VECTORS_64_JOEKUO6) :
    ((curandGetDirectionVectors32Native env w (some v) set32).2 =
        env.K.JCURAND_STATUS_INTERNAL_ERROR ∧
      (curandGetDirectionVectors32Native env w (some v) set32).1.trace =
        w.trace ++ [Event.native (NativeCall.curandGetDirectionVectors32 set32)] ∧
      ((curandGetDirectionVectors32Native env w (some v) set32).1.trace.filter
        Event.isAllocation).length = (w.trace.filter Event.isAllocation).length ∧
      (curandGetDirectionVectors32Native env w (some v) set32).1.objArrays = w.objArrays) ∧
    ((curandGetDirectionVectors64Native env w (some v) set64).2 =
        env.K.JCURAND_STATUS_INTERNAL_ERROR ∧
      (curandGetDirectionVectors64Native env w (some v) set64).1.trace =
        w.trace ++ [Event.native (NativeCall.curandGetDirectionVectors64 set64)] ∧
      ((curandGetDirectionVectors64Native env w (some v) set64).1.trace.filter
        Event.isAllocation).length = (w.trace.filter Event.isAllocation).length ∧
      (curandGetDirectionVectors64Native env w (some v) set64).1.objArrays = w.objArrays) := by
  have hlen1 : ¬ (w.objArrays v).length < 1 := by omega
  constructor
  · simp [curandGetDirectionVectors32Native, hlen1, invoke, h32, Event.isAllocation]
  · simp [curandGetDirectionVectors64Native, hlen1, invoke, h64, Event.isAllocation]

/-- Witness of C11: the selector 7 under the stub environment. -/
theorem invalid_selector_allocates_nothing_witness :
    (1 ≤ (containerWorld.objArrays 1).length) ∧
    ((7 : Int) ≠ stubEnv.K.CURAND_DIRECTION_VECTORS_32_JOEKUO6 ∧
      (7 : Int) ≠ stubEnv.K.CURAND_SCRAMBLED_DIRECTION_VECTORS_32_JOEKUO6) ∧
    ((7 : Int) ≠ stubEnv.K.CURAND_DIRECTION_VECTORS_64_JOEKUO6 ∧
      (7 : Int) ≠ stubEnv.K.CURAND_SCRAMBLED_DIRECTION_VECTORS_64_JOEKUO6) ∧
    (((curandGetDirectionVectors32Native stubEnv containerWorld (some 1) (7 : Int)).2 =
        stubEnv.K.JCURAND_STATUS_INTERNAL_ERROR ∧
      (curandGetDirectionVectors32Native stubEnv containerWorld (some 1) (7 : Int)).1.trace =
        containerWorld.trace ++ [Event.native (NativeCall.curandGetDirectionVectors32 (7 : Int))] ∧
      ((curandGetDirectionVectors32Native stubEnv containerWorld (some 1) (7 : Int)).1.trace.filter
        Event.isAllocation).length = (containerWorld.trace.filter Event.isAllocation).length ∧
      (curandGetDirectionVectors32Native stubEnv containerWorld (some 1) (7 : Int)).1.objArrays = containerWorld.objArrays) ∧
    ((curandGetDirectionVectors64Native stubEnv containerWorld (some 1) (7 : Int)).2 =
        stubEnv.K.JCURAND_STATUS_INTERNAL_ERROR ∧
      (curandGetDirectionVectors64Native stubEnv containerWorld (some 1) (7 : Int)).1.trace =
        containerWorld.trace ++ [Event.native (NativeCall.curandGetDirectionVectors64 (7 : Int))] ∧
      ((curandGetDirectionVectors64Native stubEnv containerWorld (some 1) (7 : Int)).1.trace.filter
        Event.isAllocation).length = (containerWorld.trace.filter Event.isAllocation).length ∧
      (curandGetDirectionVectors64Native stubEnv containerWorld (some 1) (7 : Int)).1.objArrays = containerWorld.objArrays)) :=
  ⟨by decide, by decide, by decide,
    invalid_selector_allocates_nothing stubEnv containerWorld 1 7 7 (by decide) (by decide) (by decide)⟩

/-- C12, the code at the failing input: curandGetDirectionVectors32 and
curandGetDirectionVectors64 called with a container of length 1 and the selector
7, which is no legal set. The native function receives the selector 7 unchanged
and rejects it with the status 104 (`CURAND_STATUS_OUT_OF_RANGE`), the status
that the documentation of both functions promises for an invalid set; the
entry points return `JCURAND_STATUS_INTERNAL_ERROR` instead of that status. -/
theorem invalid_selector_status_replaced :
    (containerWorld.objArrays 1).length = 1 ∧
    ((curandGetDirectionVectors32Native strictEnv containerWorld (some 1) 7).1.calls =
        [NativeCall.curandGetDirectionVectors32 7] ∧
      strictEnv.status containerWorld.calls (NativeCall.curandGetDirectionVectors32 7) = 104 ∧
      (curandGetDirectionVectors32Native strictEnv containerWorld (some 1) 7).2 =
        strictEnv.K.JCURAND_STATUS_INTERNAL_ERROR ∧
      (curandGetDirectionVectors32Native strictEnv containerWorld (some 1) 7).2 ≠
        strictEnv.status containerWorld.calls (NativeCall.curandGetDirectionVectors32 7)) ∧
    ((curandGetDirectionVectors64Native strictEnv containerWorld (some 1) 7).1.calls =
        [NativeCall.curandGetDirectionVectors64 7] ∧
      strictEnv.status containerWorld.calls (NativeCall.curandGetDirectionVectors64 7) = 104 ∧
      (curandGetDirectionVectors64Native strictEnv containerWorld (some 1) 7).2 =
        strictEnv.K.JCURAND_STATUS_INTERNAL_ERROR ∧
      (curandGetDirectionVectors64Native strictEnv containerWorld (some 1) 7).2 ≠
        strictEnv.status containerWorld.calls (NativeCall.curandGetDirectionVectors64 7)) := by
  decide

/-- C13: with a non-null container of length at least 1,
curandGetDirectionVectors32 proceeds past its selector check (its next step, the
class lookup, happens) exactly for the two legal 32-bit sets, and
curandGetDirectionVectors64 exactly for the two legal 64-bit sets; for every
other selector the run ends after the native call with
`JCURAND_STATUS_INTERNAL_ERROR`, in particular for a legal set of the other
width (the 32-bit and 64-bit set constants being different values). -/
theorem selector_gate (env : Env) (w : World) (v : Nat) (set : Int)
    (hlen : 1 ≤ (w.objArrays v).length)
    (hK : env.K.CURAND_DIRECTION_VECTORS_64_JOEKUO6 ≠ env.K.CURAND_DIRECTION_VECTORS_32_JOEKUO6 ∧
      env.K.CURAND_DIRECTION_VECTORS_64_JOEKUO6 ≠
        env.K.CURAND_SCRAMBLED_DIRECTION_VECTORS_32_JOEKUO6 ∧
      env.K.CURAND_SCRAMBLED_DIRECTION_VECTORS_64_JOEKUO6 ≠
        env.K.CURAND_DIRECTION_VECTORS_32_JOEKUO6 ∧
      env.K.CURAND_SCRAMBLED_DIRECTION_VECTORS_64_JOEKUO6 ≠
        env.K.CURAND_SCRAMBLED_DIRECTION_VECTORS_32_JOEKUO6) :
    ((set = env.K.CURAND_DIRECTION_VECTORS_32_JOEKUO6 ∨
        set = env.K.CURAND_SCRAMBLED_DIRECTION_VECTORS_32_JOEKUO6 →
      ∃ rest : List Event, (curandGetDirectionVectors32Native env w (some v) set).1.trace =
        w.trace ++ Event.native (NativeCall.curandGetDirectionVectors32 set) ::
          Event.findClass "[I" (env.findClassOk "[I") :: rest) ∧
      (¬ (set = env.K.CURAND_DIRECTION_VECTORS_32_JOEKUO6 ∨
          set = env.K.CURAND_SCRAMBLED_DIRECTION_VECTORS_32_JOEKUO6) →
        (curandGetDirectionVectors32Native env w (some v) set).2 =
          env.K.JCURAND_STATUS_INTERNAL_ERROR ∧
        (curandGetDirectionVectors32Native env w (some v) set).1.trace =
          w.trace ++ [Event.native (NativeCall.curandGetDirectionVectors32 set)])) ∧
    ((set = env.K.CURAND_DIRECTION_VECTORS_64_JOEKUO6 ∨
        set = env.K.CURAND_SCRAMBLED_DIRECTION_VECTORS_64_JOEKUO6 →
      ∃ rest : List Event, (curandGetDirectionVectors64Native env w (some v) set).1.trace =
        w.trace ++ Event.native (NativeCall.curandGetDirectionVectors64 set) ::
          Event.findClass "[J" (env.findClassOk "[J") :: rest) ∧
      (¬ (set = env.K.CURAND_DIRECTION_VECTORS_64_JOEKUO6 ∨
          set = env.K.CURAND_SCRAMBLED_DIRECTION_VECTORS_64_JOEKUO6) →
        (curandGetDirectionVectors64Native env w (some v) set).2 =
          env.K.JCURAND_STATUS_INTERNAL_ERROR ∧
        (curandGetDirectionVectors64Native env w (some v) set).1.trace =
          w.trace ++ [Event.native (NativeCall.curandGetDirectionVectors64 set)])) ∧
    (set = env.K.CURAND_DIRECTION_VECTORS_64_JOEKUO6 ∨
        set = env.K.CURAND_SCRAMBLED_DIRECTION_VECTORS_64_JOEKUO6 →
      (curandGetDirectionVectors32Native env w (some v) set).2 =
        env.K.JCURAND_STATUS_INTERNAL_ERROR) ∧
    (set = env.K.CURAND_DIRECTION_VECTORS_32_JOEKUO6 ∨
        set = env.K.CURAND_SCRAMBLED_DIRECTION_VECTORS_32_JOEKUO6 →
      (curandGetDirectionVectors64Native env w (some v) set).2 =
        env.K.JCURAND_STATUS_INTERNAL_ERROR) := by
  have hlen1 : ¬ (w.objArrays v).length < 1 := by omega
  obtain ⟨k1, k2, k3, k4⟩ := hK
  have bad32 : ∀ s : Int, ¬ (s = env.K.CURAND_DIRECTION_VECTORS_32_JOEKUO6 ∨
      s = env.K.CURAND_SCRAMBLED_DIRECTION_VECTORS_32_JOEKUO6) →
      (curandGetDirectionVectors32Native env w (some v) s).2 =
          env.K.JCURAND_STATUS_INTERNAL_ERROR ∧
        (curandGetDirectionVectors32Native env w (some v) s).1.trace =
          w.trace ++ [Event.native (NativeCall.curandGetDirectionVectors32 s)] := by
    intro s hs
    have hs2 : s ≠ env.K.CURAND_DIRECTION_VECTORS_32_JOEKUO6 ∧
        s ≠ env.K.CURAND_SCRAMBLED_DIRECTION_VECTORS_32_JOEKUO6 :=
      ⟨fun e => hs (Or.inl e), fun e => hs (Or.inr e)⟩
    simp [curandGetDirectionVectors32Native, hlen1, invoke, hs2]
  have bad64 : ∀ s : Int, ¬ (s = env.K.CURAND_DIRECTION_VECTORS_64_JOEKUO6 ∨
      s = env.K.CURAND_SCRAMBLED_DIRECTION_VECTORS_64_JOEKUO6) →
      (curandGetDirectionVectors64Native env w (some v) s).2 =
          env.K.JCURAND_STATUS_INTERNAL_ERROR ∧
        (curandGetDirectionVectors64Native env w (some v) s).1.trace =
          w.trace ++ [Event.native (NativeCall.curandGetDirectionVectors64 s)] := by
    intro s hs
    have hs2 : s ≠ env.K.CURAND_DIRECTION_VECTORS_64_JOEKUO6 ∧
        s ≠ env.K.CURAND_SCRAMBLED_DIRECTION_VECTORS_64_JOEKUO6 :=
      ⟨fun e => hs (Or.inl e), fun e => hs (Or.inr e)⟩
    simp [curandGetDirectionVectors64Native, hlen1, invoke, hs2]
  refine ⟨⟨?_, bad32 set⟩, ⟨?_, bad64 set⟩, ?_, ?_⟩
  · intro hs
    have hs2 : ¬ (set ≠ env.K.CURAND_DIRECTION_VECTORS_32_JOEKUO6 ∧
        set ≠ env.K.CURAND_SCRAMBLED_DIRECTION_VECTORS_32_JOEKUO6) := by
      rcases hs with h | h <;> simp [h]
    obtain ⟨rest, hrest⟩ := directionVectorsWriteBack_trace env "[I"
      "Could not find int array class\n" Event.newIntArray toJint
      ((env.outTable w.calls (NativeCall.curandGetDirectionVectors32 set)).getD env.wildTable)
      20000 32
      ((Logger.log w env.K.LOG_TRACE
          "Executing curandGetDirectionVectors32(vectors=%p, set=%d)\n").emit
        (Event.native (NativeCall.curandGetDirectionVectors32 set))) v
      (env.status w.calls (NativeCall.curandGetDirectionVectors32 set))
    refine ⟨rest, ?_⟩
    simp only [curandGetDirectionVectors32Native, hlen1, if_false, invoke, log_calls, hs2]
    rw [hrest]
    simp
  · intro hs
    have hs2 : ¬ (set ≠ env.K.CURAND_DIRECTION_VECTORS_64_JOEKUO6 ∧
        set ≠ env.K.CURAND_SCRAMBLED_DIRECTION_VECTORS_64_JOEKUO6) := by
      rcases hs with h | h <;> simp [h]
    obtain ⟨rest, hrest⟩ := directionVectorsWriteBack_trace env "[J"
      "Could not find long array class\n" Event.newLongArray toJlong
      ((env.outTable w.calls (NativeCall.curandGetDirectionVectors64 set)).getD env.wildTable)
      20000 64
      ((Logger.log w env.K.LOG_TRACE
          "Executing curandGetDirectionVectors64(vectors=%p, set=%d)\n").emit
        (Event.native (NativeCall.curandGetDirectionVectors64 set))) v
      (env.status w.calls (NativeCall.curandGetDirectionVectors64 set))
    refine ⟨rest, ?_⟩
    simp only [curandGetDirectionVectors64Native, hlen1, if_false, invoke, log_calls, hs2]
    rw [hrest]
    simp
  · intro hs
    refine (bad32 set ?_).1
    rcases hs with h | h <;> rw [h] <;> intro h2 <;> rcases h2 with e | e
    · exact k1 e
    · exact k2 e
    · exact k3 e
    · exact k4 e
  · intro hs
    refine (bad64 set ?_).1
    rcases hs with h | h <;> rw [h] <;> intro h2 <;> rcases h2 with e | e
    · exact k1 e.symm
    · exact k3 e.symm
    · exact k2 e.symm
    · exact k4 e.symm

/-- Witness of C13: the 64-bit set 103 under the stub environment. -/
theorem selector_gate_witness :
    (1 ≤ (containerWorld.objArrays 1).length) ∧
    (stubEnv.K.CURAND_DIRECTION_VECTORS_64_JOEKUO6 ≠ stubEnv.K.CURAND_DIRECTION_VECTORS_32_JOEKUO6 ∧
      stubEnv.K.CURAND_DIRECTION_VECTORS_64_JOEKUO6 ≠
        stubEnv.K.CURAND_SCRAMBLED_DIRECTION_VECTORS_32_JOEKUO6 ∧
      stubEnv.K.CURAND_SCRAMBLED_DIRECTION_VECTORS_64_JOEKUO6 ≠
        stubEnv.K.CURAND_DIRECTION_VECTORS_32_JOEKUO6 ∧
      stubEnv.K.CURAND_SCRAMBLED_DIRECTION_VECTORS_64_JOEKUO6 ≠
        stubEnv.K.CURAND_SCRAMBLED_DIRECTION_VECTORS_32_JOEKUO6) ∧
    ((((103 : Int) = stubEnv.K.CURAND_DIRECTION_VECTORS_32_JOEKUO6 ∨
        (103 : Int) = stubEnv.K.CURAND_SCRAMBLED_DIRECTION_VECTORS_32_JOEKUO6 →
      ∃ rest : List Event, (curandGetDirectionVectors32Native stubEnv containerWorld (some 1) (103 : Int)).1.trace =
        containerWorld.trace ++ Event.native (NativeCall.curandGetDirectionVectors32 (103 : Int)) ::
          Event.findClass "[I" (stubEnv.findClassOk "[I") :: rest) ∧
      (¬ ((103 : Int) = stubEnv.K.CURAND_DIRECTION_VECTORS_32_JOEKUO6 ∨
          (103 : Int) = stubEnv.K.CURAND_SCRAMBLED_DIRECTION_VECTORS_32_JOEKUO6) →
        (curandGetDirectionVectors32Native stubEnv containerWorld (some 1) (103 : Int)).2 =
          stubEnv.K.JCURAND_STATUS_INTERNAL_ERROR ∧
        (curandGetDirectionVectors32Native stubEnv containerWorld (some 1) (103 : Int)).1.trace =
          containerWorld.trace ++ [Event.native (NativeCall.curandGetDirectionVectors32 (103 : Int))])) ∧
    (((103 : Int) = stubEnv.K.CURAND_DIRECTION_VECTORS_64_JOEKUO6 ∨
        (103 : Int) = stubEnv.K.CURAND_SCRAMBLED_DIRECTION_VECTORS_64_JOEKUO6 →
      ∃ rest : List Event, (curandGetDirectionVectors64Native stubEnv containerWorld (some 1) (103 : Int)).1.trace =
        containerWorld.trace ++ Event.native (NativeCall.curandGetDirectionVectors64 (103 : Int)) ::
          Event.findClass "[J" (stubEnv.findClassOk "[J") :: rest) ∧
      (¬ ((103 : Int) = stubEnv.K.CURAND_DIRECTION_VECTORS_64_JOEKUO6 ∨
          (103 : Int) = stubEnv.K.CURAND_SCRAMBLED_DIRECTION_VECTORS_64_JOEKUO6) →
        (curandGetDirectionVectors64Native stubEnv containerWorld (some 1) (103 : Int)).2 =
          stubEnv.K.JCURAND_STATUS_INTERNAL_ERROR ∧
        (curandGetDirectionVectors64Native stubEnv containerWorld (some 1) (103 : Int)).1.trace =
          containerWorld.trace ++ [Event.native (NativeCall.curandGetDirectionVectors64 (103 : Int))])) ∧
    ((103 : Int) = stubEnv.K.CURAND_DIRECTION_VECTORS_64_JOEKUO6 ∨
        (103 : Int) = stubEnv.K.CURAND_SCRAMBLED_DIRECTION_VECTORS_64_JOEKUO6 →
      (curandGetDirectionVectors32Native stubEnv containerWorld (some 1) (103 : Int)).2 =
        stubEnv.K.JCURAND_STATUS_INTERNAL_ERROR) ∧
    ((103 : Int) = stubEnv.K.CURAND_DIRECTION_VECTORS_32_JOEKUO6 ∨
        (103 : Int) = stubEnv.K.CURAND_SCRAMBLED_DIRECTION_VECTORS_32_JOEKUO6 →
      (curandGetDirectionVectors64Native stubEnv containerWorld (some 1) (103 : Int)).2 =
        stubEnv.K.JCURAND_STATUS_INTERNAL_ERROR)) :=
  ⟨by decide, by decide,
    selector_gate stubEnv containerWorld 1 103 (by decide) (by decide)⟩

/-- C14, counterexample: curandGenerate called with the count -1 passes the size
18446744073709551615 to the native function, whose numeric value is not -1. -/
theorem large_count_not_preserved :
    ((Call.curandGenerate (some 1) (some 2) (-1)).run stubEnv World.init).1.calls =
      [NativeCall.curandGenerate 0 512 18446744073709551615] ∧
    ((18446744073709551615 : Nat) : Int) ≠ -1 := by
  decide

/-- C14, amended: for every generation entry point that reaches its native
function and every 64-bit signed count `n`, the native function receives
`(size_t)n`, the count modulo `2 ^ 64`: numerically equal to `n` for every
non-negative `n`, and `n + 2 ^ 64` (the same 64-bit pattern) for a negative `n`. -/
theorem generation_count_conversion (env : Env) (w : World) (c : Call) (g p a : Nat) (n : Int)
    (hc : c.isGeneration = true) (hargs : c.objectArgs = [some g, some p])
    (hres : env.pointerData p = some a) (hn : c.count = some n) :
    ∃ nc : NativeCall, c.wraps nc = true ∧ (c.run env w).1.calls = w.calls ++ [nc] ∧
      nc.size = some (ofJlong n) ∧
      ((ofJlong n : Nat) : Int) = n % 2 ^ 64 ∧
      (0 ≤ n → n < 2 ^ 63 → ((ofJlong n : Nat) : Int) = n) ∧
      (n < 0 → -2 ^ 63 ≤ n → ((ofJlong n : Nat) : Int) = n + 2 ^ 64) := by
  obtain ⟨nc, hw, ht, _, _⟩ := generation_resolved_run env w c g p a hc hargs hres
  have hcalls : (c.run env w).1.calls = w.calls ++ [nc] := by
    rw [calls_of_trace w _ _ ht]; simp [Event.nativeCall]
  refine ⟨nc, hw, hcalls, generation_resolved_size env w c g p a n hc hargs hres hn nc hcalls,
    ofJlong_cast n, fun h1 h2 => ?_, fun h1 h2 => ?_⟩
  · rw [ofJlong_cast]; omega
  · rw [ofJlong_cast]; omega

/-- Witness of C14: curandGeneratePoisson with the count -1. -/
theorem generation_count_conversion_witness :
    ((Call.curandGeneratePoisson (some 1) (some 2) (-1) ⟨7⟩).isGeneration = true) ∧
    ((Call.curandGeneratePoisson (some 1) (some 2) (-1) ⟨7⟩).objectArgs = [some 1, some 2]) ∧
    (stubEnv.pointerData 2 = some 512) ∧
    ((Call.curandGeneratePoisson (some 1) (some 2) (-1) ⟨7⟩).count = some (-1 : Int)) ∧
    (∃ nc : NativeCall, (Call.curandGeneratePoisson (some 1) (some 2) (-1) ⟨7⟩).wraps nc = true ∧ ((Call.curandGeneratePoisson (some 1) (some 2) (-1) ⟨7⟩).run stubEnv World.init).1.calls = World.init.calls ++ [nc] ∧
      nc.size = some (ofJlong (-1 : Int)) ∧
      ((ofJlong (-1 : Int) : Nat) : Int) = (-1 : Int) % 2 ^ 64 ∧
      (0 ≤ (-1 : Int) → (-1 : Int) < 2 ^ 63 → ((ofJlong (-1 : Int) : Nat) : Int) = (-1 : Int)) ∧
      ((-1 : Int) < 0 → -2 ^ 63 ≤ (-1 : Int) → ((ofJlong (-1 : Int) : Nat) : Int) = (-1 : Int) + 2 ^ 64)) :=
  ⟨rfl, rfl, rfl, rfl,
    generation_count_conversion stubEnv World.init (Call.curandGeneratePoisson (some 1) (some 2) (-1) ⟨7⟩) 1 2 512 (-1) rfl rfl rfl rfl⟩

/-- C15: the setters pass their argument on unmodified.  The native setter
receives `(unsigned long long)seed` and `(unsigned long long)offset`, which is
the argument modulo `2 ^ 64` (the same 64-bit pattern) and numerically equal to
it for every non-negative value; it receives the ordering value itself and
`(unsigned int)num_dimensions`, numerically equal for every count in 1..20000.
The conversions are injective on the `jlong` and `jint` ranges, so distinct
arguments reach the native layer as distinct values (no clamping). -/
theorem setter_values_unmodified (env : Env) (w : World) (g : Nat)
    (seed offset order num_dimensions : Int) :
    ((curandSetPseudoRandomGeneratorSeedNative env w (some g) seed).1.calls =
        w.calls ++ [NativeCall.curandSetPseudoRandomGeneratorSeed (ofJlong (w.nativePointer g))
          (ofJlong seed)] ∧
      (curandSetGeneratorOffsetNative env w (some g) offset).1.calls =
        w.calls ++ [NativeCall.curandSetGeneratorOffset (ofJlong (w.nativePointer g))
          (ofJlong offset)] ∧
      (curandSetGeneratorOrderingNative env w (some g) order).1.calls =
        w.calls ++ [NativeCall.curandSetGeneratorOrdering (ofJlong (w.nativePointer g)) order] ∧
      (curandSetQuasiRandomGeneratorDimensionsNative env w (some g) num_dimensions).1.calls =
        w.calls ++ [NativeCall.curandSetQuasiRandomGeneratorDimensions
          (ofJlong (w.nativePointer g)) (ofJint num_dimensions)]) ∧
    (∀ x : Int, ((ofJlong x : Nat) : Int) = x % 2 ^ 64 ∧
      (0 ≤ x → x < 2 ^ 63 → ((ofJlong x : Nat) : Int) = x)) ∧
    (1 ≤ num_dimensions → num_dimensions ≤ 20000 →
      ((ofJint num_dimensions : Nat) : Int) = num_dimensions) ∧
    (∀ x y : Int, -2 ^ 63 ≤ x → x < 2 ^ 63 → -2 ^ 63 ≤ y → y < 2 ^ 63 →
      ofJlong x = ofJlong y → x = y) ∧
    (∀ x y : Int, -2 ^ 31 ≤ x → x < 2 ^ 31 → -2 ^ 31 ≤ y → y < 2 ^ 31 →
      ofJint x = ofJint y → x = y) := by
  refine ⟨⟨?_, ?_, ?_, ?_⟩, fun x => ⟨ofJlong_cast x, fun h1 h2 => ?_⟩, fun h1 h2 => ?_,
    fun x y hx1 hx2 hy1 hy2 h => ?_, fun x y hx1 hx2 hy1 hy2 h => ?_⟩
  · simp [curandSetPseudoRandomGeneratorSeedNative, invoke, getNativePointerValue]
  · simp [curandSetGeneratorOffsetNative, invoke, getNativePointerValue]
  · simp [curandSetGeneratorOrderingNative, invoke, getNativePointerValue]
  · simp [curandSetQuasiRandomGeneratorDimensionsNative, invoke, getNativePointerValue]
  · rw [ofJlong_cast]; omega
  · rw [ofJint_cast]; omega
  · have h2 : ((ofJlong x : Nat) : Int) = ((ofJlong y : Nat) : Int) := by rw [h]
    rw [ofJlong_cast, ofJlong_cast] at h2
    omega
  · have h2 : ((ofJint x : Nat) : Int) = ((ofJint y : Nat) : Int) := by rw [h]
    rw [ofJint_cast, ofJint_cast] at h2
    omega

/-! ## Output arrays (C16 to C20) -/

/-- A table entry point called with an empty container does nothing but raise the
`IllegalArgumentException` and return the internal error. -/
theorem table_length_zero_run (env : Env) (w : World) (c : Call) (v : Nat)
    (hc : c.isTable = true) (hargs : c.objectArgs = [some v])
    (hlen : (w.objArrays v).length = 0) :
    ∃ msg : String, c.run env w =
      (ThrowByName w "java/lang/IllegalArgumentException" msg,
        env.K.JCURAND_STATUS_INTERNAL_ERROR) := by
  cases c <;> simp only [Call.isTable] at hc <;> try (exact absurd hc (by decide))
  all_goals
    simp only [Call.objectArgs, List.cons.injEq, and_true] at hargs
    subst hargs
    first
      | (refine ⟨"Parameter 'vectors' must have a size >= 1", ?_⟩
         simp only [Call.run, curandGetDirectionVectors32Native,
           curandGetDirectionVectors64Native, hlen, Nat.zero_lt_one, if_true]
         done)
      | (refine ⟨"Parameter 'constants' must have a size >= 1", ?_⟩
         simp only [Call.run, curandGetScrambleConstants32Native,
           curandGetScrambleConstants64Native, hlen, Nat.zero_lt_one, if_true]
         done)

/-- C16: curandGetDirectionVectors32/64 and curandGetScrambleConstants32/64
called with a non-null container of length 0 raise an
`IllegalArgumentException` and return `JCURAND_STATUS_INTERNAL_ERROR`; the throw
is the only boundary event, so no native function is invoked and no array is
created, and the object arrays are unchanged. -/
theorem empty_container_rejected (env : Env) (w : World) (c : Call) (v : Nat)
    (hc : c.isTable = true) (hargs : c.objectArgs = [some v])
    (hlen : (w.objArrays v).length = 0) :
    ∃ msg : String,
      (c.run env w).2 = env.K.JCURAND_STATUS_INTERNAL_ERROR ∧
      (c.run env w).1.pending = some ("java/lang/IllegalArgumentException", msg) ∧
      (c.run env w).1.trace =
        w.trace ++ [Event.throwByName "java/lang/IllegalArgumentException" msg] ∧
      (c.run env w).1.calls = w.calls ∧
      (c.run env w).1.trace.filter Event.isAllocation = w.trace.filter Event.isAllocation ∧
      (c.run env w).1.objArrays = w.objArrays := by
  obtain ⟨msg, hrun⟩ := table_length_zero_run env w c v hc hargs hlen
  refine ⟨msg, ?_⟩
  rw [hrun]
  simp [Event.isAllocation]

/-- Witness of C16: curandGetScrambleConstants32 on an empty container. -/
theorem empty_container_rejected_witness :
    ((Call.curandGetScrambleConstants32 (some 1)).isTable = true) ∧
    ((Call.curandGetScrambleConstants32 (some 1)).objectArgs = [some 1]) ∧
    ((World.init.objArrays 1).length = 0) ∧
    (∃ msg : String,
      ((Call.curandGetScrambleConstants32 (some 1)).run stubEnv World.init).2 = stubEnv.K.JCURAND_STATUS_INTERNAL_ERROR ∧
      ((Call.curandGetScrambleConstants32 (some 1)).run stubEnv World.init).1.pending = some ("java/lang/IllegalArgumentException", msg) ∧
      ((Call.curandGetScrambleConstants32 (some 1)).run stubEnv World.init).1.trace =
        World.init.trace ++ [Event.throwByName "java/lang/IllegalArgumentException" msg] ∧
      ((Call.curandGetScrambleConstants32 (some 1)).run stubEnv World.init).1.calls = World.init.calls ∧
      ((Call.curandGetScrambleConstants32 (some 1)).run stubEnv World.init).1.trace.filter Event.isAllocation = World.init.trace.filter Event.isAllocation ∧
      ((Call.curandGetScrambleConstants32 (some 1)).run stubEnv World.init).1.objArrays = World.init.objArrays) :=
  ⟨rfl, rfl, rfl,
    empty_container_rejected stubEnv World.init (Call.curandGetScrambleConstants32 (some 1)) 1 rfl rfl rfl⟩

/-- C17, counterexample: curandGetProperty and curandGetVersion called with an
`int[]` of length 0 invoke their native function. -/
theorem getProperty_calls_native_first :
    (World.init.intArrays 1).length = 0 ∧
    (curandGetPropertyNative stubEnv World.init 0 (some 1)).1.calls =
      [NativeCall.curandGetProperty 0] ∧
    (curandGetVersionNative stubEnv World.init (some 1)).1.calls =
      [NativeCall.curandGetVersion] := by
  decide

/-- C17, amended: the table entry points (curandGetDirectionVectors32/64,
curandGetScrambleConstants32/64) called with a container of length 0 raise the
`IllegalArgumentException` and return `JCURAND_STATUS_INTERNAL_ERROR` without
invoking the native function.  curandGetVersion and curandGetProperty have no
length check: called with an `int[]` of length 0 they invoke their native
function once, and only the write-back afterwards fails; curandGetProperty then
returns `JCURAND_STATUS_INTERNAL_ERROR`. -/
theorem undersized_output_handling (env : Env) (w : World) (c : Call) (v a : Nat) (type : Int)
    (hc : c.isTable = true) (hargs : c.objectArgs = [some v])
    (hlen : (w.objArrays v).length = 0) (hlen2 : (w.intArrays a).length = 0) :
    (∃ msg : String,
      (c.run env w).2 = env.K.JCURAND_STATUS_INTERNAL_ERROR ∧
      (c.run env w).1.pending = some ("java/lang/IllegalArgumentException", msg) ∧
      (c.run env w).1.calls = w.calls) ∧
    (curandGetVersionNative env w (some a)).1.calls = w.calls ++ [NativeCall.curandGetVersion] ∧
    (curandGetPropertyNative env w type (some a)).1.calls =
      w.calls ++ [NativeCall.curandGetProperty type] ∧
    (curandGetPropertyNative env w type (some a)).2 = env.K.JCURAND_STATUS_INTERNAL_ERROR := by
  obtain ⟨msg, hrun⟩ := table_length_zero_run env w c v hc hargs hlen
  refine ⟨⟨msg, ?_⟩, ?_, ?_, ?_⟩
  · rw [hrun]; simp
  · simp [curandGetVersionNative, invoke]
  · simp [curandGetPropertyNative, invoke, ite_pair_fst]
  · have h := (set_fail env ((Logger.log w env.K.LOG_TRACE
        "Executing curandGetProperty(type=%d, value=%p)\n").emit
        (Event.native (NativeCall.curandGetProperty type))) a 0
      ((env.outInt w.calls (NativeCall.curandGetProperty type)).getD (toJint env.indeterminate))
      (by simp [hlen2])).1
    simp [curandGetPropertyNative, invoke, h]

/-- Witness of C17: an empty container and an empty `int[]` in the fresh world. -/
theorem undersized_output_handling_witness :
    ((Call.curandGetDirectionVectors64 (some 1) 103).isTable = true) ∧
    ((Call.curandGetDirectionVectors64 (some 1) 103).objectArgs = [some 1]) ∧
    ((World.init.objArrays 1).length = 0) ∧
    ((World.init.intArrays 2).length = 0) ∧
    ((∃ msg : String,
      ((Call.curandGetDirectionVectors64 (some 1) 103).run stubEnv World.init).2 = stubEnv.K.JCURAND_STATUS_INTERNAL_ERROR ∧
      ((Call.curandGetDirectionVectors64 (some 1) 103).run stubEnv World.init).1.pending = some ("java/lang/IllegalArgumentException", msg) ∧
      ((Call.curandGetDirectionVectors64 (some 1) 103).run stubEnv World.init).1.calls = World.init.calls) ∧
    (curandGetVersionNative stubEnv World.init (some 2)).1.calls = World.init.calls ++ [NativeCall.curandGetVersion] ∧
    (curandGetPropertyNative stubEnv World.init (0 : Int) (some 2)).1.calls =
      World.init.calls ++ [NativeCall.curandGetProperty (0 : Int)] ∧
    (curandGetPropertyNative stubEnv World.init (0 : Int) (some 2)).2 = stubEnv.K.JCURAND_STATUS_INTERNAL_ERROR) :=
  ⟨rfl, rfl, rfl, rfl,
    undersized_output_handling stubEnv World.init (Call.curandGetDirectionVectors64 (some 1) 103) 1 2 0 rfl rfl rfl rfl⟩

/-- C18, the code at the failing input: curandGetVersion called with an `int[]`
of length 0, so that the write of the version into element 0 fails, returns the
native status (success) and not `JCURAND_STATUS_INTERNAL_ERROR`: the result of
`set` is discarded, unlike in curandGetProperty. -/
theorem getVersion_swallows_write_failure :
    (World.init.intArrays 1).length = 0 ∧
    (JNIUtils.set stubEnv World.init 1 0 10020).2 = false ∧
    (curandGetVersionNative stubEnv World.init (some 1)).2 = stubEnv.K.CURAND_STATUS_SUCCESS ∧
    (curandGetVersionNative stubEnv World.init (some 1)).2 ≠
      stubEnv.K.JCURAND_STATUS_INTERNAL_ERROR := by
  decide

/-- C19: curandGetProperty called with a non-null array invokes the native
curandGetProperty once with the property type unchanged.  If the write-back
succeeds (element 0 exists and the array elements can be accessed), element 0 of
the array is the value the native call produced and the native status is
returned; if the write-back fails, `JCURAND_STATUS_INTERNAL_ERROR` is returned
whatever the native status was, and the arrays are unchanged. -/
theorem getProperty_write_back (env : Env) (w : World) (a : Nat) (type value : Int)
    (hout : env.outInt w.calls (NativeCall.curandGetProperty type) = some value) :
    (curandGetPropertyNative env w type (some a)).1.calls =
      w.calls ++ [NativeCall.curandGetProperty type] ∧
    (0 < (w.intArrays a).length → env.setCriticalOk = true →
      ((curandGetPropertyNative env w type (some a)).1.intArrays a)[0]? = some value ∧
      (curandGetPropertyNative env w type (some a)).2 =
        env.status w.calls (NativeCall.curandGetProperty type)) ∧
    (¬ (0 < (w.intArrays a).length ∧ env.setCriticalOk = true) →
      (curandGetPropertyNative env w type (some a)).2 = env.K.JCURAND_STATUS_INTERNAL_ERROR ∧
      (curandGetPropertyNative env w type (some a)).1.intArrays = w.intArrays) := by
  refine ⟨?_, fun h1 h2 => ?_, fun h => ?_⟩
  · simp [curandGetPropertyNative, invoke, ite_pair_fst]
  · simp [curandGetPropertyNative, invoke, set_ok, h1, h2, hout]
  · obtain ⟨hf, hi⟩ := set_fail env ((Logger.log w env.K.LOG_TRACE
        "Executing curandGetProperty(type=%d, value=%p)\n").emit
        (Event.native (NativeCall.curandGetProperty type))) a 0
      ((env.outInt w.calls (NativeCall.curandGetProperty type)).getD (toJint env.indeterminate))
      (by simpa using h)
    simp only [curandGetPropertyNative, invoke, log_calls, hf, Bool.not_false, if_true]
    exact ⟨trivial, by simpa using hi⟩

/-- Witness of C19: the stub library writes 10020 into an `int[1]`. -/
theorem getProperty_write_back_witness :
    (stubEnv.outInt arrayWorld.calls (NativeCall.curandGetProperty (0 : Int)) = some (10020 : Int)) ∧
    ((curandGetPropertyNative stubEnv arrayWorld (0 : Int) (some 1)).1.calls =
      arrayWorld.calls ++ [NativeCall.curandGetProperty (0 : Int)] ∧
    (0 < (arrayWorld.intArrays 1).length → stubEnv.setCriticalOk = true →
      ((curandGetPropertyNative stubEnv arrayWorld (0 : Int) (some 1)).1.intArrays 1)[0]? = some (10020 : Int) ∧
      (curandGetPropertyNative stubEnv arrayWorld (0 : Int) (some 1)).2 =
        stubEnv.status arrayWorld.calls (NativeCall.curandGetProperty (0 : Int))) ∧
    (¬ (0 < (arrayWorld.intArrays 1).length ∧ stubEnv.setCriticalOk = true) →
      (curandGetPropertyNative stubEnv arrayWorld (0 : Int) (some 1)).2 = stubEnv.K.JCURAND_STATUS_INTERNAL_ERROR ∧
      (curandGetPropertyNative stubEnv arrayWorld (0 : Int) (some 1)).1.intArrays = arrayWorld.intArrays)) :=
  ⟨rfl,
    getProperty_write_back stubEnv arrayWorld 1 0 10020 rfl⟩

/-! ### Abandoned table construction -/

/-- Storing an inner array leaves the object arrays of the caller alone. -/
@[simp] theorem storeInner_objArrays (env : Env) (w : World)
    (arrays : List (Option (List Int))) (i : Nat) (value : List Int) :
    (storeInner env w arrays i value).1.objArrays = w.objArrays := by
  unfold storeInner; split <;> rfl

/-- The loop never touches the object arrays of the caller. -/
@[simp] theorem directionVectorsLoop_objArrays (env : Env) (newArray : Nat → Bool → Event)
    (conv : Nat → Int) (vectors_native : Nat → Nat → Nat) (numVectors remaining i : Nat)
    (w : World) (arrays : List (Option (List Int))) :
    (directionVectorsLoop env newArray conv vectors_native numVectors remaining i w
      arrays).1.objArrays = w.objArrays := by
  induction remaining generalizing i w arrays with
  | zero => rfl
  | succ k ih =>
    unfold directionVectorsLoop
    split
    · simp
    · split
      · simp
      · simp only []
        split
        · simp
        · rw [ih]; simp

/-- A loop that runs to its end found every JVM service of its iterations working. -/
theorem directionVectorsLoop_some_ok (env : Env) (newArray : Nat → Bool → Event)
    (conv : Nat → Int) (vectors_native : Nat → Nat → Nat) (numVectors : Nat) :
    ∀ (remaining i : Nat) (w w2 : World) (arrays arrays2 : List (Option (List Int))),
      w.pending = none →
      directionVectorsLoop env newArray conv vectors_native numVectors remaining i w arrays =
        (w2, some arrays2) →
      ∀ k, i ≤ k → k < i + remaining →
        env.newArrayOk k = true ∧ env.criticalOk k = true ∧ env.storeInnerThrows k = false := by
  intro remaining
  induction remaining with
  | zero => intro i w w2 arrays arrays2 _ _ k h1 h2; omega
  | succ r ih =>
    intro i w w2 arrays arrays2 hp h k h1 h2
    cases hn : env.newArrayOk i
    · simp [directionVectorsLoop, hn] at h
    cases hc : env.criticalOk i
    · simp [directionVectorsLoop, hn, hc] at h
    cases hs : env.storeInnerThrows i
    · simp only [directionVectorsLoop, hn, hc, hs, storeInner, Bool.not_true, Bool.false_eq_true,
        if_false, ExceptionCheck, emit_pending, hp, Option.isSome_none] at h
      by_cases hk : k = i
      · subst hk; exact ⟨hn, hc, hs⟩
      · exact ih (i + 1) _ w2 _ arrays2 (by simp [hp]) h k (by omega) (by omega)
    · simp [directionVectorsLoop, hn, hc, hs, storeInner, ExceptionCheck] at h

/-- A loop whose first failing iteration is `i0` is abandoned there: it returns
the early exit, and its events contain exactly one inner array creation for each
of the iterations `i`, ..., `i0`. -/
theorem directionVectorsLoop_abandoned (env : Env) (newArray : Nat → Bool → Event)
    (conv : Nat → Int) (vectors_native : Nat → Nat → Nat) (numVectors : Nat)
    (p : Event → Bool) (hp1 : ∀ n b, p (newArray n b) = true)
    (hp2 : ∀ b, p (Event.getPrimitiveArrayCritical b) = false) :
    ∀ (remaining i : Nat) (w : World) (arrays : List (Option (List Int))) (i0 : Nat),
      i ≤ i0 → i0 < i + remaining → w.pending = none →
      (∀ k, i ≤ k → k < i0 →
        env.newArrayOk k = true ∧ env.criticalOk k = true ∧ env.storeInnerThrows k = false) →
      ¬ (env.newArrayOk i0 = true ∧ env.criticalOk i0 = true ∧
        env.storeInnerThrows i0 = false) →
      (directionVectorsLoop env newArray conv vectors_native numVectors remaining i w
        arrays).2 = none ∧
      ∃ rest : List Event,
        (directionVectorsLoop env newArray conv vectors_native numVectors remaining i w
          arrays).1.trace = w.trace ++ rest ∧ (rest.filter p).length = i0 - i + 1 := by
  intro remaining
  induction remaining with
  | zero => intro i w arrays i0 h1 h2; omega
  | succ r ih =>
    intro i w arrays i0 h1 h2 hp hok hfail
    by_cases hi : i = i0
    · subst hi
      cases hn : env.newArrayOk i
      · refine ⟨by simp [directionVectorsLoop, hn], [newArray numVectors false], ?_, ?_⟩
        · simp [directionVectorsLoop, hn]
        · simp [hp1]
      cases hc : env.criticalOk i
      · refine ⟨by simp [directionVectorsLoop, hn, hc],
          [newArray numVectors true, Event.getPrimitiveArrayCritical false], ?_, ?_⟩
        · simp [directionVectorsLoop, hn, hc]
        · simp [hp1, hp2]
      cases hs : env.storeInnerThrows i
      · exact absurd ⟨hn, hc, hs⟩ hfail
      · refine ⟨by simp [directionVectorsLoop, hn, hc, hs, storeInner, ExceptionCheck],
          [newArray numVectors true, Event.getPrimitiveArrayCritical true], ?_, ?_⟩
        · simp [directionVectorsLoop, hn, hc, hs, storeInner, ExceptionCheck]
        · simp [hp1, hp2]
    · obtain ⟨hn, hc, hs⟩ := hok i (le_refl _) (by omega)
      obtain ⟨hnone, rest, htrace, hcount⟩ := ih (i + 1)
        ((w.emit (newArray numVectors true)).emit (Event.getPrimitiveArrayCritical true))
        (arrays.set i (some (fillRow conv (vectors_native i) numVectors))) i0
        (by omega) (by omega) (by simp [hp]) (fun k hk1 hk2 => hok k (by omega) hk2) hfail
      have hrun : directionVectorsLoop env newArray conv vectors_native numVectors (r + 1) i w
          arrays = directionVectorsLoop env newArray conv vectors_native numVectors r (i + 1)
          ((w.emit (newArray numVectors true)).emit (Event.getPrimitiveArrayCritical true))
          (arrays.set i (some (fillRow conv (vectors_native i) numVectors))) := by
        simp only [directionVectorsLoop, hn, hc, hs, storeInner, Bool.not_true,
          Bool.false_eq_true, if_false, ExceptionCheck, emit_pending, hp, Option.isSome_none]
      rw [hrun]
      refine ⟨hnone, [newArray numVectors true, Event.getPrimitiveArrayCritical true] ++ rest,
        ?_, ?_⟩
      · rw [htrace]; simp
      · simp only [List.filter_append, List.length_append, hcount]
        simp [hp1, hp2]
        omega

/-- A store that raises leaves the container alone. -/
theorem storeResult_objArrays_of_throws (env : Env) (w : World) (container index : Nat)
    (value : Slot) (h : env.storeResultThrows = true) :
    (storeResult env w container index value).objArrays = w.objArrays := by
  simp [storeResult, h]

/-- Unless every JVM service succeeds, the write-back block returns the internal
error and leaves every object array of the caller as it was. -/
theorem directionVectorsWriteBack_failure (env : Env) (cls notFound : String)
    (newArray : Nat → Bool → Event) (conv : Nat → Int) (vectors_native : Nat → Nat → Nat)
    (dimensions numVectors : Nat) (w : World) (vectors : Nat) (result : Int)
    (hpend : w.pending = none)
    (hfail : ¬ (env.findClassOk cls = true ∧ env.newObjectArrayOk = true ∧
      (∀ i, i < dimensions →
        env.newArrayOk i = true ∧ env.criticalOk i = true ∧ env.storeInnerThrows i = false) ∧
      env.storeResultThrows = false)) :
    (directionVectorsWriteBack env cls notFound newArray conv vectors_native dimensions numVectors
        w vectors result).2 = env.K.JCURAND_STATUS_INTERNAL_ERROR ∧
      (directionVectorsWriteBack env cls notFound newArray conv vectors_native dimensions
        numVectors w vectors result).1.objArrays = w.objArrays := by
  unfold directionVectorsWriteBack
  cases hc : env.findClassOk cls
  · simp
  cases ho : env.newObjectArrayOk
  · simp
  simp only [Bool.not_true, Bool.false_eq_true, if_false]
  generalize hr : directionVectorsLoop _ _ _ _ _ _ _ _ _ = r
  obtain ⟨w2, res⟩ := r
  have hobj : w2.objArrays = w.objArrays := by
    have := congrArg (fun x => x.1.objArrays) hr
    simpa using this.symm
  cases res with
  | none => exact ⟨rfl, hobj⟩
  | some arrays2 =>
    have hall := directionVectorsLoop_some_ok env newArray conv vectors_native numVectors
      dimensions 0 _ w2 _ arrays2 (by simp [hpend]) hr
    have hthrow : env.storeResultThrows = true := by
      cases ht : env.storeResultThrows
      · exact absurd ⟨hc, ho, fun i hi => hall i (Nat.zero_le _) (by omega), ht⟩ hfail
      · rfl
    simp [storeResult, hthrow, ExceptionCheck, hobj]

/-- When the class lookup and the outer array succeed and the first failing inner
iteration is `i0`, the write-back block makes exactly `i0 + 2` array creations. -/
theorem directionVectorsWriteBack_abandoned (env : Env) (cls notFound : String)
    (newArray : Nat → Bool → Event) (conv : Nat → Int) (vectors_native : Nat → Nat → Nat)
    (dimensions numVectors : Nat) (w : World) (vectors : Nat) (result : Int) (i0 : Nat)
    (hnew : ∀ n b, (newArray n b).isAllocation = true)
    (hpend : w.pending = none) (hi0 : i0 < dimensions)
    (hc : env.findClassOk cls = true) (ho : env.newObjectArrayOk = true)
    (hok : ∀ k, k < i0 →
      env.newArrayOk k = true ∧ env.criticalOk k = true ∧ env.storeInnerThrows k = false)
    (hfail : ¬ (env.newArrayOk i0 = true ∧ env.criticalOk i0 = true ∧
      env.storeInnerThrows i0 = false)) :
    ((directionVectorsWriteBack env cls notFound newArray conv vectors_native dimensions
      numVectors w vectors result).1.trace.filter Event.isAllocation).length =
      (w.trace.filter Event.isAllocation).length + (i0 + 2) := by
  obtain ⟨hnone, rest, htrace, hcount⟩ := directionVectorsLoop_abandoned env newArray conv
    vectors_native numVectors Event.isAllocation hnew (fun _ => rfl) dimensions 0
    ((w.emit (Event.findClass cls true)).emit (Event.newObjectArray dimensions true))
    (List.replicate dimensions none) i0 (Nat.zero_le _) (by omega) (by simp [hpend])
    (fun k _ hk => hok k hk) hfail
  unfold directionVectorsWriteBack
  simp only [hc, ho, Bool.not_true, Bool.false_eq_true, if_false]
  revert hnone htrace
  generalize directionVectorsLoop _ _ _ _ _ _ _ _ _ = r
  obtain ⟨w2, res⟩ := r
  intro hnone htrace
  simp only at hnone htrace
  subst hnone
  simp only [htrace, emit_trace, List.filter_append, List.length_append, hcount]
  simp [Event.isAllocation]
  omega

/-- C20: curandGetDirectionVectors32/64 called with a non-null container of
length at least 1 and a legal selector.  Unless every JVM service succeeds
(class lookup, outer array, every inner array, access to every inner array, no
exception after any store), the run returns `JCURAND_STATUS_INTERNAL_ERROR` and
every object array, in particular element 0 of the caller's container, is left
unchanged.  The loop is abandoned at the first failing iteration `i0`: the run
then contains exactly `i0 + 2` array creations (the outer array and the inner
arrays of the iterations 0 to `i0`). -/
theorem partial_table_never_visible (env : Env) (w : World) (v : Nat) (set32 set64 : Int)
    (hlen : 1 ≤ (w.objArrays v).length) (hpend : w.pending = none)
    (hset32 : set32 = env.K.CURAND_DIRECTION_VECTORS_32_JOEKUO6 ∨
      set32 = env.K.CURAND_SCRAMBLED_DIRECTION_VECTORS_32_JOEKUO6)
    (hset64 : set64 = env.K.CURAND_DIRECTION_VECTORS_64_JOEKUO6 ∨
      set64 = env.K.CURAND_SCRAMBLED_DIRECTION_VECTORS_64_JOEKUO6) :
    ((¬ (env.findClassOk "[I" = true ∧ env.newObjectArrayOk = true ∧
          (∀ i, i < 20000 →
            env.newArrayOk i = true ∧ env.criticalOk i = true ∧
              env.storeInnerThrows i = false) ∧
          env.storeResultThrows = false) →
        (curandGetDirectionVectors32Native env w (some v) set32).2 =
          env.K.JCURAND_STATUS_INTERNAL_ERROR ∧
        (curandGetDirectionVectors32Native env w (some v) set32).1.objArrays = w.objArrays ∧
        ((curandGetDirectionVectors32Native env w (some v) set32).1.objArrays v)[0]? =
          (w.objArrays v)[0]?) ∧
      (∀ i0, i0 < 20000 → env.findClassOk "[I" = true → env.newObjectArrayOk = true →
        (∀ k, k < i0 →
          env.newArrayOk k = true ∧ env.criticalOk k = true ∧ env.storeInnerThrows k = false) →
        ¬ (env.newArrayOk i0 = true ∧ env.criticalOk i0 = true ∧
          env.storeInnerThrows i0 = false) →
        ((curandGetDirectionVectors32Native env w (some v) set32).1.trace.filter
          Event.isAllocation).length = (w.trace.filter Event.isAllocation).length + (i0 + 2))) ∧
    ((¬ (env.findClassOk "[J" = true ∧ env.newObjectArrayOk = true ∧
          (∀ i, i < 20000 →
            env.newArrayOk i = true ∧ env.criticalOk i = true ∧
              env.storeInnerThrows i = false) ∧
          env.storeResultThrows = false) →
        (curandGetDirectionVectors64Native env w (some v) set64).2 =
          env.K.JCURAND_STATUS_INTERNAL_ERROR ∧
        (curandGetDirectionVectors64Native env w (some v) set64).1.objArrays = w.objArrays ∧
        ((curandGetDirectionVectors64Native env w (some v) set64).1.objArrays v)[0]? =
          (w.objArrays v)[0]?) ∧
      (∀ i0, i0 < 20000 → env.findClassOk "[J" = true → env.newObjectArrayOk = true →
        (∀ k, k < i0 →
          env.newArrayOk k = true ∧ env.criticalOk k = true ∧ env.storeInnerThrows k = false) →
        ¬ (env.newArrayOk i0 = true ∧ env.criticalOk i0 = true ∧
          env.storeInnerThrows i0 = false) →
        ((curandGetDirectionVectors64Native env w (some v) set64).1.trace.filter
          Event.isAllocation).length = (w.trace.filter Event.isAllocation).length + (i0 + 2))) := by
  have hlen1 : ¬ (w.objArrays v).length < 1 := by omega
  constructor
  · have hsel : ¬ (set32 ≠ env.K.CURAND_DIRECTION_VECTORS_32_JOEKUO6 ∧
        set32 ≠ env.K.CURAND_SCRAMBLED_DIRECTION_VECTORS_32_JOEKUO6) := by
      rcases hset32 with h | h <;> simp [h]
    have hrun : curandGetDirectionVectors32Native env w (some v) set32 =
        directionVectorsWriteBack env "[I" "Could not find int array class\n" Event.newIntArray
          toJint
          ((env.outTable w.calls (NativeCall.curandGetDirectionVectors32 set32)).getD
            env.wildTable) 20000 32
          ((Logger.log w env.K.LOG_TRACE
              "Executing curandGetDirectionVectors32(vectors=%p, set=%d)\n").emit
            (Event.native (NativeCall.curandGetDirectionVectors32 set32))) v
          (env.status w.calls (NativeCall.curandGetDirectionVectors32 set32)) := by
      simp only [curandGetDirectionVectors32Native, hlen1, if_false, invoke, log_calls, hsel]
    rw [hrun]
    refine ⟨fun hfail => ?_, fun i0 hi0 hc ho hok hfail => ?_⟩
    · obtain ⟨h1, h2⟩ := directionVectorsWriteBack_failure env "[I"
        "Could not find int array class\n" Event.newIntArray toJint
        ((env.outTable w.calls (NativeCall.curandGetDirectionVectors32 set32)).getD
          env.wildTable) 20000 32
        ((Logger.log w env.K.LOG_TRACE
            "Executing curandGetDirectionVectors32(vectors=%p, set=%d)\n").emit
          (Event.native (NativeCall.curandGetDirectionVectors32 set32))) v
        (env.status w.calls (NativeCall.curandGetDirectionVectors32 set32))
        (by simp [hpend]) hfail
      refine ⟨h1, ?_, ?_⟩
      · rw [h2]; simp
      · rw [h2]; simp
    · rw [directionVectorsWriteBack_abandoned env "[I" "Could not find int array class\n"
        Event.newIntArray toJint _ 20000 32 _ v _ i0 (fun _ _ => rfl) (by simp [hpend]) hi0 hc ho
        hok hfail]
      simp [Event.isAllocation]
  · have hsel : ¬ (set64 ≠ env.K.CURAND_DIRECTION_VECTORS_64_JOEKUO6 ∧
        set64 ≠ env.K.CURAND_SCRAMBLED_DIRECTION_VECTORS_64_JOEKUO6) := by
      rcases hset64 with h | h <;> simp [h]
    have hrun : curandGetDirectionVectors64Native env w (some v) set64 =
        directionVectorsWriteBack env "[J" "Could not find long array class\n" Event.newLongArray
          toJlong
          ((env.outTable w.calls (NativeCall.curandGetDirectionVectors64 set64)).getD
            env.wildTable) 20000 64
          ((Logger.log w env.K.LOG_TRACE
              "Executing curandGetDirectionVectors64(vectors=%p, set=%d)\n").emit
            (Event.native (NativeCall.curandGetDirectionVectors64 set64))) v
          (env.status w.calls (NativeCall.curandGetDirectionVectors64 set64)) := by
      simp only [curandGetDirectionVectors64Native, hlen1, if_false, invoke, log_calls, hsel]
    rw [hrun]
    refine ⟨fun hfail => ?_, fun i0 hi0 hc ho hok hfail => ?_⟩
    · obtain ⟨h1, h2⟩ := directionVectorsWriteBack_failure env "[J"
        "Could not find long array class\n" Event.newLongArray toJlong
        ((env.outTable w.calls (NativeCall.curandGetDirectionVectors64 set64)).getD
          env.wildTable) 20000 64
        ((Logger.log w env.K.LOG_TRACE
            "Executing curandGetDirectionVectors64(vectors=%p, set=%d)\n").emit
          (Event.native (NativeCall.curandGetDirectionVectors64 set64))) v
        (env.status w.calls (NativeCall.curandGetDirectionVectors64 set64))
        (by simp [hpend]) hfail
      refine ⟨h1, ?_, ?_⟩
      · rw [h2]; simp
      · rw [h2]; simp
    · rw [directionVectorsWriteBack_abandoned env "[J" "Could not find long array class\n"
        Event.newLongArray toJlong _ 20000 64 _ v _ i0 (fun _ _ => rfl) (by simp [hpend]) hi0 hc ho
        hok hfail]
      simp [Event.isAllocation]

/-- Witness of C20: the inner array of dimension 2 cannot be created. -/
theorem partial_table_never_visible_witness :
    (1 ≤ (containerWorld.objArrays 1).length) ∧
    (containerWorld.pending = none) ∧
    ((101 : Int) = innerFailEnv.K.CURAND_DIRECTION_VECTORS_32_JOEKUO6 ∨
      (101 : Int) = innerFailEnv.K.CURAND_SCRAMBLED_DIRECTION_VECTORS_32_JOEKUO6) ∧
    ((103 : Int) = innerFailEnv.K.CURAND_DIRECTION_VECTORS_64_JOEKUO6 ∨
      (103 : Int) = innerFailEnv.K.CURAND_SCRAMBLED_DIRECTION_VECTORS_64_JOEKUO6) ∧
    (((¬ (innerFailEnv.findClassOk "[I" = true ∧ innerFailEnv.newObjectArrayOk = true ∧
          (∀ i, i < 20000 →
            innerFailEnv.newArrayOk i = true ∧ innerFailEnv.criticalOk i = true ∧
              innerFailEnv.storeInnerThrows i = false) ∧
          innerFailEnv.storeResultThrows = false) →
        (curandGetDirectionVectors32Native innerFailEnv containerWorld (some 1) (101 : Int)).2 =
          innerFailEnv.K.JCURAND_STATUS_INTERNAL_ERROR ∧
        (curandGetDirectionVectors32Native innerFailEnv containerWorld (some 1) (101 : Int)).1.objArrays = containerWorld.objArrays ∧
        ((curandGetDirectionVectors32Native innerFailEnv containerWorld (some 1) (101 : Int)).1.objArrays 1)[0]? =
          (containerWorld.objArrays 1)[0]?) ∧
      (∀ i0, i0 < 20000 → innerFailEnv.findClassOk "[I" = true → innerFailEnv.newObjectArrayOk = true →
        (∀ k, k < i0 →
          innerFailEnv.newArrayOk k = true ∧ innerFailEnv.criticalOk k = true ∧ innerFailEnv.storeInnerThrows k = false) →
        ¬ (innerFailEnv.newArrayOk i0 = true ∧ innerFailEnv.criticalOk i0 = true ∧
          innerFailEnv.storeInnerThrows i0 = false) →
        ((curandGetDirectionVectors32Native innerFailEnv containerWorld (some 1) (101 : Int)).1.trace.filter
          Event.isAllocation).length = (containerWorld.trace.filter Event.isAllocation).length + (i0 + 2))) ∧
    ((¬ (innerFailEnv.findClassOk "[J" = true ∧ innerFailEnv.newObjectArrayOk = true ∧
          (∀ i, i < 20000 →
            innerFailEnv.newArrayOk i = true ∧ innerFailEnv.criticalOk i = true ∧
              innerFailEnv.storeInnerThrows i = false) ∧
          innerFailEnv.storeResultThrows = false) →
        (curandGetDirectionVectors64Native innerFailEnv containerWorld (some 1) (103 : Int)).2 =
          innerFailEnv.K.JCURAND_STATUS_INTERNAL_ERROR ∧
        (curandGetDirectionVectors64Native innerFailEnv containerWorld (some 1) (103 : Int)).1.objArrays = containerWorld.objArrays ∧
        ((curandGetDirectionVectors64Native innerFailEnv containerWorld (some 1) (103 : Int)).1.objArrays 1)[0]? =
          (containerWorld.objArrays 1)[0]?) ∧
      (∀ i0, i0 < 20000 → innerFailEnv.findClassOk "[J" = true → innerFailEnv.newObjectArrayOk = true →
        (∀ k, k < i0 →
          innerFailEnv.newArrayOk k = true ∧ innerFailEnv.criticalOk k = true ∧ innerFailEnv.storeInnerThrows k = false) →
        ¬ (innerFailEnv.newArrayOk i0 = true ∧ innerFailEnv.criticalOk i0 = true ∧
          innerFailEnv.storeInnerThrows i0 = false) →
        ((curandGetDirectionVectors64Native innerFailEnv containerWorld (some 1) (103 : Int)).1.trace.filter
          Event.isAllocation).length = (containerWorld.trace.filter Event.isAllocation).length + (i0 + 2)))) :=
  ⟨by decide, rfl, Or.inl rfl, Or.inl rfl,
    partial_table_never_visible innerFailEnv containerWorld 1 101 103 (by decide) rfl (Or.inl rfl) (Or.inl rfl)⟩

/-! ## Scramble constants (C21) -/

/-- C21: curandGetScrambleConstants32 (resp. 64) called with a non-null
container of length at least 1, when the native call wrote the address of the
constants and the construction of the managed array succeeds, sets element 0 of
the container to one array of exactly 20000 elements, element `i` being native
constant `i` cast to `jint` (resp. `jlong`), the same 32-bit (resp. 64-bit)
pattern, and returns the status of the native call. -/
theorem scramble_constants_row (env : Env) (w : World) (v : Nat)
    (constants32 constants64 : Nat → Nat)
    (hlen : 1 ≤ (w.objArrays v).length) (hpend : w.pending = none)
    (hout32 : env.outConstants w.calls NativeCall.curandGetScrambleConstants32 = some constants32)
    (hout64 : env.outConstants w.calls NativeCall.curandGetScrambleConstants64 = some constants64)
    (hnew : env.newArrayOk 0 = true) (hcritical : env.criticalOk 0 = true)
    (hstore : env.storeResultThrows = false) :
    ((curandGetScrambleConstants32Native env w (some v)).2 =
        env.status w.calls NativeCall.curandGetScrambleConstants32 ∧
      ∃ row : List Int,
        ((curandGetScrambleConstants32Native env w (some v)).1.objArrays v)[0]? =
          some (Slot.row row) ∧
        row.length = 20000 ∧
        ∀ i, i < 20000 → row[i]? = some (toJint (constants32 i)) ∧
          toJint (constants32 i) % 2 ^ 32 = ((constants32 i % 2 ^ 32 : Nat) : Int)) ∧
    ((curandGetScrambleConstants64Native env w (some v)).2 =
        env.status w.calls NativeCall.curandGetScrambleConstants64 ∧
      ∃ row : List Int,
        ((curandGetScrambleConstants64Native env w (some v)).1.objArrays v)[0]? =
          some (Slot.row row) ∧
        row.length = 20000 ∧
        ∀ i, i < 20000 → row[i]? = some (toJlong (constants64 i)) ∧
          toJlong (constants64 i) % 2 ^ 64 = ((constants64 i % 2 ^ 64 : Nat) : Int)) := by
  have hlen1 : ¬ (w.objArrays v).length < 1 := by omega
  have h0 : 0 < (w.objArrays v).length := by omega
  constructor
  · simp only [curandGetScrambleConstants32Native, hlen1, if_false, invoke, log_calls, hout32,
      Option.getD_some, hnew, hcritical, Bool.not_true, Bool.false_eq_true, ExceptionCheck,
      emit_pending, log_pending, hpend, Option.isSome_none, storeResult, hstore, emit_objArrays,
      log_objArrays, Function.update_same]
    exact ⟨trivial, _, List.getElem?_set_self h0, fillRow_length _ _ _, fun i hi =>
      ⟨fillRow_getElem? _ _ _ _ hi, toJint_pattern _⟩⟩
  · simp only [curandGetScrambleConstants64Native, hlen1, if_false, invoke, log_calls, hout64,
      Option.getD_some, hnew, hcritical, Bool.not_true, Bool.false_eq_true, ExceptionCheck,
      emit_pending, log_pending, hpend, Option.isSome_none, storeResult, hstore, emit_objArrays,
      log_objArrays, Function.update_same]
    exact ⟨trivial, _, List.getElem?_set_self h0, fillRow_length _ _ _, fun i hi =>
      ⟨fillRow_getElem? _ _ _ _ hi, toJlong_pattern _⟩⟩

/-- Witness of C21: the stub environment and a container of length 1. -/
theorem scramble_constants_row_witness :
    1 ≤ (containerWorld.objArrays 1).length ∧ containerWorld.pending = none ∧
    stubEnv.outConstants containerWorld.calls NativeCall.curandGetScrambleConstants32 =
      some stubConstants ∧
    stubEnv.outConstants containerWorld.calls NativeCall.curandGetScrambleConstants64 =
      some stubConstants ∧
    stubEnv.newArrayOk 0 = true ∧ stubEnv.criticalOk 0 = true ∧
    stubEnv.storeResultThrows = false ∧
    ((curandGetScrambleConstants32Native stubEnv containerWorld (some 1)).2 =
        stubEnv.status containerWorld.calls NativeCall.curandGetScrambleConstants32 ∧
      ∃ row : List Int,
        ((curandGetScrambleConstants32Native stubEnv containerWorld (some 1)).1.objArrays 1)[0]? =
          some (Slot.row row) ∧
        row.length = 20000 ∧
        ∀ i, i < 20000 → row[i]? = some (toJint (stubConstants i)) ∧
          toJint (stubConstants i) % 2 ^ 32 = ((stubConstants i % 2 ^ 32 : Nat) : Int)) ∧
    ((curandGetScrambleConstants64Native stubEnv containerWorld (some 1)).2 =
        stubEnv.status containerWorld.calls NativeCall.curandGetScrambleConstants64 ∧
      ∃ row : List Int,
        ((curandGetScrambleConstants64Native stubEnv containerWorld (some 1)).1.objArrays 1)[0]? =
          some (Slot.row row) ∧
        row.length = 20000 ∧
        ∀ i, i < 20000 → row[i]? = some (toJlong (stubConstants i)) ∧
          toJlong (stubConstants i) % 2 ^ 64 = ((stubConstants i % 2 ^ 64 : Nat) : Int)) :=
  ⟨by decide, rfl, rfl, rfl, rfl, rfl, rfl,
    scramble_constants_row stubEnv containerWorld 1 stubConstants stubConstants
      (by decide) rfl rfl rfl rfl rfl rfl⟩

/-! ## The native call of a run (C22, C24) -/

/-- Worlds with the same trace have the same native call history. -/
theorem calls_congr {w1 w2 : World} (h : w1.trace = w2.trace) : w1.calls = w2.calls := by
  simp only [World.calls, h]

/-- An event other than a native call adds nothing to the native call history. -/
theorem emit_calls_other (w : World) (e : Event) (h : e.nativeCall = none) :
    (w.emit e).calls = w.calls := by
  simp [World.calls, List.filterMap_append, h]

@[simp] theorem storeInner_calls (env : Env) (w : World) (arrays : List (Option (List Int)))
    (i : Nat) (value : List Int) : (storeInner env w arrays i value).1.calls = w.calls :=
  calls_congr (storeInner_trace env w arrays i value)

@[simp] theorem storeResult_calls (env : Env) (w : World) (container index : Nat)
    (value : Slot) : (storeResult env w container index value).calls = w.calls :=
  calls_congr (storeResult_trace env w container index value)

/-- The loop over the dimensions invokes no native function. -/
theorem directionVectorsLoop_calls (env : Env) (newArray : Nat → Bool → Event)
    (hna : ∀ n b, (newArray n b).nativeCall = none)
    (conv : Nat → Int) (vectors_native : Nat → Nat → Nat) (numVectors remaining i : Nat)
    (w : World) (arrays : List (Option (List Int))) :
    (directionVectorsLoop env newArray conv vectors_native numVectors remaining i w
      arrays).1.calls = w.calls := by
  have h1 : ∀ (w : World) (b : Bool), (w.emit (newArray numVectors b)).calls = w.calls :=
    fun w b => emit_calls_other w _ (hna _ _)
  have h2 : ∀ (w : World) (b : Bool), (w.emit (Event.getPrimitiveArrayCritical b)).calls = w.calls :=
    fun w b => emit_calls_other w _ rfl
  induction remaining generalizing i w arrays with
  | zero => rfl
  | succ k ih =>
    unfold directionVectorsLoop
    split
    · simp [h1]
    · split
      · simp [h1, h2]
      · simp only []
        split
        · simp [h1, h2]
        · rw [ih]; simp [h1, h2]

/-- The write-back block invokes no native function. -/
theorem directionVectorsWriteBack_calls (env : Env) (cls notFound : String)
    (newArray : Nat → Bool → Event) (hna : ∀ n b, (newArray n b).nativeCall = none)
    (conv : Nat → Int) (vectors_native : Nat → Nat → Nat)
    (dimensions numVectors : Nat) (w : World) (vectors : Nat) (result : Int) :
    (directionVectorsWriteBack env cls notFound newArray conv vectors_native dimensions numVectors
      w vectors result).1.calls = w.calls := by
  have h1 : ∀ (w : World) (b : Bool), (w.emit (Event.findClass cls b)).calls = w.calls :=
    fun w b => emit_calls_other w _ rfl
  have h2 : ∀ (w : World) (b : Bool),
      (w.emit (Event.newObjectArray dimensions b)).calls = w.calls :=
    fun w b => emit_calls_other w _ rfl
  unfold directionVectorsWriteBack
  split
  · simp [h1]
  · split
    · simp [h1, h2]
    · simp only []
      have hl := directionVectorsLoop_calls env newArray hna conv vectors_native numVectors
        dimensions 0
        ((w.emit (Event.findClass cls true)).emit (Event.newObjectArray dimensions true))
        (List.replicate dimensions none)
      revert hl
      generalize directionVectorsLoop _ _ _ _ _ _ _ _ _ = r
      obtain ⟨w2, res⟩ := r
      intro hl
      simp only [h1, h2] at hl
      cases res
      · exact hl
      · simp only []
        split <;> simpa using hl

/-- The write-back block returns the status it was given or the internal error. -/
theorem directionVectorsWriteBack_status (env : Env) (cls notFound : String)
    (newArray : Nat → Bool → Event) (conv : Nat → Int) (vectors_native : Nat → Nat → Nat)
    (dimensions numVectors : Nat) (w : World) (vectors : Nat) (result : Int) :
    (directionVectorsWriteBack env cls notFound newArray conv vectors_native dimensions numVectors
      w vectors result).2 = env.K.JCURAND_STATUS_INTERNAL_ERROR ∨
    (directionVectorsWriteBack env cls notFound newArray conv vectors_native dimensions numVectors
      w vectors result).2 = result := by
  unfold directionVectorsWriteBack
  split
  · exact Or.inl rfl
  · split
    · exact Or.inl rfl
    · simp only []
      generalize directionVectorsLoop _ _ _ _ _ _ _ _ _ = r
      obtain ⟨w2, res⟩ := r
      cases res
      · exact Or.inl rfl
      · simp only []
        split
        · exact Or.inl rfl
        · exact Or.inr rfl

/-- The native call history after a call: the history before it, followed by the
native call the call reaches, if it reaches one. -/
theorem run_calls (env : Env) (w : World) (c : Call) :
    (c.run env w).1.calls = w.calls ++ (c.nativeCall env w).toList := by
  cases c
  all_goals try cases ‹jobject›
  all_goals try cases ‹jobject›
  all_goals
    simp only [Call.run, Call.nativeCall, curandGetPropertyNative, curandCreateGeneratorNative,
      curandCreateGeneratorHostNative, curandDestroyGeneratorNative, curandGetVersionNative,
      curandSetStreamNative, curandSetPseudoRandomGeneratorSeedNative,
      curandSetGeneratorOffsetNative, curandSetGeneratorOrderingNative,
      curandSetQuasiRandomGeneratorDimensionsNative, curandCreatePoissonDistributionNative,
      curandDestroyDistributionNative, curandGenerateSeedsNative,
      curandGenerateNative, curandGenerateLongLongNative,
      curandGenerateUniformNative, curandGenerateUniformDoubleNative, curandGenerateNormalNative,
      curandGenerateNormalDoubleNative, curandGenerateLogNormalNative,
      curandGenerateLogNormalDoubleNative, curandGeneratePoissonNative,
      curandGetDirectionVectors32Native, curandGetScrambleConstants32Native,
      curandGetDirectionVectors64Native, curandGetScrambleConstants64Native,
      invoke, getNativePointerValue, log_nativePointer, throw_calls]
  all_goals try (simp; done)
  all_goals try (simp [setNativePointerValue, World.calls, List.filterMap_append, Event.nativeCall]; done)
  all_goals
    first
    | (split <;> simp; done)
    | (simp only [initPointerData, releasePointerData]
       generalize env.pointerData _ = r
       cases r <;> simp [emit_calls_other, Event.nativeCall, ite_pair_fst]
       done)
    | (split
       · simp
       · split
         · simp
         · first
             | rw [directionVectorsWriteBack_calls env _ _ Event.newIntArray (fun _ _ => rfl)]
             | rw [directionVectorsWriteBack_calls env _ _ Event.newLongArray (fun _ _ => rfl)]
           simp)
    | (split
       · simp
       · repeat' split
         all_goals simp [emit_calls_other, Event.nativeCall])


/-- The status a call returns is the internal error or the status of the native
call it reaches. -/
theorem run_status (env : Env) (w : World) (c : Call) :
    (c.run env w).2 = env.K.JCURAND_STATUS_INTERNAL_ERROR ∨
      (c.nativeCall env w).map (env.status w.calls) = some (c.run env w).2 := by
  cases c
  all_goals try cases ‹jobject›
  all_goals try cases ‹jobject›
  all_goals try (exact Or.inl rfl)
  all_goals
    simp only [Call.run, Call.nativeCall, curandGetPropertyNative, curandCreateGeneratorNative,
      curandCreateGeneratorHostNative, curandDestroyGeneratorNative, curandGetVersionNative,
      curandSetStreamNative, curandSetPseudoRandomGeneratorSeedNative,
      curandSetGeneratorOffsetNative, curandSetGeneratorOrderingNative,
      curandSetQuasiRandomGeneratorDimensionsNative, curandCreatePoissonDistributionNative,
      curandDestroyDistributionNative, curandGenerateSeedsNative,
      curandGenerateNative, curandGenerateLongLongNative,
      curandGenerateUniformNative, curandGenerateUniformDoubleNative, curandGenerateNormalNative,
      curandGenerateNormalDoubleNative, curandGenerateLogNormalNative,
      curandGenerateLogNormalDoubleNative, curandGeneratePoissonNative,
      curandGetDirectionVectors32Native, curandGetScrambleConstants32Native,
      curandGetDirectionVectors64Native, curandGetScrambleConstants64Native,
      invoke, getNativePointerValue, log_nativePointer, log_calls, Option.map_some']
  all_goals try (exact Or.inr trivial)
  all_goals
    first
    | (split
       all_goals first | exact Or.inl rfl | exact Or.inr rfl | exact Or.inr trivial | (right; simp [emit_calls_other, Event.nativeCall]; done))
    | (simp only [initPointerData, releasePointerData]
       generalize env.pointerData _ = r
       cases r
       · exact Or.inl rfl
       · simp only [Option.map_some']
         split
         all_goals first | exact Or.inl rfl | exact Or.inr rfl | exact Or.inr trivial | (right; simp [emit_calls_other, Event.nativeCall]; done))
    | (split
       · exact Or.inl rfl
       · split
         · exact Or.inl rfl
         · rcases directionVectorsWriteBack_status env _ _ _ _ _ _ _ _ _ _ with h | h
           · exact Or.inl h
           · exact Or.inr (by rw [h]; rfl))
    | (split
       · exact Or.inl rfl
       · repeat' split
         all_goals first | exact Or.inl rfl | exact Or.inr rfl | exact Or.inr trivial | (right; simp [emit_calls_other, Event.nativeCall]; done))

/-- A call that reaches no native call returns the internal error. -/
theorem run_status_of_none (env : Env) (w : World) (c : Call)
    (h : c.nativeCall env w = none) : (c.run env w).2 = env.K.JCURAND_STATUS_INTERNAL_ERROR := by
  rcases run_status env w c with h1 | h1
  · exact h1
  · rw [h] at h1
    exact absurd h1 (by simp)

/-- The native call a call reaches is an invocation of the library function its
entry point wraps, and it is a teardown only when the entry point is a destroy. -/
theorem nativeCall_wraps (env : Env) (w : World) (c : Call) (nc : NativeCall)
    (h : c.nativeCall env w = some nc) :
    c.wraps nc = true ∧ (nc.isTeardown = true → c.isDestroy = true) := by
  cases c
  all_goals try cases ‹jobject›
  all_goals try cases ‹jobject›
  all_goals simp only [Call.nativeCall] at h
  all_goals
    first
    | (cases h <;>
        exact ⟨rfl, fun h2 => by first | rfl | exact absurd h2 Bool.false_ne_true⟩)
    | (generalize env.pointerData _ = r at h
       cases r <;> cases h <;> exact ⟨rfl, fun h2 => absurd h2 Bool.false_ne_true⟩)
    | (split at h <;> cases h <;> exact ⟨rfl, fun h2 => absurd h2 Bool.false_ne_true⟩)

/-- C22: every call of every entry point returns one integer, which is the
internal error sentinel or the status that the native function invoked during
this call (the one the entry point wraps, invoked once) returned; a run that
invokes no native function returns the sentinel. -/
theorem status_native_or_sentinel (env : Env) (w : World) (c : Call) :
    ((c.run env w).2 = env.K.JCURAND_STATUS_INTERNAL_ERROR ∨
      ∃ nc : NativeCall, c.wraps nc = true ∧ (c.run env w).1.calls = w.calls ++ [nc] ∧
        (c.run env w).2 = env.status w.calls nc) ∧
    ((c.run env w).1.calls = w.calls →
      (c.run env w).2 = env.K.JCURAND_STATUS_INTERNAL_ERROR) := by
  have hcalls := run_calls env w c
  constructor
  · cases hn : c.nativeCall env w with
    | none => exact Or.inl (run_status_of_none env w c hn)
    | some nc =>
      rcases run_status env w c with h | h
      · exact Or.inl h
      · rw [hn] at h hcalls
        refine Or.inr ⟨nc, (nativeCall_wraps env w c nc hn).1, hcalls, ?_⟩
        simpa using h.symm
  · intro h
    cases hn : c.nativeCall env w with
    | none => exact run_status_of_none env w c hn
    | some nc =>
      rw [hn, h] at hcalls
      simp at hcalls

/-- C24: every call of every entry point adds at most one native call to the
history, whatever statuses the library returns (so no failure leads to a second
invocation); the call it adds is an invocation of the function the entry point
wraps, and it is a native teardown only when the entry point is
curandDestroyGenerator or curandDestroyDistribution. -/
theorem at_most_one_native_call (env : Env) (w : World) (c : Call) :
    ∃ delta : List NativeCall, (c.run env w).1.calls = w.calls ++ delta ∧ delta.length ≤ 1 ∧
      ∀ nc ∈ delta, c.wraps nc = true ∧ (nc.isTeardown = true → c.isDestroy = true) := by
  refine ⟨(c.nativeCall env w).toList, run_calls env w c, ?_, fun nc hnc => ?_⟩
  · cases c.nativeCall env w <;> simp
  · exact nativeCall_wraps env w c nc (by simpa using hnc)

/-! ## The sentinel and the status enumeration (C23) -/

/-- C23: the sentinel `JCURAND_STATUS_INTERNAL_ERROR` is different from each of
the thirteen values of the status enumeration of the wrapped library: the
sentinel is negative and no enumeration value is. -/
theorem sentinel_distinct_from_statuses :
    (curandStatusValues.map Prod.snd).contains headerConstants.JCURAND_STATUS_INTERNAL_ERROR =
      false ∧
    headerConstants.JCURAND_STATUS_INTERNAL_ERROR < 0 ∧
    (curandStatusValues.map Prod.snd).all (fun s => decide (0 ≤ s)) = true ∧
    curandStatusValues.length = 13 ∧
    curandStatusValues.lookup "CURAND_STATUS_SUCCESS" =
      some headerConstants.CURAND_STATUS_SUCCESS ∧
    curandStatusValues.lookup "CURAND_STATUS_NOT_INITIALIZED" =
      some headerConstants.CURAND_STATUS_NOT_INITIALIZED := by
  decide

/-! ## Logging is observational (C25) -/

/-- A log line changes nothing but the state of the logger. -/
@[simp] theorem log_sameButLog (w1 w2 : World) (l1 l2 : Int) (m1 m2 : String) :
    (Logger.log w1 l1 m1).sameButLog (Logger.log w2 l2 m2) ↔ w1.sameButLog w2 := by
  simp [World.sameButLog]

/-- The same event keeps two worlds equal up to the logger. -/
theorem emit_sameButLog {w1 w2 : World} (h : w1.sameButLog w2) (e : Event) :
    (w1.emit e).sameButLog (w2.emit e) := by
  obtain ⟨h1, h2, h3, h4, h5⟩ := h
  simp [World.sameButLog, h1, h2, h3, h4, h5]

/-- The helper `set` does not read the logger. -/
theorem set_sameButLog (env : Env) {w1 w2 : World} (h : w1.sameButLog w2)
    (ja index : Nat) (value : Int) :
    (JNIUtils.set env w1 ja index value).1.sameButLog (JNIUtils.set env w2 ja index value).1 ∧
      (JNIUtils.set env w1 ja index value).2 = (JNIUtils.set env w2 ja index value).2 := by
  obtain ⟨h1, h2, h3, h4, h5⟩ := h
  unfold JNIUtils.set
  rw [h2]
  split
  · split
    · simp [World.sameButLog, h1, h2, h3, h4, h5]
    · simp [World.sameButLog, h1, h2, h3, h4, h5]
  · simp [World.sameButLog, h1, h2, h3, h4, h5]

/-- The store into the container does not read the logger. -/
theorem storeResult_sameButLog (env : Env) {w1 w2 : World} (h : w1.sameButLog w2)
    (container index : Nat) (value : Slot) :
    (storeResult env w1 container index value).sameButLog
      (storeResult env w2 container index value) := by
  obtain ⟨h1, h2, h3, h4, h5⟩ := h
  unfold storeResult
  split <;> simp [World.sameButLog, h1, h2, h3, h4, h5]

/-- The store into the outer array does not read the logger. -/
theorem storeInner_sameButLog (env : Env) {w1 w2 : World} (h : w1.sameButLog w2)
    (arrays : List (Option (List Int))) (i : Nat) (value : List Int) :
    (storeInner env w1 arrays i value).1.sameButLog (storeInner env w2 arrays i value).1 ∧
      (storeInner env w1 arrays i value).2 = (storeInner env w2 arrays i value).2 := by
  obtain ⟨h1, h2, h3, h4, h5⟩ := h
  unfold storeInner
  split <;> simp [World.sameButLog, h1, h2, h3, h4, h5]

/-- The check for a pending exception does not read the logger. -/
theorem exceptionCheck_sameButLog {w1 w2 : World} (h : w1.sameButLog w2) :
    ExceptionCheck w1 = ExceptionCheck w2 := by
  unfold ExceptionCheck
  rw [h.2.2.2.1]

/-- The loop over the dimensions does not read the logger. -/
theorem directionVectorsLoop_sameButLog (env : Env) (newArray : Nat → Bool → Event)
    (conv : Nat → Int) (vectors_native : Nat → Nat → Nat) (numVectors : Nat) :
    ∀ (remaining i : Nat) (w1 w2 : World) (arrays : List (Option (List Int))),
      w1.sameButLog w2 →
      (directionVectorsLoop env newArray conv vectors_native numVectors remaining i w1
          arrays).1.sameButLog
        (directionVectorsLoop env newArray conv vectors_native numVectors remaining i w2
          arrays).1 ∧
      (directionVectorsLoop env newArray conv vectors_native numVectors remaining i w1
          arrays).2 =
        (directionVectorsLoop env newArray conv vectors_native numVectors remaining i w2
          arrays).2 := by
  intro remaining
  induction remaining with
  | zero => intro i w1 w2 arrays h; exact ⟨h, rfl⟩
  | succ k ih =>
    intro i w1 w2 arrays h
    unfold directionVectorsLoop
    split
    · exact ⟨(log_sameButLog _ _ _ _ _ _).2 (emit_sameButLog h _), rfl⟩
    · split
      · exact ⟨(log_sameButLog _ _ _ _ _ _).2 (emit_sameButLog (emit_sameButLog h _) _), rfl⟩
      · have hs := storeInner_sameButLog env
          (emit_sameButLog (emit_sameButLog h (newArray numVectors true))
            (Event.getPrimitiveArrayCritical true)) arrays i
          (fillRow conv (vectors_native i) numVectors)
        simp only []
        rw [exceptionCheck_sameButLog hs.1, hs.2]
        split
        · exact ⟨hs.1, rfl⟩
        · exact ih _ _ _ _ hs.1

/-- The write-back block does not read the logger. -/
theorem directionVectorsWriteBack_sameButLog (env : Env) (cls notFound : String)
    (newArray : Nat → Bool → Event) (conv : Nat → Int) (vectors_native : Nat → Nat → Nat)
    (dimensions numVectors : Nat) {w1 w2 : World} (h : w1.sameButLog w2) (vectors : Nat)
    (result : Int) :
    (directionVectorsWriteBack env cls notFound newArray conv vectors_native dimensions numVectors
        w1 vectors result).1.sameButLog
      (directionVectorsWriteBack env cls notFound newArray conv vectors_native dimensions
        numVectors w2 vectors result).1 ∧
    (directionVectorsWriteBack env cls notFound newArray conv vectors_native dimensions numVectors
        w1 vectors result).2 =
      (directionVectorsWriteBack env cls notFound newArray conv vectors_native dimensions
        numVectors w2 vectors result).2 := by
  unfold directionVectorsWriteBack
  split
  · exact ⟨(log_sameButLog _ _ _ _ _ _).2 (emit_sameButLog h _), rfl⟩
  · split
    · exact ⟨(log_sameButLog _ _ _ _ _ _).2 (emit_sameButLog (emit_sameButLog h _) _), rfl⟩
    · have hl := directionVectorsLoop_sameButLog env newArray conv vectors_native numVectors
        dimensions 0 _ _ (List.replicate dimensions none)
        (emit_sameButLog (emit_sameButLog h (Event.findClass cls true))
          (Event.newObjectArray dimensions true))
      revert hl
      simp only []
      generalize directionVectorsLoop _ _ _ _ _ _ _ _ _ = r1
      generalize directionVectorsLoop _ _ _ _ _ _ _ _ _ = r2
      obtain ⟨u1, res1⟩ := r1
      obtain ⟨u2, res2⟩ := r2
      rintro ⟨hu, hres⟩
      simp only at hu hres
      subst hres
      cases res1
      · exact ⟨hu, rfl⟩
      · have hs := storeResult_sameButLog env hu vectors 0 (Slot.table ‹_›)
        simp only []
        rw [exceptionCheck_sameButLog hs]
        split
        · exact ⟨hs, rfl⟩
        · exact ⟨hs, rfl⟩

/-- No entry point reads the logger: runs from worlds that differ at most in the
state of the logger return the same status and leave worlds that differ at most
in the state of the logger. -/
theorem run_sameButLog (env : Env) (w1 w2 : World) (c : Call) (h : w1.sameButLog w2) :
    (c.run env w1).1.sameButLog (c.run env w2).1 ∧ (c.run env w1).2 = (c.run env w2).2 := by
  have hc : w1.calls = w2.calls := calls_congr h.2.2.2.2
  have h1 := h.1
  have h3 := h.2.2.1
  have hL : ∀ m : String, (Logger.log w1 env.K.LOG_TRACE m).sameButLog
      (Logger.log w2 env.K.LOG_TRACE m) := fun m => (log_sameButLog _ _ _ _ _ _).2 h
  have hW : ∀ (m : String) (e : Event), ((Logger.log w1 env.K.LOG_TRACE m).emit e).sameButLog
      ((Logger.log w2 env.K.LOG_TRACE m).emit e) := fun m e => emit_sameButLog (hL m) e
  cases c
  all_goals try cases ‹jobject›
  all_goals try cases ‹jobject›
  all_goals
    simp only [Call.run, curandGetPropertyNative, curandCreateGeneratorNative,
      curandCreateGeneratorHostNative, curandDestroyGeneratorNative, curandGetVersionNative,
      curandSetStreamNative, curandSetPseudoRandomGeneratorSeedNative,
      curandSetGeneratorOffsetNative, curandSetGeneratorOrderingNative,
      curandSetQuasiRandomGeneratorDimensionsNative, curandCreatePoissonDistributionNative,
      curandDestroyDistributionNative, curandGenerateSeedsNative,
      curandGenerateNative, curandGenerateLongLongNative,
      curandGenerateUniformNative, curandGenerateUniformDoubleNative, curandGenerateNormalNative,
      curandGenerateNormalDoubleNative, curandGenerateLogNormalNative,
      curandGenerateLogNormalDoubleNative, curandGeneratePoissonNative,
      curandGetDirectionVectors32Native, curandGetScrambleConstants32Native,
      curandGetDirectionVectors64Native, curandGetScrambleConstants64Native,
      invoke, getNativePointerValue, log_nativePointer, log_calls, h1, h3, hc]
  all_goals
    try (obtain ⟨-, h2, -, h4, h5⟩ := h
         simp [World.sameButLog, setNativePointerValue, h1, h2, h3, h4, h5]; done)
  all_goals
    try (
      first
      | exact ⟨(set_sameButLog env (hW _ _) _ 0 _).1, trivial⟩
      | (rw [(set_sameButLog env (hW _ _) _ 0 _).2]
         split
         · exact ⟨(set_sameButLog env (hW _ _) _ 0 _).1, rfl⟩
         · exact ⟨(set_sameButLog env (hW _ _) _ 0 _).1, rfl⟩))
  all_goals
    try (
      simp only [initPointerData, releasePointerData]
      generalize env.pointerData _ = r
      obtain ⟨-, h2, -, h4, h5⟩ := h
      cases r
      · simp [World.sameButLog, h1, h2, h3, h4, h5]; done
      · simp only []
        split <;>
          simp [World.sameButLog, emit_calls_other, Event.nativeCall, hc, h1, h2, h3, h4, h5]
        done)
  all_goals
    first
    | (split
       · obtain ⟨-, h2, -, h4, h5⟩ := h
         simp [World.sameButLog, h1, h2, h3, h4, h5]
       · split
         · exact ⟨(log_sameButLog _ _ _ _ _ _).2 (hW _ _), rfl⟩
         · exact directionVectorsWriteBack_sameButLog env _ _ _ _ _ _ _ (hW _ _) _ _)
    | (rw [exceptionCheck_sameButLog (emit_sameButLog (emit_sameButLog (hW _ _) _) _),
         exceptionCheck_sameButLog (storeResult_sameButLog env
           (emit_sameButLog (emit_sameButLog (hW _ _) _) _) _ 0 _)]
       split
       · obtain ⟨-, h2, -, h4, h5⟩ := h
         simp [World.sameButLog, h1, h2, h3, h4, h5]
       · split
         · exact ⟨(log_sameButLog _ _ _ _ _ _).2 (emit_sameButLog (hW _ _) _), rfl⟩
         · split
           · exact ⟨(log_sameButLog _ _ _ _ _ _).2
               (emit_sameButLog (emit_sameButLog (hW _ _) _) _), rfl⟩
           · split
             · exact ⟨emit_sameButLog (emit_sameButLog (hW _ _) _) _, rfl⟩
             · split
               · exact ⟨storeResult_sameButLog env
                   (emit_sameButLog (emit_sameButLog (hW _ _) _) _) _ 0 _, rfl⟩
               · exact ⟨storeResult_sameButLog env
                   (emit_sameButLog (emit_sameButLog (hW _ _) _) _) _ 0 _, rfl⟩)

/-- C25: logging is observational. A run of any entry point after
`setLogLevelNative` has set any log level returns the same status, leaves the
same pending exception, makes the same boundary events (the native call with its
arguments among them) and leaves the same attached handles and managed arrays as
the run without that change; and `setLogLevelNative` stores the level and changes
nothing else, so it adds no event and invokes no native function. -/
theorem logging_is_observational (env : Env) (w : World) (c : Call) (level : Int) :
    ((c.run env (setLogLevelNative w level)).2 = (c.run env w).2 ∧
      (c.run env (setLogLevelNative w level)).1.pending = (c.run env w).1.pending ∧
      (c.run env (setLogLevelNative w level)).1.trace = (c.run env w).1.trace ∧
      (c.run env (setLogLevelNative w level)).1.calls = (c.run env w).1.calls ∧
      (c.run env (setLogLevelNative w level)).1.nativePointer = (c.run env w).1.nativePointer ∧
      (c.run env (setLogLevelNative w level)).1.intArrays = (c.run env w).1.intArrays ∧
      (c.run env (setLogLevelNative w level)).1.objArrays = (c.run env w).1.objArrays) ∧
    (setLogLevelNative w level = { w with logLevel := level } ∧
      (setLogLevelNative w level).logLevel = level ∧
      (setLogLevelNative w level).logOutput = w.logOutput ∧
      (setLogLevelNative w level).trace = w.trace ∧
      (setLogLevelNative w level).calls = w.calls ∧
      (setLogLevelNative w level).pending = w.pending ∧
      (setLogLevelNative w level).nativePointer = w.nativePointer ∧
      (setLogLevelNative w level).intArrays = w.intArrays ∧
      (setLogLevelNative w level).objArrays = w.objArrays) := by
  have hR : (setLogLevelNative w level).sameButLog w := ⟨rfl, rfl, rfl, rfl, rfl⟩
  obtain ⟨⟨h1, h2, h3, h4, h5⟩, hs⟩ := run_sameButLog env _ _ c hR
  exact ⟨⟨hs, h4, h5, calls_congr h5, h1, h2, h3⟩, rfl, rfl, rfl, rfl, rfl, rfl, rfl, rfl, rfl⟩

/-! ## Library load (C26) -/

/-- C26: `JNI_OnLoad` returns `JNI_VERSION_1_4` exactly when obtaining the
environment, `initJNIUtils` and `initPointerUtils` all succeed, and `JNI_ERR`
otherwise; a failing step keeps the later steps from running: when the
environment cannot be obtained no initialisation runs, and when `initJNIUtils`
fails `initPointerUtils` does not run. -/
theorem onLoad_all_or_nothing (env : Env) (w : World)
    (hK : env.K.JNI_VERSION_1_4 ≠ env.K.JNI_ERR) :
    ((JNI_OnLoad env w).2 = env.K.JNI_VERSION_1_4 ↔
      (env.getEnvFails = false ∧ env.initJNIUtilsResult ≠ env.K.JNI_ERR ∧
        env.initPointerUtilsResult ≠ env.K.JNI_ERR)) ∧
    ((JNI_OnLoad env w).2 ≠ env.K.JNI_VERSION_1_4 → (JNI_OnLoad env w).2 = env.K.JNI_ERR) ∧
    (env.getEnvFails = true → (JNI_OnLoad env w).1.trace = w.trace) ∧
    (env.getEnvFails = false → env.initJNIUtilsResult = env.K.JNI_ERR →
      (JNI_OnLoad env w).1.trace = w.trace ++ [Event.initJNIUtils env.initJNIUtilsResult]) ∧
    (env.getEnvFails = false → env.initJNIUtilsResult ≠ env.K.JNI_ERR →
      (JNI_OnLoad env w).1.trace = w.trace ++
        [Event.initJNIUtils env.initJNIUtilsResult,
          Event.initPointerUtils env.initPointerUtilsResult]) := by
  have hK2 : env.K.JNI_ERR ≠ env.K.JNI_VERSION_1_4 := fun h => hK h.symm
  unfold JNI_OnLoad
  cases h1 : env.getEnvFails
  · by_cases h2 : env.initJNIUtilsResult = env.K.JNI_ERR
    · simp [h2, hK2]
    · by_cases h3 : env.initPointerUtilsResult = env.K.JNI_ERR
      · simp [h2, h3, hK2]
      · simp [h2, h3, hK]
  · simp [hK2]

/-- Witness of C26: the header constants and the stub environment, in which all
three steps succeed. -/
theorem onLoad_all_or_nothing_witness :
    stubEnv.K.JNI_VERSION_1_4 ≠ stubEnv.K.JNI_ERR ∧
    (((JNI_OnLoad stubEnv World.init).2 = stubEnv.K.JNI_VERSION_1_4 ↔
      (stubEnv.getEnvFails = false ∧ stubEnv.initJNIUtilsResult ≠ stubEnv.K.JNI_ERR ∧
        stubEnv.initPointerUtilsResult ≠ stubEnv.K.JNI_ERR)) ∧
    ((JNI_OnLoad stubEnv World.init).2 ≠ stubEnv.K.JNI_VERSION_1_4 →
      (JNI_OnLoad stubEnv World.init).2 = stubEnv.K.JNI_ERR) ∧
    (stubEnv.getEnvFails = true → (JNI_OnLoad stubEnv World.init).1.trace = World.init.trace) ∧
    (stubEnv.getEnvFails = false → stubEnv.initJNIUtilsResult = stubEnv.K.JNI_ERR →
      (JNI_OnLoad stubEnv World.init).1.trace =
        World.init.trace ++ [Event.initJNIUtils stubEnv.initJNIUtilsResult]) ∧
    (stubEnv.getEnvFails = false → stubEnv.initJNIUtilsResult ≠ stubEnv.K.JNI_ERR →
      (JNI_OnLoad stubEnv World.init).1.trace = World.init.trace ++
        [Event.initJNIUtils stubEnv.initJNIUtilsResult,
          Event.initPointerUtils stubEnv.initPointerUtilsResult])) :=
  ⟨by decide, onLoad_all_or_nothing stubEnv World.init (by decide)⟩

/-! ## Handles across destroy and Poisson creation (C27, C28) -/

/-- C27: curandDestroyGenerator and curandDestroyDistribution leave the pointer
value attached to every managed object as it was, whatever status the native
teardown returns, so a second destroy of the same object passes the same handle
value to the native teardown again. -/
theorem destroy_keeps_handle (env : Env) (w : World) (o : Nat) :
    ((curandDestroyGeneratorNative env w (some o)).1.nativePointer = w.nativePointer ∧
      (curandDestroyGeneratorNative env
          (curandDestroyGeneratorNative env w (some o)).1 (some o)).1.calls =
        w.calls ++ [NativeCall.curandDestroyGenerator (ofJlong (w.nativePointer o)),
          NativeCall.curandDestroyGenerator (ofJlong (w.nativePointer o))]) ∧
    ((curandDestroyDistributionNative env w (some o)).1.nativePointer = w.nativePointer ∧
      (curandDestroyDistributionNative env
          (curandDestroyDistributionNative env w (some o)).1 (some o)).1.calls =
        w.calls ++ [NativeCall.curandDestroyDistribution (ofJlong (w.nativePointer o)),
          NativeCall.curandDestroyDistribution (ofJlong (w.nativePointer o))]) := by
  refine ⟨⟨?_, ?_⟩, ⟨?_, ?_⟩⟩ <;>
    simp [curandDestroyGeneratorNative, curandDestroyDistributionNative, invoke,
      getNativePointerValue]

/-- C28: curandCreatePoissonDistribution attaches the value of its local handle
for every native status; the local is set to null before the native call, so
when the native creation does not write its output the attached pointer value
becomes 0, whatever was attached before, and the status of the native call is
returned; the values attached to other objects stay. -/
theorem poisson_creation_overwrites_handle (env : Env) (w : World) (d : Nat) (lambda : JDouble)
    (hout : env.outHandle w.calls (NativeCall.curandCreatePoissonDistribution lambda) = none) :
    (curandCreatePoissonDistributionNative env w lambda (some d)).1.nativePointer d = 0 ∧
    (curandCreatePoissonDistributionNative env w lambda (some d)).2 =
      env.status w.calls (NativeCall.curandCreatePoissonDistribution lambda) ∧
    (∀ o, o ≠ d →
      (curandCreatePoissonDistributionNative env w lambda (some d)).1.nativePointer o =
        w.nativePointer o) := by
  refine ⟨?_, ?_, fun o ho => ?_⟩
  · simp [curandCreatePoissonDistributionNative, invoke, hout, toJlong]
  · simp [curandCreatePoissonDistributionNative, invoke]
  · simp only [curandCreatePoissonDistributionNative, invoke]
    rw [setNativePointerValue_other _ _ _ _ ho]
    simp

/-- Witness of C28: a library that fails the creation with the status 102 without
writing the handle, on an object to which the handle 4096 was attached. -/
theorem poisson_creation_overwrites_handle_witness :
    failingCreateEnv.outHandle attachedWorld.calls
      (NativeCall.curandCreatePoissonDistribution ⟨0⟩) = none ∧
    attachedWorld.nativePointer 1 = 4096 ∧
    ((curandCreatePoissonDistributionNative failingCreateEnv attachedWorld ⟨0⟩
        (some 1)).1.nativePointer 1 = 0 ∧
    (curandCreatePoissonDistributionNative failingCreateEnv attachedWorld ⟨0⟩ (some 1)).2 =
      failingCreateEnv.status attachedWorld.calls
        (NativeCall.curandCreatePoissonDistribution ⟨0⟩) ∧
    (∀ o, o ≠ 1 →
      (curandCreatePoissonDistributionNative failingCreateEnv attachedWorld ⟨0⟩
        (some 1)).1.nativePointer o = attachedWorld.nativePointer o)) :=
  ⟨rfl, rfl, poisson_creation_overwrites_handle failingCreateEnv attachedWorld 1 ⟨0⟩ rfl⟩

/-! ## Order of the native call and the selector check (C29) -/

/-- C29: curandGetDirectionVectors32 and curandGetDirectionVectors64 called with
a non-null container of length at least 1 invoke the native retrieval exactly
once, with the selector unchanged, as the first boundary event of the run, for
every selector; for a selector that is not one of the two legal sets of the
width the native call is the only event, the native call count grows by 1, and
the entry point returns `JCURAND_STATUS_INTERNAL_ERROR` whatever status the
native call returned. -/
theorem native_call_precedes_selector_check (env : Env) (w : World) (v : Nat)
    (set32 set64 : Int) (hlen : 1 ≤ (w.objArrays v).length) :
    ((curandGetDirectionVectors32Native env w (some v) set32).1.calls =
        w.calls ++ [NativeCall.curandGetDirectionVectors32 set32] ∧
      (∃ rest : List Event, (curandGetDirectionVectors32Native env w (some v) set32).1.trace =
        w.trace ++ Event.native (NativeCall.curandGetDirectionVectors32 set32) :: rest) ∧
      (set32 ≠ env.K.CURAND_DIRECTION_VECTORS_32_JOEKUO6 ∧
          set32 ≠ env.K.CURAND_SCRAMBLED_DIRECTION_VECTORS_32_JOEKUO6 →
        (curandGetDirectionVectors32Native env w (some v) set32).1.trace =
          w.trace ++ [Event.native (NativeCall.curandGetDirectionVectors32 set32)] ∧
        (curandGetDirectionVectors32Native env w (some v) set32).1.calls.length =
          w.calls.length + 1 ∧
        (curandGetDirectionVectors32Native env w (some v) set32).2 =
          env.K.JCURAND_STATUS_INTERNAL_ERROR)) ∧
    ((curandGetDirectionVectors64Native env w (some v) set64).1.calls =
        w.calls ++ [NativeCall.curandGetDirectionVectors64 set64] ∧
      (∃ rest : List Event, (curandGetDirectionVectors64Native env w (some v) set64).1.trace =
        w.trace ++ Event.native (NativeCall.curandGetDirectionVectors64 set64) :: rest) ∧
      (set64 ≠ env.K.CURAND_DIRECTION_VECTORS_64_JOEKUO6 ∧
          set64 ≠ env.K.CURAND_SCRAMBLED_DIRECTION_VECTORS_64_JOEKUO6 →
        (curandGetDirectionVectors64Native env w (some v) set64).1.trace =
          w.trace ++ [Event.native (NativeCall.curandGetDirectionVectors64 set64)] ∧
        (curandGetDirectionVectors64Native env w (some v) set64).1.calls.length =
          w.calls.length + 1 ∧
        (curandGetDirectionVectors64Native env w (some v) set64).2 =
          env.K.JCURAND_STATUS_INTERNAL_ERROR)) := by
  have hlen1 : ¬ (w.objArrays v).length < 1 := by omega
  have hc32 := run_calls env w (Call.curandGetDirectionVectors32 (some v) set32)
  have hc64 := run_calls env w (Call.curandGetDirectionVectors64 (some v) set64)
  simp only [Call.run, Call.nativeCall, hlen1, if_false, Option.toList] at hc32 hc64
  refine ⟨⟨hc32, ?_, fun h => ⟨?_, ?_, ?_⟩⟩, ⟨hc64, ?_, fun h => ⟨?_, ?_, ?_⟩⟩⟩
  · by_cases h : set32 ≠ env.K.CURAND_DIRECTION_VECTORS_32_JOEKUO6 ∧
        set32 ≠ env.K.CURAND_SCRAMBLED_DIRECTION_VECTORS_32_JOEKUO6
    · exact ⟨[], by simp [curandGetDirectionVectors32Native, hlen1, invoke, h]⟩
    · obtain ⟨rest, hrest⟩ := directionVectorsWriteBack_trace env "[I"
        "Could not find int array class\n" Event.newIntArray toJint
        ((env.outTable w.calls (NativeCall.curandGetDirectionVectors32 set32)).getD env.wildTable)
        20000 32
        ((Logger.log w env.K.LOG_TRACE
            "Executing curandGetDirectionVectors32(vectors=%p, set=%d)\n").emit
          (Event.native (NativeCall.curandGetDirectionVectors32 set32))) v
        (env.status w.calls (NativeCall.curandGetDirectionVectors32 set32))
      refine ⟨Event.findClass "[I" (env.findClassOk "[I") :: rest, ?_⟩
      simp only [curandGetDirectionVectors32Native, hlen1, if_false, invoke, log_calls, h]
      rw [hrest]
      simp
  · simp [curandGetDirectionVectors32Native, hlen1, invoke, h]
  · rw [hc32]; simp
  · simp [curandGetDirectionVectors32Native, hlen1, invoke, h]
  · by_cases h : set64 ≠ env.K.CURAND_DIRECTION_VECTORS_64_JOEKUO6 ∧
        set64 ≠ env.K.CURAND_SCRAMBLED_DIRECTION_VECTORS_64_JOEKUO6
    · exact ⟨[], by simp [curandGetDirectionVectors64Native, hlen1, invoke, h]⟩
    · obtain ⟨rest, hrest⟩ := directionVectorsWriteBack_trace env "[J"
        "Could not find long array class\n" Event.newLongArray toJlong
        ((env.outTable w.calls (NativeCall.curandGetDirectionVectors64 set64)).getD env.wildTable)
        20000 64
        ((Logger.log w env.K.LOG_TRACE
            "Executing curandGetDirectionVectors64(vectors=%p, set=%d)\n").emit
          (Event.native (NativeCall.curandGetDirectionVectors64 set64))) v
        (env.status w.calls (NativeCall.curandGetDirectionVectors64 set64))
      refine ⟨Event.findClass "[J" (env.findClassOk "[J") :: rest, ?_⟩
      simp only [curandGetDirectionVectors64Native, hlen1, if_false, invoke, log_calls, h]
      rw [hrest]
      simp
  · simp [curandGetDirectionVectors64Native, hlen1, invoke, h]
  · rw [hc64]; simp
  · simp [curandGetDirectionVectors64Native, hlen1, invoke, h]

/-- Witness of C29: the selector 7, which the library of `strictEnv` rejects, on a
container of length 1. -/
theorem native_call_precedes_selector_check_witness :
    (1 ≤ (containerWorld.objArrays 1).length) ∧
    (((curandGetDirectionVectors32Native strictEnv containerWorld (some 1) (7 : Int)).1.calls =
        containerWorld.calls ++ [NativeCall.curandGetDirectionVectors32 (7 : Int)] ∧
      (∃ rest : List Event, (curandGetDirectionVectors32Native strictEnv containerWorld (some 1) (7 : Int)).1.trace =
        containerWorld.trace ++ Event.native (NativeCall.curandGetDirectionVectors32 (7 : Int)) :: rest) ∧
      ((7 : Int) ≠ strictEnv.K.CURAND_DIRECTION_VECTORS_32_JOEKUO6 ∧
          (7 : Int) ≠ strictEnv.K.CURAND_SCRAMBLED_DIRECTION_VECTORS_32_JOEKUO6 →
        (curandGetDirectionVectors32Native strictEnv containerWorld (some 1) (7 : Int)).1.trace =
          containerWorld.trace ++ [Event.native (NativeCall.curandGetDirectionVectors32 (7 : Int))] ∧
        (curandGetDirectionVectors32Native strictEnv containerWorld (some 1) (7 : Int)).1.calls.length =
          containerWorld.calls.length + 1 ∧
        (curandGetDirectionVectors32Native strictEnv containerWorld (some 1) (7 : Int)).2 =
          strictEnv.K.JCURAND_STATUS_INTERNAL_ERROR)) ∧
    ((curandGetDirectionVectors64Native strictEnv containerWorld (some 1) (7 : Int)).1.calls =
        containerWorld.calls ++ [NativeCall.curandGetDirectionVectors64 (7 : Int)] ∧
      (∃ rest : List Event, (curandGetDirectionVectors64Native strictEnv containerWorld (some 1) (7 : Int)).1.trace =
        containerWorld.trace ++ Event.native (NativeCall.curandGetDirectionVectors64 (7 : Int)) :: rest) ∧
      ((7 : Int) ≠ strictEnv.K.CURAND_DIRECTION_VECTORS_64_JOEKUO6 ∧
          (7 : Int) ≠ strictEnv.K.CURAND_SCRAMBLED_DIRECTION_VECTORS_64_JOEKUO6 →
        (curandGetDirectionVectors64Native strictEnv containerWorld (some 1) (7 : Int)).1.trace =
          containerWorld.trace ++ [Event.native (NativeCall.curandGetDirectionVectors64 (7 : Int))] ∧
        (curandGetDirectionVectors64Native strictEnv containerWorld (some 1) (7 : Int)).1.calls.length =
          containerWorld.calls.length + 1 ∧
        (curandGetDirectionVectors64Native strictEnv containerWorld (some 1) (7 : Int)).2 =
          strictEnv.K.JCURAND_STATUS_INTERNAL_ERROR))) :=
  ⟨by decide,
    native_call_precedes_selector_check strictEnv containerWorld 1 7 7 (by decide)⟩

/-! ## Only element 0 of an output array is written (C30) -/

/-- The helper `set` at index 0 leaves every other element of every `int[]` and
every length as it was. -/
theorem set_zero_frame (env : Env) (w : World) (ja a j : Nat) (value : Int) (hj : 1 ≤ j) :
    ((JNIUtils.set env w ja 0 value).1.intArrays a)[j]? = (w.intArrays a)[j]? ∧
      ((JNIUtils.set env w ja 0 value).1.intArrays a).length = (w.intArrays a).length := by
  have hne : 0 ≠ j := by omega
  unfold JNIUtils.set
  split
  · split
    · by_cases h : a = ja
      · subst h
        simp [List.getElem?_set_ne hne]
      · simp [Function.update_noteq h]
    · exact ⟨rfl, rfl⟩
  · exact ⟨rfl, rfl⟩

/-- The store into element 0 of a container leaves every other element of every
object array and every length as it was. -/
theorem storeResult_zero_frame (env : Env) (w : World) (container v j : Nat) (value : Slot)
    (hj : 1 ≤ j) :
    ((storeResult env w container 0 value).objArrays v)[j]? = (w.objArrays v)[j]? ∧
      ((storeResult env w container 0 value).objArrays v).length = (w.objArrays v).length := by
  have hne : 0 ≠ j := by omega
  unfold storeResult
  split
  · exact ⟨rfl, rfl⟩
  · by_cases h : v = container
    · subst h
      simp [List.getElem?_set_ne hne]
    · simp [Function.update_noteq h]

/-- The loop leaves the object arrays alone, whatever it returns. -/
theorem loop_eq_objArrays {env : Env} {newArray : Nat → Bool → Event}
    {conv : Nat → Int} {vectors_native : Nat → Nat → Nat} {numVectors remaining i : Nat}
    {w w2 : World} {arrays : List (Option (List Int))} {r : Option (List (Option (List Int)))}
    (h : directionVectorsLoop env newArray conv vectors_native numVectors remaining i w
      arrays = (w2, r)) : w2.objArrays = w.objArrays := by
  have := congrArg (fun x => x.1.objArrays) h
  simpa using this.symm

/-- The write-back block leaves every element but element 0 of every object
array, and every length, as it was. -/
theorem directionVectorsWriteBack_zero_frame (env : Env) (cls notFound : String)
    (newArray : Nat → Bool → Event) (conv : Nat → Int) (vectors_native : Nat → Nat → Nat)
    (dimensions numVectors : Nat) (w : World) (vectors : Nat) (result : Int) (v j : Nat)
    (hj : 1 ≤ j) :
    ((directionVectorsWriteBack env cls notFound newArray conv vectors_native dimensions
        numVectors w vectors result).1.objArrays v)[j]? = (w.objArrays v)[j]? ∧
      ((directionVectorsWriteBack env cls notFound newArray conv vectors_native dimensions
        numVectors w vectors result).1.objArrays v).length = (w.objArrays v).length := by
  unfold directionVectorsWriteBack
  split
  · simp
  · split
    · simp
    · simp only []
      generalize hr : directionVectorsLoop _ _ _ _ _ _ _ _ _ = r
      obtain ⟨w2, res⟩ := r
      have hw : w2.objArrays = w.objArrays := by
        rw [loop_eq_objArrays hr]; simp
      cases res
      · simp [hw]
      · have hs := storeResult_zero_frame env w2 vectors v j (Slot.table ‹_›) hj
        rw [hw] at hs
        simp only []
        split <;> exact hs

/-- C30: the entry points that write an output through a caller supplied array
(curandGetVersion, curandGetProperty, curandGetDirectionVectors32/64 and
curandGetScrambleConstants32/64) leave every element at an index of 1 or more,
and the length of the array, as they were, whatever the library and the JVM
services answer. -/
theorem only_element_zero_written (env : Env) (w : World) (a v j : Nat)
    (type set32 set64 : Int) (hj : 1 ≤ j) :
    (((curandGetVersionNative env w (some a)).1.intArrays a)[j]? = (w.intArrays a)[j]? ∧
      ((curandGetVersionNative env w (some a)).1.intArrays a).length = (w.intArrays a).length) ∧
    (((curandGetPropertyNative env w type (some a)).1.intArrays a)[j]? = (w.intArrays a)[j]? ∧
      ((curandGetPropertyNative env w type (some a)).1.intArrays a).length =
        (w.intArrays a).length) ∧
    (((curandGetDirectionVectors32Native env w (some v) set32).1.objArrays v)[j]? =
        (w.objArrays v)[j]? ∧
      ((curandGetDirectionVectors32Native env w (some v) set32).1.objArrays v).length =
        (w.objArrays v).length) ∧
    (((curandGetScrambleConstants32Native env w (some v)).1.objArrays v)[j]? =
        (w.objArrays v)[j]? ∧
      ((curandGetScrambleConstants32Native env w (some v)).1.objArrays v).length =
        (w.objArrays v).length) ∧
    (((curandGetDirectionVectors64Native env w (some v) set64).1.objArrays v)[j]? =
        (w.objArrays v)[j]? ∧
      ((curandGetDirectionVectors64Native env w (some v) set64).1.objArrays v).length =
        (w.objArrays v).length) ∧
    (((curandGetScrambleConstants64Native env w (some v)).1.objArrays v)[j]? =
        (w.objArrays v)[j]? ∧
      ((curandGetScrambleConstants64Native env w (some v)).1.objArrays v).length =
        (w.objArrays v).length) := by
  refine ⟨?_, ?_, ?_, ?_, ?_, ?_⟩
  · have h := set_zero_frame env
      ((Logger.log w env.K.LOG_TRACE "Executing curandGetVersion(version=%p)\n").emit
        (Event.native NativeCall.curandGetVersion)) a a j
      ((env.outInt w.calls NativeCall.curandGetVersion).getD (toJint env.indeterminate)) hj
    simpa [curandGetVersionNative, invoke] using h
  · have h := set_zero_frame env
      ((Logger.log w env.K.LOG_TRACE "Executing curandGetProperty(type=%d, value=%p)\n").emit
        (Event.native (NativeCall.curandGetProperty type))) a a j
      ((env.outInt w.calls (NativeCall.curandGetProperty type)).getD (toJint env.indeterminate))
      hj
    simp only [emit_intArrays, log_intArrays] at h
    simp only [curandGetPropertyNative, invoke, log_calls]
    split <;> exact h
  · simp only [curandGetDirectionVectors32Native, invoke]
    split
    · simp
    · split
      · simp
      · have h := directionVectorsWriteBack_zero_frame env "[I"
          "Could not find int array class\n" Event.newIntArray toJint
          ((env.outTable w.calls (NativeCall.curandGetDirectionVectors32 set32)).getD
            env.wildTable) 20000 32
          ((Logger.log w env.K.LOG_TRACE
              "Executing curandGetDirectionVectors32(vectors=%p, set=%d)\n").emit
            (Event.native (NativeCall.curandGetDirectionVectors32 set32))) v
          (env.status w.calls (NativeCall.curandGetDirectionVectors32 set32)) v j hj
        simpa using h
  · simp only [curandGetScrambleConstants32Native, invoke]
    split
    · simp
    · split
      · simp
      · split
        · simp
        · split
          · simp
          · have h := storeResult_zero_frame env
              ((((Logger.log w env.K.LOG_TRACE
                  "Executing curandGetScrambleConstants32(constants=%p)\n").emit
                (Event.native NativeCall.curandGetScrambleConstants32)).emit
                (Event.newIntArray 20000 true)).emit (Event.getPrimitiveArrayCritical true)) v v j
              (Slot.row (fillRow toJint
                ((env.outConstants w.calls NativeCall.curandGetScrambleConstants32).getD
                  env.wildConstants) 20000)) hj
            simp only [emit_objArrays, log_objArrays] at h
            simp only [log_calls]
            split <;> exact h
  · simp only [curandGetDirectionVectors64Native, invoke]
    split
    · simp
    · split
      · simp
      · have h := directionVectorsWriteBack_zero_frame env "[J"
          "Could not find long array class\n" Event.newLongArray toJlong
          ((env.outTable w.calls (NativeCall.curandGetDirectionVectors64 set64)).getD
            env.wildTable) 20000 64
          ((Logger.log w env.K.LOG_TRACE
              "Executing curandGetDirectionVectors64(vectors=%p, set=%d)\n").emit
            (Event.native (NativeCall.curandGetDirectionVectors64 set64))) v
          (env.status w.calls (NativeCall.curandGetDirectionVectors64 set64)) v j hj
        simpa using h
  · simp only [curandGetScrambleConstants64Native, invoke]
    split
    · simp
    · split
      · simp
      · split
        · simp
        · split
          · simp
          · have h := storeResult_zero_frame env
              ((((Logger.log w env.K.LOG_TRACE
                  "Executing curandGetScrambleConstants64(constants=%p)\n").emit
                (Event.native NativeCall.curandGetScrambleConstants64)).emit
                (Event.newLongArray 20000 true)).emit (Event.getPrimitiveArrayCritical true)) v v j
              (Slot.row (fillRow toJlong
                ((env.outConstants w.calls NativeCall.curandGetScrambleConstants64).getD
                  env.wildConstants) 20000)) hj
            simp only [emit_objArrays, log_objArrays] at h
            simp only [log_calls]
            split <;> exact h

/-- Witness of C30: index 1 of arrays of length 2 under the stub environment. -/
theorem only_element_zero_written_witness :
    ((1 : Nat) ≤ 1) ∧
    ((((curandGetVersionNative stubEnv pairWorld (some 1)).1.intArrays 1)[1]? = (pairWorld.intArrays 1)[1]? ∧
      ((curandGetVersionNative stubEnv pairWorld (some 1)).1.intArrays 1).length = (pairWorld.intArrays 1).length) ∧
    (((curandGetPropertyNative stubEnv pairWorld (0 : Int) (some 1)).1.intArrays 1)[1]? = (pairWorld.intArrays 1)[1]? ∧
      ((curandGetPropertyNative stubEnv pairWorld (0 : Int) (some 1)).1.intArrays 1).length =
        (pairWorld.intArrays 1).length) ∧
    (((curandGetDirectionVectors32Native stubEnv pairWorld (some 1) (101 : Int)).1.objArrays 1)[1]? =
        (pairWorld.objArrays 1)[1]? ∧
      ((curandGetDirectionVectors32Native stubEnv pairWorld (some 1) (101 : Int)).1.objArrays 1).length =
        (pairWorld.objArrays 1).length) ∧
    (((curandGetScrambleConstants32Native stubEnv pairWorld (some 1)).1.objArrays 1)[1]? =
        (pairWorld.objArrays 1)[1]? ∧
      ((curandGetScrambleConstants32Native stubEnv pairWorld (some 1)).1.objArrays 1).length =
        (pairWorld.objArrays 1).length) ∧
    (((curandGetDirectionVectors64Native stubEnv pairWorld (some 1) (103 : Int)).1.objArrays 1)[1]? =
        (pairWorld.objArrays 1)[1]? ∧
      ((curandGetDirectionVectors64Native stubEnv pairWorld (some 1) (103 : Int)).1.objArrays 1).length =
        (pairWorld.objArrays 1).length) ∧
    (((curandGetScrambleConstants64Native stubEnv pairWorld (some 1)).1.objArrays 1)[1]? =
        (pairWorld.objArrays 1)[1]? ∧
      ((curandGetScrambleConstants64Native stubEnv pairWorld (some 1)).1.objArrays 1).length =
        (pairWorld.objArrays 1).length)) :=
  ⟨by decide,
    only_element_zero_written stubEnv pairWorld 1 1 1 0 101 103 (by decide)⟩

end JCurand
